import Mathlib

/-!
# Workload manifest synthesis (pkg/workspace/manifests/manifests.go)

A shallow embedding of the manifest generators of the KAITO workspace
controller.  Kubernetes API objects are records; a Go pointer or a Go value
whose nil-ness the code observes is an `Option`; a Go `map[string]string` is
an association list.  Mutator closures `func(ctx, *T) error` become functions
returning the mutated draft together with the returned error.
-/

set_option linter.dupNamespace false

namespace Kaito

/-! ## Go maps -/

/-- A Go `map[string]string` value, as the list of its entries.  The order of
the list stands for the order in which a `range` loop visits the entries,
which Go leaves unspecified. -/
structure GoMap where
  entries : List (String × String)
deriving DecidableEq, Repr

namespace GoMap

/-- Keys of a Go map are pairwise distinct. -/
def WF (m : GoMap) : Prop := (m.entries.map Prod.fst).Nodup

instance (m : GoMap) : Decidable m.WF := by unfold WF; infer_instance

/-- The map literal with one entry, `map[string]string{k: v}`. -/
def single (k v : String) : GoMap := ⟨[(k, v)]⟩

/-- The value of `make(map[string]string)`. -/
def make : GoMap := ⟨[]⟩

/-- Index expression `m[k]` with the comma-ok form. -/
def get? (m : GoMap) (k : String) : Option String := m.entries.lookup k

/-- Entry list after the assignment `m[k] = v`. -/
def setEntries (k v : String) : List (String × String) → List (String × String)
  | [] => [(k, v)]
  | (k1, v1) :: rest => if k1 = k then (k1, v) :: rest else (k1, v1) :: setEntries k v rest

/-- Assignment `m[k] = v`. -/
def set (m : GoMap) (k v : String) : GoMap := ⟨setEntries k v m.entries⟩

/-- Builtin `len(m)`. -/
def len (m : GoMap) : Nat := m.entries.length

/-- The entries a `for key, value := range m` loop visits; a nil map has none. -/
def range : Option GoMap → List (String × String)
  | none => []
  | some m => m.entries

end GoMap

/-- The elements of a Go slice that may be nil; a nil slice has none. -/
def sliceElems {α : Type} : Option (List α) → List α
  | none => []
  | some xs => xs

/-! ## Kubernetes API types (k8s.io/api, k8s.io/apimachinery) -/

/-- Type schema.GroupVersion. -/
structure GroupVersion where
  Group : String
  Version : String
deriving DecidableEq, Repr

/-- Type schema.GroupVersionKind. -/
structure GroupVersionKind where
  Group : String
  Version : String
  Kind : String
deriving DecidableEq, Repr

/-- Method `GroupVersion.WithKind`. -/
def GroupVersion.WithKind (gv : GroupVersion) (kind : String) : GroupVersionKind :=
  { Group := gv.Group, Version := gv.Version, Kind := kind }

/-- Method `GroupVersionKind.GroupVersion`. -/
def GroupVersionKind.GroupVersion (gvk : GroupVersionKind) : GroupVersion :=
  { Group := gvk.Group, Version := gvk.Version }

/-- Method `GroupVersion.String`: the version alone for the core group,
otherwise group and version joined by a slash. -/
def GroupVersion.String (gv : GroupVersion) : String :=
  if gv.Group.length > 0 then gv.Group ++ "/" ++ gv.Version else gv.Version

structure TypeMeta where
  APIVersion : String := ""
  Kind : String := ""
deriving DecidableEq, Repr

structure OwnerReference where
  APIVersion : String
  Kind : String
  Name : String
  UID : String
  Controller : Option Bool
  BlockOwnerDeletion : Option Bool
deriving DecidableEq, Repr

structure ObjectMeta where
  Name : String := ""
  Namespace : String := ""
  UID : String := ""
  Labels : Option GoMap := none
  Annotations : Option GoMap := none
  OwnerReferences : List OwnerReference := []
deriving DecidableEq, Repr

structure LabelSelector where
  MatchLabels : Option GoMap := none
deriving DecidableEq, Repr

inductive IntOrStringType where
  | Int
  | String
deriving DecidableEq, Repr

/-- Type intstr.IntOrString. -/
structure IntOrString where
  type : IntOrStringType := IntOrStringType.Int
  IntVal : Int := 0
  StrVal : String := ""
deriving DecidableEq, Repr

/-- Function intstr.FromInt32. -/
def intstr.FromInt32 (val : Int) : IntOrString := { type := IntOrStringType.Int, IntVal := val }

/-- Go conversion `int32(x)` of an `int`: the low 32 bits, read as signed. -/
def toInt32 (x : Int) : Int := (x + 2 ^ 31) % 2 ^ 32 - 2 ^ 31

structure ServicePort where
  Name : String
  Protocol : String
  Port : Int
  TargetPort : IntOrString
deriving DecidableEq, Repr

structure ServiceSpec where
  type : String := ""
  Ports : List ServicePort := []
  Selector : Option GoMap := none
  ClusterIP : String := ""
  PublishNotReadyAddresses : Bool := false
deriving DecidableEq, Repr

structure Service where
  TypeMeta : TypeMeta := {}
  ObjectMeta : ObjectMeta := {}
  Spec : ServiceSpec := {}
deriving DecidableEq, Repr

structure VolumeMount where
  Name : String
  MountPath : String
  ReadOnly : Bool := false
  SubPath : String := ""
deriving DecidableEq, Repr

structure Volume where
  Name : String
  Source : String := ""
deriving DecidableEq, Repr

structure EnvVar where
  Name : String
  Value : String
deriving DecidableEq, Repr

structure ContainerPort where
  Name : String := ""
  ContainerPort : Int
  Protocol : String := ""
deriving DecidableEq, Repr

structure Probe where
  Handler : String := ""
  InitialDelaySeconds : Int := 0
  PeriodSeconds : Int := 0
deriving DecidableEq, Repr

structure ResourceRequirements where
  Limits : Option GoMap := none
  Requests : Option GoMap := none
deriving DecidableEq, Repr

structure LocalObjectReference where
  Name : String
deriving DecidableEq, Repr

structure Toleration where
  Key : String := ""
  Operator : String := ""
  Value : String := ""
  Effect : String := ""
deriving DecidableEq, Repr

structure Container where
  Name : String := ""
  Image : String := ""
  Command : List String := []
  Resources : ResourceRequirements := {}
  LivenessProbe : Option Probe := none
  ReadinessProbe : Option Probe := none
  Ports : List ContainerPort := []
  VolumeMounts : List VolumeMount := []
  Env : List EnvVar := []
deriving DecidableEq, Repr

structure NodeSelectorRequirement where
  Key : String
  Operator : String
  Values : List String
deriving DecidableEq, Repr

structure NodeSelectorTerm where
  MatchExpressions : List NodeSelectorRequirement := []
  MatchFields : List NodeSelectorRequirement := []
deriving DecidableEq, Repr

structure NodeSelector where
  NodeSelectorTerms : List NodeSelectorTerm
deriving DecidableEq, Repr

structure PreferredSchedulingTerm where
  Weight : Int
  Preference : NodeSelectorTerm
deriving DecidableEq, Repr

structure NodeAffinity where
  RequiredDuringSchedulingIgnoredDuringExecution : Option NodeSelector := none
  PreferredDuringSchedulingIgnoredDuringExecution : List PreferredSchedulingTerm := []
deriving DecidableEq, Repr

/-- Pod affinity and anti-affinity terms; the generators never build one. -/
structure PodAffinityTerm where
  LabelSelector : Option LabelSelector := none
  TopologyKey : String := ""
deriving DecidableEq, Repr

structure Affinity where
  NodeAffinity : Option NodeAffinity := none
  PodAffinity : Option (List PodAffinityTerm) := none
  PodAntiAffinity : Option (List PodAffinityTerm) := none
deriving DecidableEq, Repr

structure PodSpec where
  InitContainers : List Container := []
  Containers : List Container := []
  RestartPolicy : String := ""
  ShareProcessNamespace : Option Bool := none
  Volumes : List Volume := []
  Tolerations : Option (List Toleration) := none
  ImagePullSecrets : List LocalObjectReference := []
  Affinity : Option Affinity := none
deriving DecidableEq, Repr

structure PodTemplateSpec where
  ObjectMeta : ObjectMeta := {}
  Spec : PodSpec := {}
deriving DecidableEq, Repr

/-- Generated method `PodTemplateSpec.DeepCopy`: a copy sharing no storage with
the receiver; on values it is the identity. -/
def PodTemplateSpec.DeepCopy (t : PodTemplateSpec) : PodTemplateSpec := t

structure PersistentVolumeClaim where
  ObjectMeta : ObjectMeta := {}
  StorageClassName : Option String := none
  Storage : String := ""
deriving DecidableEq, Repr

structure StatefulSetPersistentVolumeClaimRetentionPolicy where
  WhenDeleted : String := ""
  WhenScaled : String := ""
deriving DecidableEq, Repr

structure StatefulSetSpec where
  Replicas : Option Int := none
  PodManagementPolicy : String := ""
  PersistentVolumeClaimRetentionPolicy : Option StatefulSetPersistentVolumeClaimRetentionPolicy := none
  Selector : Option LabelSelector := none
  Template : PodTemplateSpec := {}
  ServiceName : String := ""
  VolumeClaimTemplates : List PersistentVolumeClaim := []
deriving DecidableEq, Repr

structure StatefulSetCondition where
  type : String := ""
  Status : String := ""
  Reason : String := ""
  Message : String := ""
deriving DecidableEq, Repr

structure StatefulSetStatus where
  ReadyReplicas : Int := 0
  Conditions : List StatefulSetCondition := []
deriving DecidableEq, Repr

structure StatefulSet where
  TypeMeta : TypeMeta := {}
  ObjectMeta : ObjectMeta := {}
  Spec : StatefulSetSpec := {}
  Status : StatefulSetStatus := {}
deriving DecidableEq, Repr

structure RollingUpdateDeployment where
  MaxUnavailable : Option IntOrString := none
  MaxSurge : Option IntOrString := none
deriving DecidableEq, Repr

structure DeploymentStrategy where
  type : String := ""
  RollingUpdate : Option RollingUpdateDeployment := none
deriving DecidableEq, Repr

structure DeploymentSpec where
  Replicas : Option Int := none
  Strategy : DeploymentStrategy := {}
  Selector : Option LabelSelector := none
  Template : PodTemplateSpec := {}
deriving DecidableEq, Repr

structure DeploymentCondition where
  type : String := ""
  Status : String := ""
  Reason : String := ""
  Message : String := ""
deriving DecidableEq, Repr

structure DeploymentStatus where
  ReadyReplicas : Int := 0
  Conditions : List DeploymentCondition := []
deriving DecidableEq, Repr

structure Deployment where
  TypeMeta : TypeMeta := {}
  ObjectMeta : ObjectMeta := {}
  Spec : DeploymentSpec := {}
  Status : DeploymentStatus := {}
deriving DecidableEq, Repr

structure JobSpec where
  Template : PodTemplateSpec := {}
deriving DecidableEq, Repr

structure JobStatus where
  Active : Int := 0
  Succeeded : Int := 0
  Failed : Int := 0
  Ready : Option Int := none
deriving DecidableEq, Repr

structure Job where
  TypeMeta : TypeMeta := {}
  ObjectMeta : ObjectMeta := {}
  Spec : JobSpec := {}
  Status : JobStatus := {}
deriving DecidableEq, Repr

/-! String constants of k8s.io/api. -/

def corev1.ProtocolTCP : String := "TCP"
def corev1.RestartPolicyNever : String := "Never"
def corev1.NodeSelectorOpIn : String := "In"
def appsv1.ParallelPodManagement : String := "Parallel"
def appsv1.RetainPersistentVolumeClaimRetentionPolicyType : String := "Retain"
def appsv1.DeletePersistentVolumeClaimRetentionPolicyType : String := "Delete"
def appsv1.RollingUpdateDeploymentStrategyType : String := "RollingUpdate"

/-! ## Workspace API (api/v1beta1) -/

/-- The constants of package api/v1beta1 that the generators read.  Their
declarations are outside the embedded sources, so the generators take them as
a parameter. -/
structure kaitov1beta1 where
  LabelWorkspaceName : String
  WorkspaceRevisionAnnotation : String
  GroupVersion : GroupVersion
deriving DecidableEq, Repr

structure AdapterSource where
  Name : String := ""
  Image : String := ""
  ImagePullSecrets : List String := []
deriving DecidableEq, Repr

/-- An adapter; `Strength` is a `*string`. -/
structure AdapterSpec where
  Source : AdapterSource := {}
  Strength : Option String := none
deriving DecidableEq, Repr

structure InferenceSpec where
  Template : PodTemplateSpec := {}
  Adapters : List AdapterSpec := []
deriving DecidableEq, Repr

/-- Resource requirements of a workspace; `Count` is a `*int` that the code
dereferences. -/
structure ResourceSpec where
  Count : Option Int := none
  LabelSelector : LabelSelector := {}
deriving DecidableEq, Repr

/-- The Workspace object.  Fields the generators reach through plain selectors
are values here. -/
structure Workspace where
  ObjectMeta : ObjectMeta := {}
  Resource : ResourceSpec := {}
  Inference : InferenceSpec := {}
deriving DecidableEq, Repr

/-- Promoted field `workspaceObj.Name`. -/
def Workspace.Name (w : Workspace) : String := w.ObjectMeta.Name

/-- Promoted field `workspaceObj.Namespace`. -/
def Workspace.Namespace (w : Workspace) : String := w.ObjectMeta.Namespace

/-- Method `GetUID` of the embedded object metadata. -/
def Workspace.GetUID (w : Workspace) : String := w.ObjectMeta.UID

/-- Build context of the mutators (pkg/utils/generator). -/
structure WorkspaceGeneratorContext where
  Workspace : Workspace
deriving DecidableEq, Repr

/-- Function `v1.NewControllerRef` of k8s.io/apimachinery: an owner reference to
`owner` with both `Controller` and `BlockOwnerDeletion` pointing at true. -/
def NewControllerRef (owner : Workspace) (gvk : GroupVersionKind) : OwnerReference :=
  { APIVersion := gvk.GroupVersion.String
    Kind := gvk.Kind
    Name := owner.Name
    UID := owner.GetUID
    BlockOwnerDeletion := some true
    Controller := some true }

/-! ## The generators -/

def GenerateHeadlessServiceManifest (api : kaitov1beta1) (workspaceObj : Workspace) : Service :=
  let serviceName := workspaceObj.Name ++ "-headless"
  let selector := GoMap.single api.LabelWorkspaceName workspaceObj.Name
  { ObjectMeta :=
      { Name := serviceName
        Namespace := workspaceObj.Namespace
        OwnerReferences := [NewControllerRef workspaceObj (api.GroupVersion.WithKind "Workspace")] }
    Spec :=
      { Selector := some selector
        ClusterIP := "None"
        Ports := []
        PublishNotReadyAddresses := true } }

def GenerateServiceManifest (api : kaitov1beta1) (workspaceObj : Workspace) (serviceType : String)
    (isStatefulSet : Bool) : Service :=
  let selector := GoMap.single api.LabelWorkspaceName workspaceObj.Name
  -- If statefulset, modify the selector to select the pod with index 0 as the endpoint
  let selector :=
    if isStatefulSet then
      let podNameForIndex0 := workspaceObj.Name ++ "-0"
      selector.set "statefulset.kubernetes.io/pod-name" podNameForIndex0
    else selector
  { ObjectMeta :=
      { Name := workspaceObj.Name
        Namespace := workspaceObj.Namespace
        OwnerReferences := [NewControllerRef workspaceObj (api.GroupVersion.WithKind "Workspace")] }
    Spec :=
      { type := serviceType
        Ports :=
          [ { Name := "http", Protocol := corev1.ProtocolTCP, Port := 80
              TargetPort := intstr.FromInt32 5000 },
            { Name := "ray", Protocol := corev1.ProtocolTCP, Port := 6379
              TargetPort := intstr.FromInt32 6379 },
            { Name := "dashboard", Protocol := corev1.ProtocolTCP, Port := 8265
              TargetPort := intstr.FromInt32 8265 } ]
        Selector := some selector
        PublishNotReadyAddresses := true } }

/-- Mutator of a StatefulSet draft: `ss.ObjectMeta` and `ss.Spec` are assigned
whole, then `ss.Spec.ServiceName`; the returned error is always nil. -/
def GenerateStatefulSetManifest (api : kaitov1beta1) (revisionNum : String) (replicas : Int)
    (ctx : WorkspaceGeneratorContext) (ss : StatefulSet) : StatefulSet × Option String :=
  let selector := GoMap.single api.LabelWorkspaceName ctx.Workspace.Name
  let labelselector : LabelSelector := { MatchLabels := some selector }
  let ss := { ss with
    ObjectMeta :=
      { Name := ctx.Workspace.Name
        Namespace := ctx.Workspace.Namespace
        Annotations := some (GoMap.single api.WorkspaceRevisionAnnotation revisionNum)
        OwnerReferences :=
          [NewControllerRef ctx.Workspace (api.GroupVersion.WithKind "Workspace")] } }
  let ss := { ss with
    Spec :=
      { Replicas := some (toInt32 replicas)
        PodManagementPolicy := appsv1.ParallelPodManagement
        PersistentVolumeClaimRetentionPolicy := some
          { WhenScaled := appsv1.RetainPersistentVolumeClaimRetentionPolicyType
            WhenDeleted := appsv1.DeletePersistentVolumeClaimRetentionPolicyType }
        Selector := some labelselector
        Template := { ObjectMeta := { Labels := some selector } } } }
  let ss := { ss with Spec := { ss.Spec with ServiceName := ctx.Workspace.Name ++ "-headless" } }
  (ss, none)

/-- Mutator of a StatefulSet draft that appends one claim to
`ss.Spec.VolumeClaimTemplates`; the returned error is always nil. -/
def AddStatefulSetVolumeClaimTemplates (volumeClaimTemplates : PersistentVolumeClaim)
    (_ctx : WorkspaceGeneratorContext) (ss : StatefulSet) : StatefulSet × Option String :=
  ({ ss with Spec := { ss.Spec with
      VolumeClaimTemplates := ss.Spec.VolumeClaimTemplates ++ [volumeClaimTemplates] } }, none)

/-- Mutator of a StatefulSet draft that assigns `*podSpec` to
`ss.Spec.Template.Spec`.  `podSpec` is a pointer; the result is `none` when the
mutator dereferences a nil `podSpec` and so does not return, and otherwise the
draft with the returned error, which is always nil. -/
def SetStatefulSetPodSpec (podSpec : Option PodSpec)
    (_ctx : WorkspaceGeneratorContext) (ss : StatefulSet) :
    Option (StatefulSet × Option String) :=
  match podSpec with
  | none => none
  | some spec =>
    some ({ ss with Spec := { ss.Spec with Template := { ss.Spec.Template with Spec := spec } } },
      none)

/-- Mutator of a Deployment draft: `d.ObjectMeta` and `d.Spec` are assigned
whole; the returned error is always nil. -/
def GenerateDeploymentManifest (api : kaitov1beta1) (revisionNum : String) (replicas : Int)
    (ctx : WorkspaceGeneratorContext) (d : Deployment) : Deployment × Option String :=
  let selector := GoMap.single api.LabelWorkspaceName ctx.Workspace.Name
  let labelselector : LabelSelector := { MatchLabels := some selector }
  let d := { d with
    ObjectMeta :=
      { Name := ctx.Workspace.Name
        Namespace := ctx.Workspace.Namespace
        OwnerReferences :=
          [NewControllerRef ctx.Workspace (api.GroupVersion.WithKind "Workspace")]
        Annotations := some (GoMap.single api.WorkspaceRevisionAnnotation revisionNum) } }
  let d := { d with
    Spec :=
      { Replicas := some (toInt32 replicas)
        Strategy :=
          { type := appsv1.RollingUpdateDeploymentStrategyType
            RollingUpdate := some
              { MaxSurge := some { type := IntOrStringType.Int, IntVal := 0 }
                MaxUnavailable := some { type := IntOrStringType.Int, IntVal := 1 } } }
        Selector := some labelselector
        Template := { ObjectMeta := { Labels := some selector } } } }
  (d, none)

/-- Mutator of a Deployment draft that assigns `*podSpec` to
`d.Spec.Template.Spec`.  `podSpec` is a pointer; the result is `none` when the
mutator dereferences a nil `podSpec` and so does not return, and otherwise the
draft with the returned error, which is always nil. -/
def SetDeploymentPodSpec (podSpec : Option PodSpec)
    (_ctx : WorkspaceGeneratorContext) (d : Deployment) :
    Option (Deployment × Option String) :=
  match podSpec with
  | none => none
  | some spec =>
    some ({ d with Spec := { d.Spec with Template := { d.Spec.Template with Spec := spec } } },
      none)

/-- Modelled from the spec: `utils.DedupVolumeMounts` of pkg/utils, which is
outside the embedded sources.  De-duplication by mount path: a later duplicate
for the same path is dropped, the first occurrence wins.  `seen` holds the mount
paths already kept. -/
def DedupVolumeMountsFrom (seen : List String) : List VolumeMount → List VolumeMount
  | [] => []
  | m :: rest =>
    if m.MountPath ∈ seen then DedupVolumeMountsFrom seen rest
    else m :: DedupVolumeMountsFrom (m.MountPath :: seen) rest

/-- Modelled from the spec: `utils.DedupVolumeMounts` of pkg/utils, which is
outside the embedded sources; see `DedupVolumeMountsFrom`. -/
def DedupVolumeMounts (mounts : List VolumeMount) : List VolumeMount :=
  DedupVolumeMountsFrom [] mounts

/-- The batch job of a tuning workspace, on arguments read as values.  The two
loops over `initContainers` and `sidecarContainers` assign each element's
`VolumeMounts` in place; the job holds the containers after these assignments.
The mounts of a container are a list of their own here, so this is the job of
a call in which no `append` of the loops stores into an array that another
slice reads; `GenerateTuningJobManifestAt` below has the arrays and these
stores. -/
def GenerateTuningJobManifest (api : kaitov1beta1) (wObj : Workspace) (revisionNum : String)
    (imageName : String) (imagePullSecretRefs : List LocalObjectReference) (_replicas : Int)
    (commands : List String) (containerPorts : List ContainerPort)
    (livenessProbe readinessProbe : Option Probe) (resourceRequirements : ResourceRequirements)
    (tolerations : Option (List Toleration)) (initContainers : List Container)
    (sidecarContainers : List Container) (volumes : List Volume)
    (volumeMounts : List VolumeMount) (envVars : List EnvVar) : Job :=
  let labels := GoMap.single api.LabelWorkspaceName wObj.Name
  let initContainers := initContainers.map fun c =>
    { c with VolumeMounts := DedupVolumeMounts (c.VolumeMounts ++ volumeMounts) }
  let sidecarContainers := sidecarContainers.map fun c =>
    { c with VolumeMounts := DedupVolumeMounts (c.VolumeMounts ++ volumeMounts) }
  -- Construct the complete list of containers (main and sidecars)
  let containers : List Container :=
    [ { Name := wObj.Name
        Image := imageName
        Command := commands
        Resources := resourceRequirements
        LivenessProbe := livenessProbe
        ReadinessProbe := readinessProbe
        Ports := containerPorts
        VolumeMounts := volumeMounts
        Env := envVars } ] ++ sidecarContainers
  let shouldShareProcessNamespace : Option Bool :=
    if sidecarContainers.length = 0 then some false else some true
  { TypeMeta := { APIVersion := "batch/v1", Kind := "Job" }
    ObjectMeta :=
      { Name := wObj.Name
        Namespace := wObj.Namespace
        Labels := some labels
        Annotations := some (GoMap.single api.WorkspaceRevisionAnnotation revisionNum)
        OwnerReferences := [NewControllerRef wObj (api.GroupVersion.WithKind "Workspace")] }
    Spec :=
      { Template :=
          { ObjectMeta := { Labels := some labels }
            Spec :=
              { InitContainers := initContainers
                Containers := containers
                RestartPolicy := corev1.RestartPolicyNever
                ShareProcessNamespace := shouldShareProcessNamespace
                Volumes := volumes
                Tolerations := tolerations
                ImagePullSecrets := imagePullSecretRefs } } } }

/-- Functions of other packages that `GeneratePullerContainers` calls:
`image.NewPullerContainer` (pkg/workspace/image), `utils.ConfigImagePullSecretVolume`
(pkg/utils) and `path.Join` of the Go library.  They are outside the embedded
sources, so the generator takes them as a parameter. -/
structure PullerDeps where
  NewPullerContainer : String → String → Container
  ConfigImagePullSecretVolume : String → List String → Volume × VolumeMount
  pathJoin : String → String → String

/-- Local variables of `GeneratePullerContainers` that its loop updates. -/
structure PullerState where
  initContainers : List Container := []
  envVars : List EnvVar := []
  volumes : List Volume := []
deriving DecidableEq, Repr

/-- One iteration of the loop over the adapters.  `volumeMounts` are the
elements of the slice argument and `capVolumeMounts` its capacity.  The
statement `append(volumeMounts, volumeMount)` stores into the slice's own
backing array when the capacity exceeds the length, so every container built
by an earlier iteration, whose `VolumeMounts` is a slice of that same array,
sees the stored element; otherwise `append` allocates a fresh array. -/
def pullerStep (deps : PullerDeps) (volumeMounts : List VolumeMount) (capVolumeMounts : Nat)
    (st : PullerState) (adapter : AdapterSpec) : PullerState :=
  let source := adapter.Source
  let sourceName := source.Name
  let (volume, volumeMount) :=
    deps.ConfigImagePullSecretVolume (sourceName ++ "-inference-adapter") source.ImagePullSecrets
  let volumes := st.volumes ++ [volume]
  let envVars :=
    match adapter.Strength with
    | some strength => st.envVars ++ [{ Name := sourceName, Value := strength }]
    | none => st.envVars
  let outputDirectory := deps.pathJoin "/mnt/adapter" sourceName
  let pullerContainer := deps.NewPullerContainer source.Image outputDirectory
  let pullerContainer := { pullerContainer with Name := pullerContainer.Name ++ ("-" ++ sourceName) }
  let pullerContainer := { pullerContainer with VolumeMounts := volumeMounts ++ [volumeMount] }
  let earlier :=
    if volumeMounts.length < capVolumeMounts then
      st.initContainers.map fun c => { c with VolumeMounts := volumeMounts ++ [volumeMount] }
    else st.initContainers
  { initContainers := earlier ++ [pullerContainer], envVars := envVars, volumes := volumes }

def GeneratePullerContainers (deps : PullerDeps) (wObj : Workspace)
    (volumeMounts : List VolumeMount) (capVolumeMounts : Nat) :
    List Container × List EnvVar × List Volume :=
  let st := wObj.Inference.Adapters.foldl (pullerStep deps volumeMounts capVolumeMounts) {}
  (st.initContainers, st.envVars, st.volumes)

/-- The deployment of a workspace with a user-supplied pod template.  The
result is `none` when the function dereferences the nil pointer
`workspaceObj.Resource.Count` and so returns nothing.  The pointers
`workspaceObj.Resource.LabelSelector`, `workspaceObj.Inference` and
`workspaceObj.Inference.Template`, which lines 321, 330 and 332 read through,
are values here: a call with one of them nil stops at that line and returns
nothing either.  So `some d` gives the deployment of every call that returns,
and a result `some d` alone does not say that the call returns. -/
def GenerateDeploymentManifestWithPodTemplate (api : kaitov1beta1) (workspaceObj : Workspace)
    (tolerations : Option (List Toleration)) : Option Deployment :=
  let nodeRequirements : List NodeSelectorRequirement :=
    (GoMap.range workspaceObj.Resource.LabelSelector.MatchLabels).map fun (key, value) =>
      { Key := key, Operator := corev1.NodeSelectorOpIn, Values := [value] }
  let templateCopy := workspaceObj.Inference.Template.DeepCopy
  let labels : GoMap :=
    match templateCopy.ObjectMeta.Labels with
    | none => GoMap.make
    | some m => m
  let labels := labels.set api.LabelWorkspaceName workspaceObj.Name
  let templateCopy := { templateCopy with
    ObjectMeta := { templateCopy.ObjectMeta with Labels := some labels } }
  let labelselector : LabelSelector :=
    { MatchLabels := some (GoMap.single api.LabelWorkspaceName workspaceObj.Name) }
  -- Overwrite affinity
  let templateCopy := { templateCopy with
    Spec := { templateCopy.Spec with
      Affinity := some
        { NodeAffinity := some
            { RequiredDuringSchedulingIgnoredDuringExecution := some
                { NodeSelectorTerms := [{ MatchExpressions := nodeRequirements }] } } } } }
  -- append tolerations
  let templateCopy := { templateCopy with
    Spec := { templateCopy.Spec with
      Tolerations :=
        match templateCopy.Spec.Tolerations with
        | none => tolerations
        | some own => some (own ++ sliceElems tolerations) } }
  match workspaceObj.Resource.Count with
  | none => none
  | some count =>
    some
      { ObjectMeta :=
          { Name := workspaceObj.Name
            Namespace := workspaceObj.Namespace
            OwnerReferences :=
              [NewControllerRef workspaceObj (api.GroupVersion.WithKind "Workspace")] }
        Spec :=
          { Replicas := some (toInt32 count)
            Selector := some labelselector
            Template := templateCopy } }


/-! ## The pod-template deployment over memory

`GenerateDeploymentManifestWithPodTemplate` once more, with the storage that Go
shares between values made explicit: a pod template is a struct at an address,
its label map is a map object at an address and its tolerations are a slice of
a backing array at an address.  This is the level at which it can be said that
the function leaves the workspace's own template alone. -/

/-- A Go slice value: the address of its backing array, its length and its
capacity. -/
structure SliceHeader where
  array : Nat
  len : Nat
  cap : Nat
deriving DecidableEq, Repr

/-- A PodTemplateSpec struct in memory.  `Labels` is the address of the map
object (none for a nil map), `Tolerations` the slice value (none for a nil
slice).  `Affinity` is a pointer the function only ever replaces, never writes
through, so its target is kept by value.  `rest` holds the other fields. -/
structure TemplateCell where
  Labels : Option Nat := none
  Affinity : Option Affinity := none
  Tolerations : Option SliceHeader := none
  rest : PodTemplateSpec := {}
deriving DecidableEq, Repr

/-- The objects in memory; an address is an index, allocation appends. -/
structure Memory where
  templates : List TemplateCell := []
  maps : List GoMap := []
  arrays : List (List Toleration) := []
deriving DecidableEq, Repr

namespace Memory

/-- The struct at address `p`. -/
def template (mem : Memory) (p : Nat) : TemplateCell := (mem.templates[p]?).getD {}

/-- The map object at address `a`. -/
def map (mem : Memory) (a : Nat) : GoMap := (mem.maps[a]?).getD GoMap.make

/-- The backing array at address `a`. -/
def array (mem : Memory) (a : Nat) : List Toleration := (mem.arrays[a]?).getD []

/-- The elements of a slice value. -/
def readSlice (mem : Memory) : Option SliceHeader → Option (List Toleration)
  | none => none
  | some h => some ((mem.array h.array).take h.len)

/-- The pod template that a struct in memory stands for. -/
def readTemplate (mem : Memory) (cell : TemplateCell) : PodTemplateSpec :=
  { ObjectMeta := { cell.rest.ObjectMeta with Labels := cell.Labels.map mem.map }
    Spec := { cell.rest.Spec with
      Affinity := cell.Affinity
      Tolerations := mem.readSlice cell.Tolerations } }

/-- Allocation of a map object. -/
def newMap (mem : Memory) (m : GoMap) : Memory × Nat :=
  ({ mem with maps := mem.maps ++ [m] }, mem.maps.length)

/-- Allocation of a backing array. -/
def newArray (mem : Memory) (xs : List Toleration) : Memory × Nat :=
  ({ mem with arrays := mem.arrays ++ [xs] }, mem.arrays.length)

/-- Allocation of a pod-template struct. -/
def newTemplate (mem : Memory) (cell : TemplateCell) : Memory × Nat :=
  ({ mem with templates := mem.templates ++ [cell] }, mem.templates.length)

/-- Store to the struct at address `p`. -/
def setTemplate (mem : Memory) (p : Nat) (cell : TemplateCell) : Memory :=
  { mem with templates := mem.templates.set p cell }

/-- Statement `m[k] = v` on the map object at address `a`. -/
def mapAssign (mem : Memory) (a : Nat) (k v : String) : Memory :=
  { mem with maps := mem.maps.set a ((mem.map a).set k v) }

/-- Builtin `append(s, elems...)`: when the capacity of `s` suffices the
elements are stored into the backing array of `s` and the result shares it;
otherwise a new array is allocated. -/
def append (mem : Memory) (s : SliceHeader) (elems : List Toleration) : Memory × SliceHeader :=
  if s.len + elems.length ≤ s.cap then
    let stored := (mem.array s.array).take s.len ++ elems ++
      (mem.array s.array).drop (s.len + elems.length)
    ({ mem with arrays := mem.arrays.set s.array stored },
     { s with len := s.len + elems.length })
  else
    ({ mem with arrays := mem.arrays ++ [(mem.array s.array).take s.len ++ elems] },
     { array := mem.arrays.length
       len := ((mem.array s.array).take s.len ++ elems).length
       cap := ((mem.array s.array).take s.len ++ elems).length })

end Memory

/-- Generated method `PodTemplateSpec.DeepCopy` on the struct at address `p`:
a new struct whose label map is a new map object with the same entries and
whose tolerations are a new array, made with the length of the source slice,
with the same elements.  The result is the new memory and the new address. -/
def PodTemplateSpec.DeepCopyAt (mem : Memory) (p : Nat) : Memory × Nat :=
  let cell := mem.template p
  let withLabels : Memory × Option Nat :=
    match cell.Labels with
    | none => (mem, none)
    | some a => ((mem.newMap (mem.map a)).1, some (mem.newMap (mem.map a)).2)
  let mem1 := withLabels.1
  let elems : List Toleration :=
    match cell.Tolerations with
    | none => []
    | some s => (mem1.array s.array).take s.len
  let withTolerations : Memory × Option SliceHeader :=
    match cell.Tolerations with
    | none => (mem1, none)
    | some _ =>
      ((mem1.newArray elems).1,
       some { array := (mem1.newArray elems).2, len := elems.length, cap := elems.length })
  withTolerations.1.newTemplate
    { cell with Labels := withLabels.2, Tolerations := withTolerations.2 }

/-- The workspace as the function receives it: its inference template is the
struct at address `Template`. -/
structure WorkspaceRef where
  ObjectMeta : ObjectMeta := {}
  Resource : ResourceSpec := {}
  Adapters : List AdapterSpec := []
  Template : Nat
deriving DecidableEq, Repr

/-- The returned Deployment; its `Template` field is the struct copy
`*templateCopy`, which shares the map object and the array of the copy. -/
structure DeploymentCell where
  ObjectMeta : ObjectMeta := {}
  Replicas : Option Int := none
  Selector : Option LabelSelector := none
  Template : TemplateCell := {}
deriving DecidableEq, Repr

/-- The workspace value that a workspace in memory stands for. -/
def Memory.readWorkspace (mem : Memory) (w : WorkspaceRef) : Workspace :=
  { ObjectMeta := w.ObjectMeta
    Resource := w.Resource
    Inference := { Template := mem.readTemplate (mem.template w.Template), Adapters := w.Adapters } }

/-- The deployment value that a returned deployment stands for. -/
def Memory.readDeployment (mem : Memory) (d : DeploymentCell) : Deployment :=
  { ObjectMeta := d.ObjectMeta
    Spec := { Replicas := d.Replicas, Selector := d.Selector
              Template := mem.readTemplate d.Template } }

/-- Function `GenerateDeploymentManifestWithPodTemplate` over memory: the memory
after the call and the returned deployment, none when the nil pointer
`workspaceObj.Resource.Count` is dereferenced.  As in the function on values,
the label selector and the inference template of the workspace are taken to be
there. -/
def GenerateDeploymentManifestWithPodTemplateAt (api : kaitov1beta1) (mem : Memory)
    (workspaceObj : WorkspaceRef) (tolerations : Option SliceHeader) :
    Memory × Option DeploymentCell :=
  let nodeRequirements : List NodeSelectorRequirement :=
    (GoMap.range workspaceObj.Resource.LabelSelector.MatchLabels).map fun (key, value) =>
      { Key := key, Operator := corev1.NodeSelectorOpIn, Values := [value] }
  let copied := PodTemplateSpec.DeepCopyAt mem workspaceObj.Template
  let templateCopy := copied.2
  let mem := copied.1
  let mem :=
    match (mem.template templateCopy).Labels with
    | none =>
      (mem.newMap GoMap.make).1.setTemplate templateCopy
        { mem.template templateCopy with Labels := some (mem.newMap GoMap.make).2 }
    | some _ => mem
  let mem :=
    match (mem.template templateCopy).Labels with
    | some a => mem.mapAssign a api.LabelWorkspaceName workspaceObj.ObjectMeta.Name
    | none => mem
  let labelselector : LabelSelector :=
    { MatchLabels := some (GoMap.single api.LabelWorkspaceName workspaceObj.ObjectMeta.Name) }
  -- Overwrite affinity
  let mem := mem.setTemplate templateCopy
    { mem.template templateCopy with
      Affinity := some
        { NodeAffinity := some
            { RequiredDuringSchedulingIgnoredDuringExecution := some
                { NodeSelectorTerms := [{ MatchExpressions := nodeRequirements }] } } } }
  -- append tolerations
  let mem :=
    match (mem.template templateCopy).Tolerations with
    | none => mem.setTemplate templateCopy { mem.template templateCopy with Tolerations := tolerations }
    | some own =>
      let elems := sliceElems (mem.readSlice tolerations)
      (mem.append own elems).1.setTemplate templateCopy
        { mem.template templateCopy with Tolerations := some (mem.append own elems).2 }
  match workspaceObj.Resource.Count with
  | none => (mem, none)
  | some count =>
    (mem, some
      { ObjectMeta :=
          { Name := workspaceObj.ObjectMeta.Name
            Namespace := workspaceObj.ObjectMeta.Namespace
            OwnerReferences :=
              [NewControllerRef
                { ObjectMeta := workspaceObj.ObjectMeta, Resource := workspaceObj.Resource }
                (api.GroupVersion.WithKind "Workspace")] }
        Replicas := some (toInt32 count)
        Selector := some labelselector
        Template := mem.template templateCopy })


/-! ## Readiness poller (pkg/utils/resources)

`CheckResourceStatus` is exercised by resources_test.go, but its body is not
among the embedded sources; the definitions of this section follow the
specification of the readiness poller. -/

/-- Modelled from the spec: a failure of the resource gateway, which is that
the object is absent, that an object of the same identity exists, or that the
transport failed; the gateway's users are not among the embedded sources. -/
inductive GatewayError where
  | NotFound (name : String)
  | AlreadyExists (name : String)
  | Transport (message : String)
deriving DecidableEq, Repr

/-- Modelled from the spec: the text of a gateway failure; the gateway's users
are not among the embedded sources. -/
def GatewayError.Error : GatewayError → String
  | GatewayError.NotFound name => name ++ " not found"
  | GatewayError.AlreadyExists name => name ++ " already exists"
  | GatewayError.Transport message => message

/-- A resource handed to the poller: one of the three supported kinds, or an
object of another kind such as a DaemonSet. -/
inductive Object where
  | Deployment (d : Deployment)
  | StatefulSet (s : StatefulSet)
  | Job (j : Job)
  | Other (kind : String)
deriving DecidableEq, Repr

/-- A condition of a polled resource: type, status, reason, message. -/
structure Condition where
  type : String := ""
  Status : String := ""
  Reason : String := ""
  Message : String := ""
deriving DecidableEq, Repr

/-- Modelled from the spec: the kind-tagged view over a polled resource, which
is the desired count, the ready count and the condition list of a deployment
or replicated pod set, or the counters of a batch job; the poller itself is
not among the embedded sources. -/
inductive ReadinessStatus where
  | Workload (name : String) (desiredReplicas : Option Int) (readyReplicas : Int)
      (conditions : List Condition)
  | BatchJob (name : String) (active succeeded failed : Int) (ready : Option Int)
  | Unsupported
deriving DecidableEq, Repr

/-- Modelled from the spec: the readiness view of an object, by kind; the
poller itself is not among the embedded sources. -/
def readinessStatus : Object → ReadinessStatus
  | Object.Deployment d =>
    ReadinessStatus.Workload d.ObjectMeta.Name d.Spec.Replicas d.Status.ReadyReplicas
      (d.Status.Conditions.map fun c =>
        { type := c.type, Status := c.Status, Reason := c.Reason, Message := c.Message })
  | Object.StatefulSet s =>
    ReadinessStatus.Workload s.ObjectMeta.Name s.Spec.Replicas s.Status.ReadyReplicas
      (s.Status.Conditions.map fun c =>
        { type := c.type, Status := c.Status, Reason := c.Reason, Message := c.Message })
  | Object.Job j =>
    ReadinessStatus.BatchJob j.ObjectMeta.Name j.Status.Active j.Status.Succeeded j.Status.Failed
      j.Status.Ready
  | Object.Other _ => ReadinessStatus.Unsupported

/-- Modelled from the spec: the errors `CheckResourceStatus` returns, which
are that the deadline passed, that the resource reports a terminal failure,
that the kind is not supported, or that the fetch failed; the poller itself is
not among the embedded sources. -/
inductive CheckError where
  | DeadlineExceeded
  | Failed (message : String)
  | UnsupportedKind
  | Gateway (err : GatewayError)
deriving DecidableEq, Repr

/-- Modelled from the spec: method `Error` of the returned error, with the
text that TestCheckResourceStatus expects for an unsupported kind; the poller
itself is not among the embedded sources. -/
def CheckError.Error : CheckError → String
  | CheckError.DeadlineExceeded => "context deadline exceeded"
  | CheckError.Failed message => message
  | CheckError.UnsupportedKind => "unsupported resource type"
  | CheckError.Gateway err => err.Error

/-- Modelled from the spec: a condition of type Progressing with status False,
by which a rollout is stuck; the poller itself is not among the embedded
sources. -/
def Condition.isStuck (c : Condition) : Bool := c.type == "Progressing" && c.Status == "False"

/-- Modelled from the spec: what one poll decides from the polled status,
where `none` is to keep polling and `some r` is to return `r` (nil for
`some none`); the poller itself is not among the embedded sources.
A deployment or replicated pod set fails at once on a Progressing condition
with status False, with an error embedding that condition's message, and is
ready when readyReplicas >= desiredReplicas, desired being 1 when unset.  A
batch job fails at once when failed > 0, with an error naming the resource and
the failed-pod count, and succeeds when succeeded > 0 or ready > 0. -/
def evaluate : ReadinessStatus → Option (Option CheckError)
  | ReadinessStatus.Workload name desiredReplicas readyReplicas conditions =>
    match conditions.find? Condition.isStuck with
    | some c => some (some (CheckError.Failed (name ++ " is not progressing: " ++ c.Message)))
    | none => if readyReplicas ≥ desiredReplicas.getD 1 then some none else none
  | ReadinessStatus.BatchJob name _active succeeded failed ready =>
    if failed > 0 then
      some (some (CheckError.Failed
        ("job " ++ name ++ " has failed " ++ toString failed ++ " pods")))
    else if succeeded > 0 ∨ ready.getD 0 > 0 then some none
    else none
  | ReadinessStatus.Unsupported => some (some CheckError.UnsupportedKind)

/-- Modelled from the spec: one iteration of the wait loop on the outcome of
its fetch; a failure to fetch is returned as it is.  The poller itself is not
among the embedded sources. -/
def pollOnce : Except GatewayError Object → Option (Option CheckError)
  | Except.error err => some (some (CheckError.Gateway err))
  | Except.ok obj => evaluate (readinessStatus obj)

/-- Modelled from the spec: the bounded wait loop of the poller, which is not
among the embedded sources.  `gateway i` is the outcome of the fetch of poll
`i`, `remaining` the number of polls that still start before the deadline;
when none is left the deadline-exceeded error is returned. -/
def awaitLoop (gateway : Nat → Except GatewayError Object) : (remaining i : Nat) → Option CheckError
  | 0, _ => some CheckError.DeadlineExceeded
  | remaining + 1, i =>
    match pollOnce (gateway i) with
    | some result => result
    | none => awaitLoop gateway remaining (i + 1)

/-- Modelled from the spec: `CheckResourceStatus(obj, client, timeout)`, which
is not among the embedded sources.  The result is nil (`none`) or an error.
An unsupported kind fails at once, with no poll attempted; otherwise the
resource is polled until a poll decides or the deadline is reached.  The
timeout enters as `polls`, the number of polls that start before the deadline,
and the client as `gateway`, the outcome of each fetch. -/
def CheckResourceStatus (obj : Object) (gateway : Nat → Except GatewayError Object)
    (polls : Nat) : Option CheckError :=
  match readinessStatus obj with
  | ReadinessStatus.Unsupported => some CheckError.UnsupportedKind
  | _ => awaitLoop gateway polls 0

/-! ## Configuration resolver (pkg/utils/resources)

`EnsureConfigOrCopyFromDefault` is exercised by resources_test.go, but its body
is not among the embedded sources; the definitions of this section follow the
specification of the configuration resolver. -/

/-- Type client.ObjectKey: a namespace and a name. -/
structure ObjectKey where
  Namespace : String := ""
  Name : String := ""
deriving DecidableEq, Repr

/-- A configuration object. -/
structure ConfigMap where
  ObjectMeta : ObjectMeta := {}
  Data : Option GoMap := none
deriving DecidableEq, Repr

/-- The object has the identity `key`. -/
def ConfigMap.hasKey (cm : ConfigMap) (key : ObjectKey) : Bool :=
  cm.ObjectMeta.Namespace == key.Namespace && cm.ObjectMeta.Name == key.Name

/-- Modelled from the spec: the resource gateway the resolver consumes, over
the states `σ` of whatever stands behind it; the resolver itself is not among
the embedded sources.  `Get` yields the object or fails, `Create` yields the
next state and fails or not. -/
structure ResourceGateway (σ : Type) where
  Get : σ → ObjectKey → Except GatewayError ConfigMap
  Create : σ → ConfigMap → σ × Option GatewayError

/-- A call made to the gateway. -/
inductive GatewayCall where
  | Get (key : ObjectKey)
  | Create (obj : ConfigMap)
deriving DecidableEq, Repr

/-- Modelled from the spec: the errors of the resolver, which are that a
configuration named by the user is absent, that the release namespace cannot
be determined, or a gateway failure passed on unchanged; the resolver itself
is not among the embedded sources. -/
inductive ConfigError where
  | UserSpecifiedNotFound (name ns : String)
  | ReleaseNamespace (cause : String)
  | Gateway (err : GatewayError)
deriving DecidableEq, Repr

/-- Modelled from the spec: method `Error` of the returned error, with the
texts that TestEnsureInferenceConfigMap expects; the resolver itself is not
among the embedded sources. -/
def ConfigError.Error : ConfigError → String
  | ConfigError.UserSpecifiedNotFound name ns =>
    "user specified ConfigMap " ++ name ++ " not found in namespace " ++ ns
  | ConfigError.ReleaseNamespace cause => "failed to get release namespace: " ++ cause
  | ConfigError.Gateway err => err.Error

/-- Modelled from the spec: what a resolution leaves behind, which is the state
behind the gateway, the returned object or error, and the gateway calls made,
in order; the resolver itself is not among the embedded sources. -/
structure Resolution (σ : Type) where
  state : σ
  result : Except ConfigError ConfigMap
  calls : List GatewayCall

/-- Modelled from the spec: the clone of the system default, a new object of
the given name in the given namespace with the contents of `template`; the
resolver itself is not among the embedded sources. -/
def cloneDefault (template : ConfigMap) (name ns : String) : ConfigMap :=
  { ObjectMeta := { Name := name, Namespace := ns }, Data := template.Data }

/-- Modelled from the spec: `EnsureConfigOrCopyFromDefault(ctx, client,
userProvided, systemDefault)`, which is not among the embedded sources.
`releaseNamespace` is the outcome of the namespace provider.  A non-empty user
name is fetched in the caller's namespace: found, it is returned; not found,
the call fails and nothing is defaulted.  With an empty name the system
default is fetched in the release namespace and its contents are cloned into
a new object of the default's name in the caller's namespace, created through
the gateway; an already-exists outcome of the create counts as success. -/
def EnsureConfigOrCopyFromDefault {σ : Type} (gw : ResourceGateway σ)
    (releaseNamespace : Except String String) (s : σ) (userProvided systemDefault : ObjectKey) :
    Resolution σ :=
  if userProvided.Name ≠ "" then
    match gw.Get s userProvided with
    | Except.ok cm => ⟨s, Except.ok cm, [GatewayCall.Get userProvided]⟩
    | Except.error (GatewayError.NotFound _) =>
      ⟨s, Except.error
        (ConfigError.UserSpecifiedNotFound userProvided.Name userProvided.Namespace),
       [GatewayCall.Get userProvided]⟩
    | Except.error err => ⟨s, Except.error (ConfigError.Gateway err), [GatewayCall.Get userProvided]⟩
  else
    match releaseNamespace with
    | Except.error cause => ⟨s, Except.error (ConfigError.ReleaseNamespace cause), []⟩
    | Except.ok ns =>
      match gw.Get s { Namespace := ns, Name := systemDefault.Name } with
      | Except.error err =>
        ⟨s, Except.error (ConfigError.Gateway err),
         [GatewayCall.Get { Namespace := ns, Name := systemDefault.Name }]⟩
      | Except.ok template =>
        let clone := cloneDefault template systemDefault.Name userProvided.Namespace
        let calls :=
          [GatewayCall.Get { Namespace := ns, Name := systemDefault.Name }, GatewayCall.Create clone]
        match (gw.Create s clone).2 with
        | none => ⟨(gw.Create s clone).1, Except.ok clone, calls⟩
        | some (GatewayError.AlreadyExists _) => ⟨(gw.Create s clone).1, Except.ok clone, calls⟩
        | some err => ⟨(gw.Create s clone).1, Except.error (ConfigError.Gateway err), calls⟩

/-- Modelled from the spec: a gateway in front of a store of configuration
objects, by the gateway contract: `Get` fails with NotFound when the object is
absent, `Create` fails with AlreadyExists when an object of the same identity
exists and adds the object otherwise.  The resolver and the gateway are not
among the embedded sources. -/
def clusterGateway : ResourceGateway (List ConfigMap) :=
  { Get := fun store key =>
      match store.find? (fun cm => cm.hasKey key) with
      | some cm => Except.ok cm
      | none => Except.error (GatewayError.NotFound key.Name)
    Create := fun store obj =>
      if store.any
          (fun cm => cm.hasKey { Namespace := obj.ObjectMeta.Namespace, Name := obj.ObjectMeta.Name })
      then (store, some (GatewayError.AlreadyExists obj.ObjectMeta.Name))
      else (store ++ [obj], none) }

/-- The number of objects of identity `key` in the store. -/
def countKey (store : List ConfigMap) (key : ObjectKey) : Nat :=
  (store.filter (fun cm => cm.hasKey key)).length

/-! ## The tuning job over memory

`GenerateTuningJobManifest` once more, with the storage of its slice arguments
made explicit.  The `VolumeMounts` of a container is a slice of a backing array
of mounts, and `initContainers` and `sidecarContainers` are slices of backing
arrays of containers.  The two loops store to the elements of these arrays, and
`append` stores into the array behind a container's mounts whenever the capacity
of that slice allows.  The other slice arguments are only copied into the job
and stay values. -/

/-- A Go slice value: the address of its backing array, the index in that array
of the slice's first element, its length and its capacity (both counted from
`start`).  A nil slice has length and capacity 0. -/
structure SliceValue where
  array : Nat := 0
  start : Nat := 0
  len : Nat := 0
  cap : Nat := 0
deriving DecidableEq, Repr

/-- A Container struct in memory: `VolumeMounts` is the slice value, `rest`
holds the other fields. -/
structure ContainerCell where
  VolumeMounts : SliceValue := {}
  rest : Container := {}
deriving DecidableEq, Repr

/-- The backing arrays in memory, of mounts and of containers; an address is an
index, allocation appends. -/
structure JobMemory where
  mounts : List (List VolumeMount) := []
  containers : List (List ContainerCell) := []
deriving DecidableEq, Repr

namespace JobMemory

/-- The array of mounts at address `a`. -/
def mountArray (mem : JobMemory) (a : Nat) : List VolumeMount := (mem.mounts[a]?).getD []

/-- The array of containers at address `a`. -/
def containerArray (mem : JobMemory) (a : Nat) : List ContainerCell :=
  (mem.containers[a]?).getD []

/-- The elements of a slice of mounts. -/
def readMounts (mem : JobMemory) (s : SliceValue) : List VolumeMount :=
  ((mem.mountArray s.array).drop s.start).take s.len

/-- The struct at index `j` of the array of containers at address `a`, when
the array has one. -/
def cellAt (mem : JobMemory) (a j : Nat) : Option ContainerCell := (mem.containerArray a)[j]?

/-- Expression `s[i]` on a slice of containers. -/
def containerAt (mem : JobMemory) (s : SliceValue) (i : Nat) : ContainerCell :=
  (mem.cellAt s.array (s.start + i)).getD {}

/-- Store to the `VolumeMounts` field of `s[i]` on a slice of containers. -/
def setVolumeMountsAt (mem : JobMemory) (s : SliceValue) (i : Nat) (mounts : SliceValue) :
    JobMemory :=
  { mem with
    containers := mem.containers.set s.array
      ((mem.containerArray s.array).set (s.start + i)
        { mem.containerAt s i with VolumeMounts := mounts }) }

/-- The structs of a slice of containers. -/
def containerCells (mem : JobMemory) (s : SliceValue) : List ContainerCell :=
  ((mem.containerArray s.array).drop s.start).take s.len

/-- The container that a struct in memory stands for. -/
def readContainer (mem : JobMemory) (cell : ContainerCell) : Container :=
  { cell.rest with VolumeMounts := mem.readMounts cell.VolumeMounts }

/-- The containers that a slice of containers stands for. -/
def readContainers (mem : JobMemory) (s : SliceValue) : List Container :=
  (mem.containerCells s).map mem.readContainer

/-- Allocation of an array of mounts; the result is a slice of all of it. -/
def newMounts (mem : JobMemory) (xs : List VolumeMount) : JobMemory × SliceValue :=
  ({ mem with mounts := mem.mounts ++ [xs] },
   { array := mem.mounts.length, start := 0, len := xs.length, cap := xs.length })

/-- Allocation of an array of containers; the result is a slice of all of it. -/
def newContainers (mem : JobMemory) (cells : List ContainerCell) : JobMemory × SliceValue :=
  ({ mem with containers := mem.containers ++ [cells] },
   { array := mem.containers.length, start := 0, len := cells.length, cap := cells.length })

/-- Builtin `append(s, elems...)` on a slice of mounts: when the capacity of `s`
suffices the elements are stored into the backing array of `s`, right after its
last element, and the result shares that array; otherwise the elements of `s`
and `elems` go to a new array. -/
def append (mem : JobMemory) (s : SliceValue) (elems : List VolumeMount) :
    JobMemory × SliceValue :=
  if s.len + elems.length ≤ s.cap then
    let stored := (mem.mountArray s.array).take (s.start + s.len) ++ elems ++
      (mem.mountArray s.array).drop (s.start + s.len + elems.length)
    ({ mem with mounts := mem.mounts.set s.array stored },
     { s with len := s.len + elems.length })
  else
    mem.newMounts (mem.readMounts s ++ elems)

end JobMemory

/-- Modelled from the spec: `utils.DedupVolumeMounts` of pkg/utils on a slice
value.  The mounts that `DedupVolumeMounts` keeps are returned in a new array;
the array of the argument is left as it is. -/
def DedupVolumeMountsAt (mem : JobMemory) (mounts : SliceValue) : JobMemory × SliceValue :=
  mem.newMounts (DedupVolumeMounts (mem.readMounts mounts))

/-- Body of the loops at lines 173 and 177 for the index `i`: the statement
`containers[i].VolumeMounts = utils.DedupVolumeMounts(append(containers[i].VolumeMounts, volumeMounts...))`. -/
def mergeVolumeMountsAt (containers volumeMounts : SliceValue) (mem : JobMemory) (i : Nat) :
    JobMemory :=
  let appended := mem.append (mem.containerAt containers i).VolumeMounts
    (mem.readMounts volumeMounts)
  let deduped := DedupVolumeMountsAt appended.1 appended.2
  deduped.1.setVolumeMountsAt containers i deduped.2

/-- The returned Job: `InitContainers` and `Containers` are slices of containers
in memory, `rest` holds the other fields. -/
structure JobCell where
  InitContainers : SliceValue := {}
  Containers : SliceValue := {}
  rest : Job := {}
deriving DecidableEq, Repr

/-- The job value that a job in memory stands for. -/
def JobMemory.readJob (mem : JobMemory) (job : JobCell) : Job :=
  { job.rest with
    Spec :=
      { Template :=
          { job.rest.Spec.Template with
            Spec :=
              { job.rest.Spec.Template.Spec with
                InitContainers := mem.readContainers job.InitContainers
                Containers := mem.readContainers job.Containers } } } }

/-- Function `GenerateTuningJobManifest` over memory: the memory after the call
and the returned job. -/
def GenerateTuningJobManifestAt (api : kaitov1beta1) (mem : JobMemory) (wObj : Workspace)
    (revisionNum : String) (imageName : String)
    (imagePullSecretRefs : List LocalObjectReference) (_replicas : Int)
    (commands : List String) (containerPorts : List ContainerPort)
    (livenessProbe readinessProbe : Option Probe) (resourceRequirements : ResourceRequirements)
    (tolerations : Option (List Toleration)) (initContainers : SliceValue)
    (sidecarContainers : SliceValue) (volumes : List Volume) (volumeMounts : SliceValue)
    (envVars : List EnvVar) : JobMemory × JobCell :=
  let labels := GoMap.single api.LabelWorkspaceName wObj.Name
  let mem := (List.range initContainers.len).foldl
    (mergeVolumeMountsAt initContainers volumeMounts) mem
  let mem := (List.range sidecarContainers.len).foldl
    (mergeVolumeMountsAt sidecarContainers volumeMounts) mem
  -- Construct the complete list of containers (main and sidecars)
  let main : ContainerCell :=
    { VolumeMounts := volumeMounts
      rest :=
        { Name := wObj.Name
          Image := imageName
          Command := commands
          Resources := resourceRequirements
          LivenessProbe := livenessProbe
          ReadinessProbe := readinessProbe
          Ports := containerPorts
          Env := envVars } }
  let containers := mem.newContainers (main :: mem.containerCells sidecarContainers)
  let shouldShareProcessNamespace : Option Bool :=
    if sidecarContainers.len = 0 then some false else some true
  (containers.1,
   { InitContainers := initContainers
     Containers := containers.2
     rest :=
      { TypeMeta := { APIVersion := "batch/v1", Kind := "Job" }
        ObjectMeta :=
          { Name := wObj.Name
            Namespace := wObj.Namespace
            Labels := some labels
            Annotations := some (GoMap.single api.WorkspaceRevisionAnnotation revisionNum)
            OwnerReferences := [NewControllerRef wObj (api.GroupVersion.WithKind "Workspace")] }
        Spec :=
          { Template :=
              { ObjectMeta := { Labels := some labels }
                Spec :=
                  { RestartPolicy := corev1.RestartPolicyNever
                    ShareProcessNamespace := shouldShareProcessNamespace
                    Volumes := volumes
                    Tolerations := tolerations
                    ImagePullSecrets := imagePullSecretRefs } } } } })

/-! ## Predicates used in the statements -/

/-- The owner-reference list `refs` has exactly one element, the controller
reference of kind Workspace that points at `w`. -/
def OwnedByWorkspace (api : kaitov1beta1) (w : Workspace) (refs : List OwnerReference) : Prop :=
  ∃ r, refs = [r] ∧ r.Kind = "Workspace" ∧ r.APIVersion = api.GroupVersion.String ∧
    r.Name = w.Name ∧ r.UID = w.GetUID ∧ r.Controller = some true ∧
    r.BlockOwnerDeletion = some true

/-- Container `c2` is container `c` with its volume mounts merged with the
supplied `volumeMounts`: own mounts first, then the supplied ones,
de-duplicated by mount path with the first occurrence kept.  Every other field
is unchanged; the mounts are a sublist of own ++ supplied; no two share a
mount path; every mount path of own ++ supplied is still present; for each
path the remaining mount is the first one of own ++ supplied with that path,
which is an own mount whenever an own mount has this path. -/
def MountsMerged (volumeMounts : List VolumeMount) (c c2 : Container) : Prop :=
  c2 = { c with VolumeMounts := c2.VolumeMounts } ∧
  c2.VolumeMounts.Sublist (c.VolumeMounts ++ volumeMounts) ∧
  (c2.VolumeMounts.map VolumeMount.MountPath).Nodup ∧
  (∀ m ∈ c.VolumeMounts ++ volumeMounts,
    m.MountPath ∈ c2.VolumeMounts.map VolumeMount.MountPath) ∧
  (∀ p : String, c2.VolumeMounts.find? (fun m => m.MountPath == p)
    = (c.VolumeMounts ++ volumeMounts).find? (fun m => m.MountPath == p)) ∧
  (∀ own ∈ c.VolumeMounts, ∃ kept ∈ c.VolumeMounts,
    c2.VolumeMounts.find? (fun m => m.MountPath == own.MountPath) = some kept)

/-- The node-selector requirement that the value of label `kv.1` is in the
one-element set holding `kv.2`. -/
def labelRequirement (kv : String × String) : NodeSelectorRequirement :=
  { Key := kv.1, Operator := "In", Values := [kv.2] }

/-- Container `c` with its volume mounts left out. -/
def withoutMounts (c : Container) : Container := { c with VolumeMounts := [] }


/-- The text `part` occurs in `message`. -/
def Mentions (message part : String) : Prop := ∃ before after, message = before ++ part ++ after

/-- The object is a Deployment or a StatefulSet with the given desired count,
ready count and no Progressing condition of status False. -/
def WorkloadWith (o : Object) (desiredReplicas : Option Int) (readyReplicas : Int) : Prop :=
  ∃ name conditions,
    readinessStatus o = ReadinessStatus.Workload name desiredReplicas readyReplicas conditions ∧
    ∀ c ∈ conditions, ¬ (c.type = "Progressing" ∧ c.Status = "False")

/-- The object is a batch job with the given counters. -/
def JobWith (o : Object) (active succeeded failed : Int) (ready : Option Int) : Prop :=
  ∃ name, readinessStatus o = ReadinessStatus.BatchJob name active succeeded failed ready

/-- The slice `containers` lies within its array, and the mounts of each of its
containers are a slice without spare capacity whose array, unless the slice is
empty, is in memory. -/
def FullMounts (mem : JobMemory) (containers : SliceValue) : Prop :=
  (mem.containerCells containers).length = containers.len ∧
  ∀ c ∈ mem.containerCells containers,
    c.VolumeMounts.cap ≤ c.VolumeMounts.len ∧
    (c.VolumeMounts.len = 0 ∨ c.VolumeMounts.array < mem.mounts.length)

/-- The slices `s` and `t` have no element of an array in common. -/
def Apart (s t : SliceValue) : Prop :=
  s.array ≠ t.array ∨ s.start + s.len ≤ t.start ∨ t.start + t.len ≤ s.start

/-- The job with its two lists of containers left out. -/
def withoutContainers (job : Job) : Job :=
  { job with
    Spec := { Template := { job.Spec.Template with
      Spec := { job.Spec.Template.Spec with InitContainers := [], Containers := [] } } } }

/-! ## Sample inputs -/

/-- Sample values for the constants of api/v1beta1. -/
def demoApi : kaitov1beta1 :=
  { LabelWorkspaceName := "kaito.sh/workspace"
    WorkspaceRevisionAnnotation := "workspace.kaito.io/revision"
    GroupVersion := { Group := "kaito.sh", Version := "v1beta1" } }

/-- A workspace named demo in namespace default whose `Resource.Count` is nil. -/
def demoWorkspace : Workspace :=
  { ObjectMeta := { Name := "demo", Namespace := "default", UID := "uid-1" } }

/-- The workspace demo with replica count 2. -/
def demoWorkspace2 : Workspace :=
  { demoWorkspace with Resource := { Count := some 2 } }

/-- A prior StatefulSet draft that already carries two owner references. -/
def ownedDraft : StatefulSet :=
  { ObjectMeta :=
      { Name := "old"
        OwnerReferences :=
          [ { APIVersion := "v1", Kind := "Pod", Name := "a", UID := "1"
              Controller := some true, BlockOwnerDeletion := none },
            { APIVersion := "v1", Kind := "Pod", Name := "b", UID := "2"
              Controller := none, BlockOwnerDeletion := none } ] } }

/-- A workspace with two node labels, a user template that carries an
affinity, a label and one toleration, and replica count 1. -/
def gpuWorkspace : Workspace :=
  { ObjectMeta := { Name := "gpu", Namespace := "ml", UID := "uid-2" }
    Resource :=
      { Count := some 1
        LabelSelector := { MatchLabels := some ⟨[("apps", "falcon"), ("zone", "west")]⟩ } }
    Inference :=
      { Template :=
          { ObjectMeta := { Labels := some ⟨[("team", "ml")]⟩ }
            Spec :=
              { Affinity := some { PodAffinity := some [{ TopologyKey := "host" }] }
                Tolerations := some [{ Key := "gpu", Operator := "Exists" }] } } } }

/-- Sample helpers for the puller containers: the base name is puller, the
output directory is the two path elements joined by a slash. -/
def demoDeps : PullerDeps :=
  { NewPullerContainer := fun image dir =>
      { Name := "puller", Image := "oras", Command := ["oras", "pull", image, "-o", dir] }
    ConfigImagePullSecretVolume := fun name secrets =>
      ({ Name := name, Source := String.intercalate "," secrets },
       { Name := name, MountPath := "/root/.docker/config.d/" ++ name })
    pathJoin := fun a b => a ++ "/" ++ b }

/-- A workspace with the two adapters a1 (strength 0.5) and a2 (no strength). -/
def adapterWorkspace : Workspace :=
  { ObjectMeta := { Name := "ad", Namespace := "ml" }
    Inference :=
      { Adapters :=
          [ { Source := { Name := "a1", Image := "reg/a1:v1" }, Strength := some "0.5" },
            { Source := { Name := "a2", Image := "reg/a2:v1" } } ] } }


/-- The workspace gpu whose user template already sets the identity label, to
another value, next to the label team. -/
def relabelledWorkspace : Workspace :=
  { gpuWorkspace with
    Inference :=
      { Template :=
          { ObjectMeta :=
              { Labels := some ⟨[("kaito.sh/workspace", "other"), ("team", "ml")]⟩ } } } }


/-- A memory holding the template of workspace gpu: one struct, its label map
team -> ml, and its one toleration in an array of capacity 4. -/
def gpuMemory : Memory :=
  { templates :=
      [{ Labels := some 0
         Affinity := some { PodAffinity := some [{ TopologyKey := "host" }] }
         Tolerations := some { array := 0, len := 1, cap := 4 } }]
    maps := [⟨[("team", "ml")]⟩]
    arrays := [[{ Key := "gpu", Operator := "Exists" }, {}, {}, {}],
               [{ Key := "sku", Operator := "Equal", Value := "gpu", Effect := "NoSchedule" }]] }

/-- The workspace gpu, its template at address 0 of `gpuMemory`. -/
def gpuWorkspaceRef : WorkspaceRef :=
  { ObjectMeta := { Name := "gpu", Namespace := "ml", UID := "uid-2" }
    Resource :=
      { Count := some 1
        LabelSelector := { MatchLabels := some ⟨[("apps", "falcon"), ("zone", "west")]⟩ } }
    Template := 0 }


/-- A deployment with 3 desired and 3 ready replicas. -/
def readyDeployment : Deployment :=
  { Spec := { Replicas := some 3 }, Status := { ReadyReplicas := 3 } }

/-- A replicated pod set with 1 desired and 0 ready replicas. -/
def waitingStatefulSet : StatefulSet :=
  { Spec := { Replicas := some 1 }, Status := { ReadyReplicas := 0 } }

/-- A deployment with 3 desired and 3 ready replicas whose rollout is stuck. -/
def stuckDeployment : Deployment :=
  { Spec := { Replicas := some 3 }
    Status :=
      { ReadyReplicas := 3
        Conditions :=
          [{ type := "Progressing", Status := "False", Reason := "ProcessDeadlineExceeded"
             Message := "Deployment exceeded its progress deadline" }] } }

/-- A job with one failed pod, and one active pod at the same time. -/
def failedJob : Job := { ObjectMeta := { Name := "tune" }, Status := { Failed := 1, Active := 1 } }

/-- A job with one active pod only. -/
def activeJob : Job := { Status := { Active := 1 } }

/-- A job with one succeeded pod. -/
def succeededJob : Job := { Status := { Succeeded := 1 } }

/-- A store with the system default inference-params-template in the release
namespace and a user configuration in the workspace namespace. -/
def demoStore : List ConfigMap :=
  [ { ObjectMeta := { Name := "inference-params-template", Namespace := "release-namespace" }
      Data := some ⟨[("inference_config.yaml", "max-model-len: 1024")]⟩ },
    { ObjectMeta := { Name := "inference-config-template", Namespace := "workspace-namespace" }
      Data := some ⟨[("inference_config.yaml", "max-model-len: 2048")]⟩ } ]


/-- A pod spec with one container. -/
def servingPodSpec : PodSpec :=
  { Containers := [{ Name := "serve", Image := "reg/serve:v1" }], RestartPolicy := "Always" }

/-- A volume claim named weights. -/
def weightsClaim : PersistentVolumeClaim :=
  { ObjectMeta := { Name := "weights" }, Storage := "100Gi" }

/-- A supplied volume mount. -/
def dataMount : VolumeMount := { Name := "data", MountPath := "/data" }

/-- The mount a at /a. -/
def mountA : VolumeMount := { Name := "a", MountPath := "/a" }

/-- The mount b at /b. -/
def mountB : VolumeMount := { Name := "b", MountPath := "/b" }

/-- The supplied mount v at /v. -/
def mountV : VolumeMount := { Name := "v", MountPath := "/v" }

/-- Two init containers whose mounts are slices of one array `base` holding a
and b: the container init-0 has `base[:1]`, of length 1 and capacity 2, and the
container init-1 has `base`.  The supplied mounts are a slice of a second array
that holds v. -/
def sharedMounts : JobMemory :=
  { mounts := [[mountA, mountB], [mountV]]
    containers :=
      [[{ VolumeMounts := { array := 0, start := 0, len := 1, cap := 2 }
          rest := { Name := "init-0" } },
        { VolumeMounts := { array := 0, start := 0, len := 2, cap := 2 }
          rest := { Name := "init-1" } }]] }

/-- The same two init containers with an array of mounts each, both full. -/
def separateMounts : JobMemory :=
  { mounts := [[mountA], [mountV], [mountA, mountB]]
    containers :=
      [[{ VolumeMounts := { array := 0, start := 0, len := 1, cap := 1 }
          rest := { Name := "init-0" } },
        { VolumeMounts := { array := 2, start := 0, len := 2, cap := 2 }
          rest := { Name := "init-1" } }]] }

/-- The slice of the two init containers. -/
def bothInits : SliceValue := { array := 0, start := 0, len := 2, cap := 2 }

/-- The slice of the supplied mounts. -/
def suppliedMounts : SliceValue := { array := 1, start := 0, len := 1, cap := 1 }

/-- The call of `GenerateTuningJobManifest` on the two init containers of `mem`,
no sidecar containers and the supplied mount v. -/
def tuningJobOn (mem : JobMemory) : JobMemory × JobCell :=
  GenerateTuningJobManifestAt demoApi mem demoWorkspace "1" "tuning:1" [] 1 ["run"] [] none none
    {} none bothInits {} [] suppliedMounts []

/-! ## Theorems -/

theorem ownedByWorkspace_controllerRef (api : kaitov1beta1) (w : Workspace) :
    OwnedByWorkspace api w [NewControllerRef w (api.GroupVersion.WithKind "Workspace")] :=
  ⟨_, rfl, rfl, rfl, rfl, rfl, rfl, rfl⟩

/-- The workspace demo has a nil `Resource.Count`: on it
`GenerateDeploymentManifestWithPodTemplate` dereferences the nil pointer and
returns no deployment. -/
theorem podTemplateDeployment_nil_count :
    demoWorkspace.Resource.Count = none ∧
    GenerateDeploymentManifestWithPodTemplate demoApi demoWorkspace none = none :=
  ⟨rfl, rfl⟩

/-- C1: for every workspace, the object produced by each of the six generators
carries exactly one owner reference, the controller reference of kind Workspace
pointing at the input workspace.  GenerateHeadlessServiceManifest,
GenerateServiceManifest and GenerateTuningJobManifest always produce their
object; GenerateStatefulSetManifest and GenerateDeploymentManifest produce it
from every prior draft, whatever owner references the draft carried; and every
deployment that GenerateDeploymentManifestWithPodTemplate returns has this one
owner reference. -/
theorem C1_single_owner_reference (api : kaitov1beta1) (w : Workspace) :
    OwnedByWorkspace api w (GenerateHeadlessServiceManifest api w).ObjectMeta.OwnerReferences ∧
    (∀ serviceType isStatefulSet,
      OwnedByWorkspace api w
        (GenerateServiceManifest api w serviceType isStatefulSet).ObjectMeta.OwnerReferences) ∧
    (∀ revisionNum replicas (ss : StatefulSet),
      OwnedByWorkspace api w
        (GenerateStatefulSetManifest api revisionNum replicas ⟨w⟩ ss).1.ObjectMeta.OwnerReferences) ∧
    (∀ revisionNum replicas (d : Deployment),
      OwnedByWorkspace api w
        (GenerateDeploymentManifest api revisionNum replicas ⟨w⟩ d).1.ObjectMeta.OwnerReferences) ∧
    (∀ revisionNum imageName imagePullSecretRefs replicas commands containerPorts livenessProbe
        readinessProbe resourceRequirements tolerations initContainers sidecarContainers volumes
        volumeMounts envVars,
      OwnedByWorkspace api w
        (GenerateTuningJobManifest api w revisionNum imageName imagePullSecretRefs replicas
          commands containerPorts livenessProbe readinessProbe resourceRequirements tolerations
          initContainers sidecarContainers volumes volumeMounts envVars).ObjectMeta.OwnerReferences) ∧
    (∀ tolerations d, GenerateDeploymentManifestWithPodTemplate api w tolerations = some d →
      OwnedByWorkspace api w d.ObjectMeta.OwnerReferences) := by
  refine ⟨ownedByWorkspace_controllerRef api w, fun _ _ => ownedByWorkspace_controllerRef api w,
    fun _ _ _ => ownedByWorkspace_controllerRef api w,
    fun _ _ _ => ownedByWorkspace_controllerRef api w, ?_, ?_⟩
  · intros
    exact ownedByWorkspace_controllerRef api w
  · intro tolerations d hd
    cases hc : w.Resource.Count with
    | none =>
      simp only [GenerateDeploymentManifestWithPodTemplate, hc] at hd
      exact Option.noConfusion hd
    | some count =>
      simp only [GenerateDeploymentManifestWithPodTemplate, hc, Option.some.injEq] at hd
      subst hd
      exact ownedByWorkspace_controllerRef api w

/-- C1 witness: the workspace demo with count 2 gets a deployment, which
carries the single controller reference, and a draft that carried two owner
references ends with that single reference. -/
theorem C1_single_owner_reference_witness :
    (∃ d, GenerateDeploymentManifestWithPodTemplate demoApi demoWorkspace2 none = some d ∧
      OwnedByWorkspace demoApi demoWorkspace2 d.ObjectMeta.OwnerReferences) ∧
    ownedDraft.ObjectMeta.OwnerReferences.length = 2 ∧
    OwnedByWorkspace demoApi demoWorkspace2
      (GenerateStatefulSetManifest demoApi "1" 3 ⟨demoWorkspace2⟩
        ownedDraft).1.ObjectMeta.OwnerReferences :=
  ⟨⟨_, rfl, (C1_single_owner_reference demoApi demoWorkspace2).2.2.2.2.2 none _ rfl⟩,
   rfl,
   (C1_single_owner_reference demoApi demoWorkspace2).2.2.1 "1" 3 ownedDraft⟩

/-- C2: the service of GenerateServiceManifest selects by the one entry
identity label -> workspace name when `isStatefulSet` is false, and by that
entry plus statefulset.kubernetes.io/pod-name -> name-0 (two entries with
distinct keys, nothing else) when it is true; the headless service always has
the one-entry selector.  The identity label is a constant of api/v1beta1; the
two-entry shape needs it to differ from the pod-name key. -/
theorem C2_service_selector (api : kaitov1beta1) (w : Workspace) (serviceType : String)
    (hkey : api.LabelWorkspaceName ≠ "statefulset.kubernetes.io/pod-name") :
    (GenerateServiceManifest api w serviceType false).Spec.Selector
      = some ⟨[(api.LabelWorkspaceName, w.Name)]⟩ ∧
    (∃ m, (GenerateServiceManifest api w serviceType true).Spec.Selector = some m ∧
      m.entries = [(api.LabelWorkspaceName, w.Name),
        ("statefulset.kubernetes.io/pod-name", w.Name ++ "-0")] ∧
      m.WF ∧ m.len = 2 ∧
      m.get? api.LabelWorkspaceName = some w.Name ∧
      m.get? "statefulset.kubernetes.io/pod-name" = some (w.Name ++ "-0")) ∧
    (GenerateHeadlessServiceManifest api w).Spec.Selector
      = some ⟨[(api.LabelWorkspaceName, w.Name)]⟩ := by
  refine ⟨rfl, ⟨_, rfl, ?_, ?_, ?_, ?_, ?_⟩, rfl⟩
  · simp [GoMap.set, GoMap.single, GoMap.setEntries, hkey]
  · simp [GoMap.set, GoMap.single, GoMap.setEntries, hkey, GoMap.WF]
  · simp [GoMap.set, GoMap.single, GoMap.setEntries, hkey, GoMap.len]
  · simp [GoMap.set, GoMap.single, GoMap.setEntries, hkey, GoMap.get?, List.lookup]
  · have hne : ("statefulset.kubernetes.io/pod-name" == api.LabelWorkspaceName) = false := by
      simpa using fun h => hkey h.symm
    simp [GoMap.set, GoMap.single, GoMap.setEntries, hkey, GoMap.get?, List.lookup, hne]

/-- C2 witness: with the identity label kaito.sh/workspace the StatefulSet
service of workspace demo selects exactly the label and the pod demo-0. -/
theorem C2_service_selector_witness :
    (GenerateServiceManifest demoApi demoWorkspace "ClusterIP" true).Spec.Selector
      = some ⟨[("kaito.sh/workspace", "demo"),
          ("statefulset.kubernetes.io/pod-name", "demo-0")]⟩ := by
  obtain ⟨m, hm, he, -⟩ := (C2_service_selector demoApi demoWorkspace "ClusterIP" (by decide)).2.1
  rw [hm]
  cases m
  simpa using he

/-- C3: after GenerateStatefulSetManifest, and after GenerateDeploymentManifest,
the draft's selector match labels and its pod-template labels are the same map,
the one-entry map identity label -> workspace name, whatever the prior draft. -/
theorem C3_selector_matches_template_labels (api : kaitov1beta1) (revisionNum : String)
    (replicas : Int) (ctx : WorkspaceGeneratorContext) (ss : StatefulSet) (d : Deployment) :
    (GenerateStatefulSetManifest api revisionNum replicas ctx ss).1.Spec.Selector
      = some { MatchLabels := some ⟨[(api.LabelWorkspaceName, ctx.Workspace.Name)]⟩ } ∧
    (GenerateStatefulSetManifest api revisionNum replicas ctx ss).1.Spec.Template.ObjectMeta.Labels
      = some ⟨[(api.LabelWorkspaceName, ctx.Workspace.Name)]⟩ ∧
    (GenerateDeploymentManifest api revisionNum replicas ctx d).1.Spec.Selector
      = some { MatchLabels := some ⟨[(api.LabelWorkspaceName, ctx.Workspace.Name)]⟩ } ∧
    (GenerateDeploymentManifest api revisionNum replicas ctx d).1.Spec.Template.ObjectMeta.Labels
      = some ⟨[(api.LabelWorkspaceName, ctx.Workspace.Name)]⟩ :=
  ⟨rfl, rfl, rfl, rfl⟩

/-- C4: the StatefulSet of GenerateStatefulSetManifest has pod management
policy Parallel and a non-nil volume-claim retention policy with WhenScaled
Retain and WhenDeleted Delete, whatever the prior draft. -/
theorem C4_statefulset_policies (api : kaitov1beta1) (revisionNum : String) (replicas : Int)
    (ctx : WorkspaceGeneratorContext) (ss : StatefulSet) :
    (GenerateStatefulSetManifest api revisionNum replicas ctx ss).1.Spec.PodManagementPolicy
      = "Parallel" ∧
    (GenerateStatefulSetManifest api revisionNum replicas ctx
        ss).1.Spec.PersistentVolumeClaimRetentionPolicy
      = some { WhenScaled := "Retain", WhenDeleted := "Delete" } :=
  ⟨rfl, rfl⟩

/-- C5: the Deployment of GenerateDeploymentManifest uses the RollingUpdate
strategy with MaxSurge the integer 0 and MaxUnavailable the integer 1, both of
integer type, whatever the replica count and the prior draft. -/
theorem C5_rolling_update_strategy (api : kaitov1beta1) (revisionNum : String) (replicas : Int)
    (ctx : WorkspaceGeneratorContext) (d : Deployment) :
    (GenerateDeploymentManifest api revisionNum replicas ctx d).1.Spec.Strategy.type
      = "RollingUpdate" ∧
    (GenerateDeploymentManifest api revisionNum replicas ctx d).1.Spec.Strategy.RollingUpdate
      = some { MaxSurge := some { type := IntOrStringType.Int, IntVal := 0, StrVal := "" }
               MaxUnavailable := some { type := IntOrStringType.Int, IntVal := 1, StrVal := "" } } :=
  ⟨rfl, rfl⟩

/-- C6: the pod spec of the tuning job has ShareProcessNamespace set, and its
value is true exactly when the sidecar container list is non-empty; the init
containers play no part. -/
theorem C6_share_process_namespace (api : kaitov1beta1) (wObj : Workspace)
    (revisionNum imageName : String) (imagePullSecretRefs : List LocalObjectReference)
    (replicas : Int) (commands : List String) (containerPorts : List ContainerPort)
    (livenessProbe readinessProbe : Option Probe) (resourceRequirements : ResourceRequirements)
    (tolerations : Option (List Toleration)) (initContainers sidecarContainers : List Container)
    (volumes : List Volume) (volumeMounts : List VolumeMount) (envVars : List EnvVar) :
    (GenerateTuningJobManifest api wObj revisionNum imageName imagePullSecretRefs replicas
        commands containerPorts livenessProbe readinessProbe resourceRequirements tolerations
        initContainers sidecarContainers volumes volumeMounts
        envVars).Spec.Template.Spec.ShareProcessNamespace
      = some (decide (sidecarContainers ≠ [])) ∧
    ∀ otherInitContainers : List Container,
      (GenerateTuningJobManifest api wObj revisionNum imageName imagePullSecretRefs replicas
          commands containerPorts livenessProbe readinessProbe resourceRequirements tolerations
          otherInitContainers sidecarContainers volumes volumeMounts
          envVars).Spec.Template.Spec.ShareProcessNamespace
        = (GenerateTuningJobManifest api wObj revisionNum imageName imagePullSecretRefs replicas
          commands containerPorts livenessProbe readinessProbe resourceRequirements tolerations
          initContainers sidecarContainers volumes volumeMounts
          envVars).Spec.Template.Spec.ShareProcessNamespace := by
  refine ⟨?_, fun _ => rfl⟩
  cases sidecarContainers <;> simp [GenerateTuningJobManifest]

/-! ### Merging volume mounts -/

theorem dedupFrom_sublist (seen : List String) (l : List VolumeMount) :
    (DedupVolumeMountsFrom seen l).Sublist l := by
  induction l generalizing seen with
  | nil => simp [DedupVolumeMountsFrom]
  | cons m rest ih =>
    unfold DedupVolumeMountsFrom
    split_ifs with h
    · exact (ih seen).cons m
    · exact (ih _).cons₂ m

theorem dedupFrom_not_seen (seen : List String) (l : List VolumeMount) :
    ∀ m ∈ DedupVolumeMountsFrom seen l, m.MountPath ∉ seen := by
  induction l generalizing seen with
  | nil => simp [DedupVolumeMountsFrom]
  | cons m rest ih =>
    unfold DedupVolumeMountsFrom
    split_ifs with h
    · exact ih seen
    · intro x hx
      rcases List.mem_cons.1 hx with rfl | hx
      · exact h
      · exact fun hs => ih _ x hx (List.mem_cons_of_mem _ hs)

theorem dedupFrom_nodup (seen : List String) (l : List VolumeMount) :
    ((DedupVolumeMountsFrom seen l).map VolumeMount.MountPath).Nodup := by
  induction l generalizing seen with
  | nil => simp [DedupVolumeMountsFrom]
  | cons m rest ih =>
    unfold DedupVolumeMountsFrom
    split_ifs with h
    · exact ih seen
    · rw [List.map_cons, List.nodup_cons]
      refine ⟨?_, ih _⟩
      intro hm
      obtain ⟨x, hx, hxp⟩ := List.mem_map.1 hm
      exact dedupFrom_not_seen _ rest x hx (by rw [hxp]; exact List.mem_cons_self _ _)

theorem dedupFrom_find (seen : List String) (l : List VolumeMount) (p : String) (hp : p ∉ seen) :
    (DedupVolumeMountsFrom seen l).find? (fun m => m.MountPath == p)
      = l.find? (fun m => m.MountPath == p) := by
  induction l generalizing seen with
  | nil => simp [DedupVolumeMountsFrom]
  | cons m rest ih =>
    unfold DedupVolumeMountsFrom
    split_ifs with h
    · have hne : (m.MountPath == p) = false := by
        simpa using fun e : m.MountPath = p => hp (e ▸ h)
      rw [List.find?_cons, hne]
      exact ih seen hp
    · by_cases e : m.MountPath = p
      · simp [List.find?_cons, e]
      · have hne : (m.MountPath == p) = false := by simpa using e
        rw [List.find?_cons, List.find?_cons, hne]
        exact ih _ (by simp [hp, Ne.symm e])

theorem dedupFrom_paths (seen : List String) (l : List VolumeMount) (p : String) :
    p ∈ (DedupVolumeMountsFrom seen l).map VolumeMount.MountPath
      ↔ p ∈ l.map VolumeMount.MountPath ∧ p ∉ seen := by
  induction l generalizing seen with
  | nil => simp [DedupVolumeMountsFrom]
  | cons m rest ih =>
    unfold DedupVolumeMountsFrom
    split_ifs with h
    · rw [ih seen]
      constructor
      · rintro ⟨h1, h2⟩
        exact ⟨by simp [List.mem_map] at h1 ⊢; exact Or.inr h1, h2⟩
      · rintro ⟨h1, h2⟩
        refine ⟨?_, h2⟩
        rw [List.map_cons, List.mem_cons] at h1
        rcases h1 with rfl | h1
        · exact absurd h h2
        · exact h1
    · rw [List.map_cons, List.mem_cons, ih, List.map_cons, List.mem_cons, List.mem_cons]
      constructor
      · rintro (rfl | ⟨h1, h2⟩)
        · exact ⟨Or.inl rfl, h⟩
        · exact ⟨Or.inr h1, fun hs => h2 (Or.inr hs)⟩
      · rintro ⟨h1 | h1, h2⟩
        · exact Or.inl h1
        · by_cases e : p = m.MountPath
          · exact Or.inl e
          · exact Or.inr ⟨h1, fun hs => hs.elim e h2⟩

/-- On the mounts a (/x), b (/y), c (/x) the later duplicate c for /x is
dropped and the order of the others is kept. -/
theorem dedupVolumeMounts_sample :
    DedupVolumeMounts
        [{ Name := "a", MountPath := "/x" }, { Name := "b", MountPath := "/y" },
         { Name := "c", MountPath := "/x" }]
      = [{ Name := "a", MountPath := "/x" }, { Name := "b", MountPath := "/y" }] := by
  decide

theorem mountsMerged_dedup (volumeMounts : List VolumeMount) (c : Container) :
    MountsMerged volumeMounts c
      { c with VolumeMounts := DedupVolumeMounts (c.VolumeMounts ++ volumeMounts) } := by
  refine ⟨rfl, dedupFrom_sublist _ _, dedupFrom_nodup _ _, ?_, ?_, ?_⟩
  · intro m hm
    exact (dedupFrom_paths [] _ _).2 ⟨List.mem_map_of_mem _ hm, List.not_mem_nil _⟩
  · intro p
    exact dedupFrom_find [] _ p (List.not_mem_nil _)
  · intro own hown
    have hfind : (DedupVolumeMounts (c.VolumeMounts ++ volumeMounts)).find?
        (fun m => m.MountPath == own.MountPath)
        = (c.VolumeMounts ++ volumeMounts).find? (fun m => m.MountPath == own.MountPath) :=
      dedupFrom_find [] _ _ (List.not_mem_nil _)
    cases hsome : c.VolumeMounts.find? (fun m => m.MountPath == own.MountPath) with
    | none =>
      have := List.find?_eq_none.1 hsome own hown
      simp at this
    | some kept =>
      refine ⟨kept, List.mem_of_find?_eq_some hsome, ?_⟩
      show (DedupVolumeMounts (c.VolumeMounts ++ volumeMounts)).find? _ = some kept
      rw [hfind, List.find?_append, hsome]
      rfl

theorem forall₂_map_mountsMerged (volumeMounts : List VolumeMount) (cs : List Container) :
    List.Forall₂ (MountsMerged volumeMounts) cs
      (cs.map fun c =>
        { c with VolumeMounts := DedupVolumeMounts (c.VolumeMounts ++ volumeMounts) }) := by
  induction cs with
  | nil => exact List.Forall₂.nil
  | cons c cs ih => exact List.Forall₂.cons (mountsMerged_dedup volumeMounts c) ih

/-- On arguments read as values, every init container and every sidecar
container of the tuning job (the containers after the main one) is the supplied
container with its volume mounts replaced by its own mounts followed by the
supplied mounts, de-duplicated by mount path with the first occurrence kept: no
two mounts share a path, every path of the own or supplied mounts is still
present, and where an own mount has a path the mount that remains for it is an
own mount. -/
theorem tuningJob_mounts_merged (api : kaitov1beta1) (wObj : Workspace)
    (revisionNum imageName : String) (imagePullSecretRefs : List LocalObjectReference)
    (replicas : Int) (commands : List String) (containerPorts : List ContainerPort)
    (livenessProbe readinessProbe : Option Probe) (resourceRequirements : ResourceRequirements)
    (tolerations : Option (List Toleration)) (initContainers sidecarContainers : List Container)
    (volumes : List Volume) (volumeMounts : List VolumeMount) (envVars : List EnvVar) :
    List.Forall₂ (MountsMerged volumeMounts) initContainers
      (GenerateTuningJobManifest api wObj revisionNum imageName imagePullSecretRefs replicas
        commands containerPorts livenessProbe readinessProbe resourceRequirements tolerations
        initContainers sidecarContainers volumes volumeMounts
        envVars).Spec.Template.Spec.InitContainers ∧
    List.Forall₂ (MountsMerged volumeMounts) sidecarContainers
      (GenerateTuningJobManifest api wObj revisionNum imageName imagePullSecretRefs replicas
        commands containerPorts livenessProbe readinessProbe resourceRequirements tolerations
        initContainers sidecarContainers volumes volumeMounts
        envVars).Spec.Template.Spec.Containers.tail :=
  ⟨forall₂_map_mountsMerged volumeMounts initContainers,
   forall₂_map_mountsMerged volumeMounts sidecarContainers⟩

/-! ### Node affinity and tolerations of the pod-template deployment -/

theorem lookup_eq_some_iff_mem (l : List (String × String)) (hl : (l.map Prod.fst).Nodup)
    (k v : String) : l.lookup k = some v ↔ (k, v) ∈ l := by
  induction l with
  | nil => simp [List.lookup]
  | cons kv rest ih =>
    obtain ⟨k1, v1⟩ := kv
    rw [List.map_cons, List.nodup_cons] at hl
    by_cases hk : k = k1
    · subst hk
      have hnot : (k, v) ∉ rest := fun hm =>
        hl.1 (by simpa using List.mem_map_of_mem Prod.fst hm)
      simp [List.lookup, hnot, eq_comm]
    · have hb : (k == k1) = false := by simpa using hk
      simp only [List.lookup, hb, List.mem_cons, Prod.mk.injEq, hk, false_and, false_or]
      exact ih hl.2

/-- C8: when the workspace's replica count is set, so that a deployment is
returned, its pod template has a required node affinity with exactly one
node-selector term; the term's match expressions are one requirement per entry
of the label-selector map M (key k, operator In, values [M(k)]), in the order
the loop visits M and so, for any enumeration of M, up to order; their number
is the number of keys of M, their keys are pairwise distinct, and the affinity
holds nothing else, whatever affinity the user template carried.  A nil M has
no entries. -/
theorem C8_node_affinity (api : kaitov1beta1) (w : Workspace)
    (tolerations : Option (List Toleration)) (count : Int)
    (hcount : w.Resource.Count = some count)
    (hwf : ((GoMap.range w.Resource.LabelSelector.MatchLabels).map Prod.fst).Nodup) :
    ∃ d exprs,
      GenerateDeploymentManifestWithPodTemplate api w tolerations = some d ∧
      d.Spec.Template.Spec.Affinity = some
        { NodeAffinity := some
            { RequiredDuringSchedulingIgnoredDuringExecution := some
                { NodeSelectorTerms := [{ MatchExpressions := exprs, MatchFields := [] }] }
              PreferredDuringSchedulingIgnoredDuringExecution := [] }
          PodAffinity := none
          PodAntiAffinity := none } ∧
      exprs = (GoMap.range w.Resource.LabelSelector.MatchLabels).map labelRequirement ∧
      (∀ enumeration : List (String × String),
        enumeration.Perm (GoMap.range w.Resource.LabelSelector.MatchLabels) →
        exprs.Perm (enumeration.map labelRequirement)) ∧
      exprs.length = (GoMap.range w.Resource.LabelSelector.MatchLabels).length ∧
      (exprs.map NodeSelectorRequirement.Key).Nodup ∧
      (∀ k v, (GoMap.range w.Resource.LabelSelector.MatchLabels).lookup k = some v ↔
        ({ Key := k, Operator := "In", Values := [v] } : NodeSelectorRequirement) ∈ exprs) ∧
      (∀ r ∈ exprs, r.Operator = "In" ∧ ∃ v, r.Values = [v] ∧
        (GoMap.range w.Resource.LabelSelector.MatchLabels).lookup r.Key = some v) := by
  simp only [GenerateDeploymentManifestWithPodTemplate, hcount]
  refine ⟨_, (GoMap.range w.Resource.LabelSelector.MatchLabels).map labelRequirement,
    rfl, ?_, rfl, ?_, ?_, ?_, ?_, ?_⟩
  · rfl
  · intro enumeration hperm
    exact (hperm.map labelRequirement).symm
  · simp
  · have : ((GoMap.range w.Resource.LabelSelector.MatchLabels).map labelRequirement).map
          NodeSelectorRequirement.Key
        = (GoMap.range w.Resource.LabelSelector.MatchLabels).map Prod.fst := by
      rw [List.map_map]; rfl
    rw [this]
    exact hwf
  · intro k v
    rw [lookup_eq_some_iff_mem _ hwf, List.mem_map]
    constructor
    · intro hm
      exact ⟨(k, v), hm, rfl⟩
    · rintro ⟨⟨k1, v1⟩, hm, he⟩
      simp only [labelRequirement, NodeSelectorRequirement.mk.injEq, List.cons.injEq,
        and_true, true_and] at he
      obtain ⟨rfl, rfl⟩ := he
      exact hm
  · intro r hr
    obtain ⟨⟨k1, v1⟩, hm, rfl⟩ := List.mem_map.1 hr
    exact ⟨rfl, v1, rfl, (lookup_eq_some_iff_mem _ hwf k1 v1).2 hm⟩

/-- C8 witness: the workspace gpu has labels apps -> falcon and zone -> west
and a user template with a pod affinity; the deployment's affinity is the node
affinity with the two In requirements and nothing else. -/
theorem C8_node_affinity_witness :
    ∃ d, GenerateDeploymentManifestWithPodTemplate demoApi gpuWorkspace none = some d ∧
      d.Spec.Template.Spec.Affinity = some
        { NodeAffinity := some
            { RequiredDuringSchedulingIgnoredDuringExecution := some
                { NodeSelectorTerms :=
                    [{ MatchExpressions :=
                        [ { Key := "apps", Operator := "In", Values := ["falcon"] },
                          { Key := "zone", Operator := "In", Values := ["west"] } ] }] } } } := by
  obtain ⟨d, exprs, hd, haff, hexprs, -⟩ :=
    C8_node_affinity demoApi gpuWorkspace none 1 rfl (by decide)
  refine ⟨d, hd, ?_⟩
  rw [haff, hexprs]
  rfl

/-- C9: when the workspace's replica count is set, so that a deployment is
returned, the tolerations of its pod template are the template's own
tolerations T followed by the supplied tolerations S: T is kept whole, in order
and first.  A nil T yields S itself, a non-nil T yields the appended list. -/
theorem C9_tolerations_appended (api : kaitov1beta1) (w : Workspace)
    (tolerations : Option (List Toleration)) (count : Int)
    (hcount : w.Resource.Count = some count) :
    ∃ d, GenerateDeploymentManifestWithPodTemplate api w tolerations = some d ∧
      sliceElems d.Spec.Template.Spec.Tolerations
        = sliceElems w.Inference.Template.Spec.Tolerations ++ sliceElems tolerations ∧
      (w.Inference.Template.Spec.Tolerations = none →
        d.Spec.Template.Spec.Tolerations = tolerations) ∧
      (∀ own, w.Inference.Template.Spec.Tolerations = some own →
        d.Spec.Template.Spec.Tolerations = some (own ++ sliceElems tolerations)) := by
  simp only [GenerateDeploymentManifestWithPodTemplate, hcount, PodTemplateSpec.DeepCopy]
  refine ⟨_, rfl, ?_, ?_, ?_⟩
  · cases hT : w.Inference.Template.Spec.Tolerations <;> simp [sliceElems]
  · intro hT
    simp [hT]
  · intro own hT
    simp [hT]

/-- C9 witness: the template of workspace gpu tolerates gpu; supplying the
toleration sku gives gpu followed by sku. -/
theorem C9_tolerations_appended_witness :
    ∃ d, GenerateDeploymentManifestWithPodTemplate demoApi gpuWorkspace
        (some [{ Key := "sku", Operator := "Equal", Value := "gpu", Effect := "NoSchedule" }])
        = some d ∧
      d.Spec.Template.Spec.Tolerations = some
        [ { Key := "gpu", Operator := "Exists" },
          { Key := "sku", Operator := "Equal", Value := "gpu", Effect := "NoSchedule" } ] := by
  obtain ⟨d, hd, -, -, hown⟩ :=
    C9_tolerations_appended demoApi gpuWorkspace
      (some [{ Key := "sku", Operator := "Equal", Value := "gpu", Effect := "NoSchedule" }]) 1 rfl
  exact ⟨d, hd, hown _ rfl⟩

/-! ### Puller containers -/

theorem pullerStep_initContainers (deps : PullerDeps) (volumeMounts : List VolumeMount)
    (capVolumeMounts : Nat) (st : PullerState) (a : AdapterSpec) :
    (pullerStep deps volumeMounts capVolumeMounts st a).initContainers.map withoutMounts
      = st.initContainers.map withoutMounts ++
        [withoutMounts
          { deps.NewPullerContainer a.Source.Image (deps.pathJoin "/mnt/adapter" a.Source.Name) with
            Name := (deps.NewPullerContainer a.Source.Image
              (deps.pathJoin "/mnt/adapter" a.Source.Name)).Name ++ ("-" ++ a.Source.Name) }] := by
  unfold pullerStep
  simp only []
  split_ifs
  · simp only [List.map_append, List.map_map, List.map_cons, List.map_nil]
    congr 1
  · simp only [List.map_append, List.map_cons, List.map_nil]
    congr 1

theorem pullerStep_volumes (deps : PullerDeps) (volumeMounts : List VolumeMount)
    (capVolumeMounts : Nat) (st : PullerState) (a : AdapterSpec) :
    (pullerStep deps volumeMounts capVolumeMounts st a).volumes
      = st.volumes ++ [(deps.ConfigImagePullSecretVolume (a.Source.Name ++ "-inference-adapter")
          a.Source.ImagePullSecrets).1] := rfl

theorem pullerFold (deps : PullerDeps) (volumeMounts : List VolumeMount) (capVolumeMounts : Nat)
    (adapters : List AdapterSpec) (st : PullerState) :
    (adapters.foldl (pullerStep deps volumeMounts capVolumeMounts) st).initContainers.map
        withoutMounts
      = st.initContainers.map withoutMounts ++ adapters.map (fun a => withoutMounts
          { deps.NewPullerContainer a.Source.Image (deps.pathJoin "/mnt/adapter" a.Source.Name) with
            Name := (deps.NewPullerContainer a.Source.Image
              (deps.pathJoin "/mnt/adapter" a.Source.Name)).Name ++ ("-" ++ a.Source.Name) }) ∧
    (adapters.foldl (pullerStep deps volumeMounts capVolumeMounts) st).volumes
      = st.volumes ++ adapters.map (fun a =>
          (deps.ConfigImagePullSecretVolume (a.Source.Name ++ "-inference-adapter")
            a.Source.ImagePullSecrets).1) := by
  induction adapters generalizing st with
  | nil => simp
  | cons a rest ih =>
    rw [List.foldl_cons]
    obtain ⟨h1, h2⟩ := ih (pullerStep deps volumeMounts capVolumeMounts st a)
    rw [h1, h2, pullerStep_initContainers, pullerStep_volumes]
    simp

/-- C10: for a workspace with n adapters GeneratePullerContainers returns n
init containers and n volumes, in adapter order.  The i-th container is the
container that NewPullerContainer builds for the i-th adapter's image and the
output directory path.Join of /mnt/adapter and the source name, renamed to the
base name followed by a dash and the source name (volume mounts apart); the
i-th volume is the image-pull-secret volume of the i-th adapter.  With no
adapters both lists are empty.  `base` is the fixed name NewPullerContainer
gives its containers. -/
theorem C10_puller_containers (deps : PullerDeps) (wObj : Workspace)
    (volumeMounts : List VolumeMount) (capVolumeMounts : Nat) (base : String)
    (hbase : ∀ image dir, (deps.NewPullerContainer image dir).Name = base) :
    (GeneratePullerContainers deps wObj volumeMounts capVolumeMounts).1.length
      = wObj.Inference.Adapters.length ∧
    (GeneratePullerContainers deps wObj volumeMounts capVolumeMounts).2.2.length
      = wObj.Inference.Adapters.length ∧
    (GeneratePullerContainers deps wObj volumeMounts capVolumeMounts).1.map Container.Name
      = wObj.Inference.Adapters.map (fun a => base ++ "-" ++ a.Source.Name) ∧
    (GeneratePullerContainers deps wObj volumeMounts capVolumeMounts).1.map withoutMounts
      = wObj.Inference.Adapters.map (fun a => withoutMounts
          { deps.NewPullerContainer a.Source.Image (deps.pathJoin "/mnt/adapter" a.Source.Name) with
            Name := base ++ "-" ++ a.Source.Name }) ∧
    (GeneratePullerContainers deps wObj volumeMounts capVolumeMounts).2.2
      = wObj.Inference.Adapters.map (fun a =>
          (deps.ConfigImagePullSecretVolume (a.Source.Name ++ "-inference-adapter")
            a.Source.ImagePullSecrets).1) ∧
    (∀ (i : Nat) (a : AdapterSpec), wObj.Inference.Adapters[i]? = some a →
      ∃ c, (GeneratePullerContainers deps wObj volumeMounts capVolumeMounts).1[i]? = some c ∧
        c.Name = base ++ "-" ++ a.Source.Name ∧
        withoutMounts c = withoutMounts
          { deps.NewPullerContainer a.Source.Image (deps.pathJoin "/mnt/adapter" a.Source.Name) with
            Name := base ++ "-" ++ a.Source.Name }) ∧
    (wObj.Inference.Adapters = [] →
      (GeneratePullerContainers deps wObj volumeMounts capVolumeMounts).1 = [] ∧
      (GeneratePullerContainers deps wObj volumeMounts capVolumeMounts).2.2 = []) := by
  obtain ⟨hc, hv⟩ := pullerFold deps volumeMounts capVolumeMounts wObj.Inference.Adapters {}
  have hc2 : (GeneratePullerContainers deps wObj volumeMounts capVolumeMounts).1.map withoutMounts
      = wObj.Inference.Adapters.map (fun a => withoutMounts
          { deps.NewPullerContainer a.Source.Image (deps.pathJoin "/mnt/adapter" a.Source.Name) with
            Name := base ++ "-" ++ a.Source.Name }) := by
    show (wObj.Inference.Adapters.foldl (pullerStep deps volumeMounts capVolumeMounts)
      {}).initContainers.map withoutMounts = _
    rw [hc]
    simp only [List.map_nil, List.nil_append, hbase, String.append_assoc]
  have hv2 : (GeneratePullerContainers deps wObj volumeMounts capVolumeMounts).2.2
      = wObj.Inference.Adapters.map (fun a =>
          (deps.ConfigImagePullSecretVolume (a.Source.Name ++ "-inference-adapter")
            a.Source.ImagePullSecrets).1) := by
    show (wObj.Inference.Adapters.foldl (pullerStep deps volumeMounts capVolumeMounts)
      {}).volumes = _
    rw [hv]
    rfl
  have hlen : (GeneratePullerContainers deps wObj volumeMounts capVolumeMounts).1.length
      = wObj.Inference.Adapters.length := by
    have := congrArg List.length hc2
    simpa using this
  have hnames : (GeneratePullerContainers deps wObj volumeMounts capVolumeMounts).1.map
      Container.Name = wObj.Inference.Adapters.map (fun a => base ++ "-" ++ a.Source.Name) := by
    have := congrArg (List.map Container.Name) hc2
    simpa [List.map_map, Function.comp_def, withoutMounts] using this
  refine ⟨hlen, ?_, hnames, hc2, hv2, ?_, ?_⟩
  · rw [hv2, List.length_map]
  · intro i a ha
    have hi : i < (GeneratePullerContainers deps wObj volumeMounts capVolumeMounts).1.length := by
      rw [hlen]
      exact (List.getElem?_eq_some_iff.1 ha).1
    refine ⟨(GeneratePullerContainers deps wObj volumeMounts capVolumeMounts).1[i],
      List.getElem?_eq_getElem hi, ?_, ?_⟩
    · have := congrArg (fun l => l[i]?) hnames
      simpa [List.getElem?_map, List.getElem?_eq_getElem hi, ha] using this
    · have := congrArg (fun l => l[i]?) hc2
      simpa [List.getElem?_map, List.getElem?_eq_getElem hi, ha] using this
  · intro hnil
    have h0 : (GeneratePullerContainers deps wObj volumeMounts capVolumeMounts).1.length = 0 := by
      rw [hlen, hnil]; rfl
    exact ⟨List.length_eq_zero.1 h0, by rw [hv2, hnil]; rfl⟩

/-- C10 witness: the workspace with adapters a1 and a2 gets the two containers
puller-a1 and puller-a2, built for the images reg/a1:v1 and reg/a2:v1 with
output directories /mnt/adapter/a1 and /mnt/adapter/a2, and two volumes. -/
theorem C10_puller_containers_witness :
    (GeneratePullerContainers demoDeps adapterWorkspace [] 0).1.map Container.Name
      = ["puller-a1", "puller-a2"] ∧
    (GeneratePullerContainers demoDeps adapterWorkspace [] 0).1.map Container.Command
      = [["oras", "pull", "reg/a1:v1", "-o", "/mnt/adapter/a1"],
         ["oras", "pull", "reg/a2:v1", "-o", "/mnt/adapter/a2"]] ∧
    (GeneratePullerContainers demoDeps adapterWorkspace [] 0).2.2.length = 2 := by
  have h := C10_puller_containers demoDeps adapterWorkspace [] 0 "puller" (fun _ _ => rfl)
  refine ⟨h.2.2.1, ?_, h.2.1⟩
  have hc := congrArg (List.map Container.Command) h.2.2.2.1
  simpa [List.map_map, Function.comp_def, withoutMounts] using hc


/-- C11: the environment variables returned by GeneratePullerContainers are, in
adapter order, one variable per adapter whose strength is set, named after the
adapter's source with the strength as value; an adapter with no strength
contributes none, so there are as many variables as adapters with a strength. -/
theorem C11_puller_env_vars (deps : PullerDeps) (wObj : Workspace)
    (volumeMounts : List VolumeMount) (capVolumeMounts : Nat) :
    (GeneratePullerContainers deps wObj volumeMounts capVolumeMounts).2.1
      = wObj.Inference.Adapters.filterMap (fun a =>
          a.Strength.map (fun s => ({ Name := a.Source.Name, Value := s } : EnvVar))) ∧
    (GeneratePullerContainers deps wObj volumeMounts capVolumeMounts).2.1.length
      = (wObj.Inference.Adapters.filter (fun a => a.Strength.isSome)).length ∧
    (∀ e ∈ (GeneratePullerContainers deps wObj volumeMounts capVolumeMounts).2.1,
      ∃ a ∈ wObj.Inference.Adapters, ∃ s, a.Strength = some s ∧
        e = { Name := a.Source.Name, Value := s }) ∧
    ((∀ a ∈ wObj.Inference.Adapters, a.Strength = none) →
      (GeneratePullerContainers deps wObj volumeMounts capVolumeMounts).2.1 = []) := by
  have hfold : ∀ (adapters : List AdapterSpec) (st : PullerState),
      (adapters.foldl (pullerStep deps volumeMounts capVolumeMounts) st).envVars
        = st.envVars ++ adapters.filterMap (fun a =>
            a.Strength.map (fun s => ({ Name := a.Source.Name, Value := s } : EnvVar))) := by
    intro adapters
    induction adapters with
    | nil => intro st; simp
    | cons a rest ih =>
      intro st
      rw [List.foldl_cons, ih]
      cases hs : a.Strength with
      | none =>
        have hstep : (pullerStep deps volumeMounts capVolumeMounts st a).envVars = st.envVars := by
          simp only [pullerStep, hs]
        rw [hstep, List.filterMap_cons]
        simp [hs]
      | some s =>
        have hstep : (pullerStep deps volumeMounts capVolumeMounts st a).envVars
            = st.envVars ++ [{ Name := a.Source.Name, Value := s }] := by
          simp only [pullerStep, hs]
        rw [hstep, List.filterMap_cons]
        simp [hs]
  have hmain : (GeneratePullerContainers deps wObj volumeMounts capVolumeMounts).2.1
      = wObj.Inference.Adapters.filterMap (fun a =>
          a.Strength.map (fun s => ({ Name := a.Source.Name, Value := s } : EnvVar))) := by
    show (wObj.Inference.Adapters.foldl (pullerStep deps volumeMounts capVolumeMounts)
      {}).envVars = _
    rw [hfold]
    rfl
  have hlen : ∀ adapters : List AdapterSpec,
      (adapters.filterMap (fun a =>
          a.Strength.map (fun s => ({ Name := a.Source.Name, Value := s } : EnvVar)))).length
        = (adapters.filter (fun a => a.Strength.isSome)).length := by
    intro adapters
    induction adapters with
    | nil => rfl
    | cons a rest ih =>
      cases hs : a.Strength <;> simp [List.filterMap_cons, List.filter_cons, hs, ih]
  refine ⟨hmain, by rw [hmain, hlen], ?_, ?_⟩
  · intro e he
    rw [hmain, List.mem_filterMap] at he
    obtain ⟨a, ha, hae⟩ := he
    cases hs : a.Strength with
    | none => simp [hs] at hae
    | some s =>
      refine ⟨a, ha, s, hs, ?_⟩
      simp only [hs, Option.map_some', Option.some.injEq] at hae
      exact hae.symm
  · intro hnone
    rw [hmain, List.filterMap_eq_nil_iff]
    intro a ha
    simp [hnone a ha]


/-! ### Labels of the pod-template deployment -/

theorem lookup_setEntries_self (k v : String) (l : List (String × String)) :
    (GoMap.setEntries k v l).lookup k = some v := by
  induction l with
  | nil => simp [GoMap.setEntries, List.lookup]
  | cons kv rest ih =>
    obtain ⟨k1, v1⟩ := kv
    unfold GoMap.setEntries
    split_ifs with h
    · subst h
      simp [List.lookup]
    · have hb : (k == k1) = false := by simpa using fun e : k = k1 => h e.symm
      simp only [List.lookup, hb]
      exact ih

theorem lookup_setEntries_ne (k v k2 : String) (hne : k2 ≠ k) (l : List (String × String)) :
    (GoMap.setEntries k v l).lookup k2 = l.lookup k2 := by
  induction l with
  | nil =>
    have hb : (k2 == k) = false := by simpa using hne
    simp [GoMap.setEntries, List.lookup, hb]
  | cons kv rest ih =>
    obtain ⟨k1, v1⟩ := kv
    unfold GoMap.setEntries
    split_ifs with h
    · subst h
      have hb : (k2 == k1) = false := by simpa using hne
      simp [List.lookup, hb]
    · by_cases h2 : k2 = k1
      · subst h2
        simp [List.lookup]
      · have hb : (k2 == k1) = false := by simpa using h2
        simp only [List.lookup, hb]
        exact ih

theorem filter_setEntries (k v : String) (l : List (String × String)) :
    (GoMap.setEntries k v l).filter (fun kv => decide (kv.1 ≠ k))
      = l.filter (fun kv => decide (kv.1 ≠ k)) := by
  induction l with
  | nil => simp [GoMap.setEntries]
  | cons kv rest ih =>
    obtain ⟨k1, v1⟩ := kv
    unfold GoMap.setEntries
    split_ifs with h
    · simp [List.filter_cons, h]
    · simp only [List.filter_cons, ih]

theorem keys_setEntries (k v : String) (l : List (String × String)) :
    (GoMap.setEntries k v l).map Prod.fst
      = if k ∈ l.map Prod.fst then l.map Prod.fst else l.map Prod.fst ++ [k] := by
  induction l with
  | nil => simp [GoMap.setEntries]
  | cons kv rest ih =>
    obtain ⟨k1, v1⟩ := kv
    by_cases h : k1 = k
    · subst h
      simp [GoMap.setEntries]
    · have hk : k ≠ k1 := fun e => h e.symm
      simp only [GoMap.setEntries, if_neg h, List.map_cons, ih, List.mem_cons, hk, false_or]
      split_ifs <;> simp

/-- C20: when the workspace's replica count is set, so that a deployment is
returned, its selector is exactly the one entry identity label -> workspace
name; its template labels map the identity label to the workspace name, also
when the user template set that label to another value; every other label of
the user template is kept, with its value and in order, and no other label is
added; hence every selector entry is satisfied by the template labels. -/
theorem C20_template_labels (api : kaitov1beta1) (w : Workspace)
    (tolerations : Option (List Toleration)) (count : Int)
    (hcount : w.Resource.Count = some count) :
    ∃ d labels,
      GenerateDeploymentManifestWithPodTemplate api w tolerations = some d ∧
      d.Spec.Selector = some { MatchLabels := some ⟨[(api.LabelWorkspaceName, w.Name)]⟩ } ∧
      d.Spec.Template.ObjectMeta.Labels = some labels ∧
      labels.get? api.LabelWorkspaceName = some w.Name ∧
      (∀ k, k ≠ api.LabelWorkspaceName →
        labels.get? k = (GoMap.range w.Inference.Template.ObjectMeta.Labels).lookup k) ∧
      labels.entries.filter (fun kv => decide (kv.1 ≠ api.LabelWorkspaceName))
        = (GoMap.range w.Inference.Template.ObjectMeta.Labels).filter
            (fun kv => decide (kv.1 ≠ api.LabelWorkspaceName)) ∧
      (((GoMap.range w.Inference.Template.ObjectMeta.Labels).map Prod.fst).Nodup → labels.WF) ∧
      (∀ k v, (k, v) ∈ [(api.LabelWorkspaceName, w.Name)] → labels.get? k = some v) := by
  simp only [GenerateDeploymentManifestWithPodTemplate, hcount, PodTemplateSpec.DeepCopy]
  refine ⟨_, _, rfl, rfl, rfl, ?_, ?_, ?_, ?_, ?_⟩
  · exact lookup_setEntries_self _ _ _
  · intro k hk
    cases hl : w.Inference.Template.ObjectMeta.Labels with
    | none =>
      simp only [GoMap.get?, GoMap.set, GoMap.make, GoMap.range]
      exact lookup_setEntries_ne _ _ _ hk _
    | some m =>
      simp only [GoMap.get?, GoMap.set, GoMap.range]
      exact lookup_setEntries_ne _ _ _ hk _
  · cases hl : w.Inference.Template.ObjectMeta.Labels with
    | none =>
      simp only [GoMap.set, GoMap.make, GoMap.range]
      exact filter_setEntries _ _ _
    | some m =>
      simp only [GoMap.set, GoMap.range]
      exact filter_setEntries _ _ _
  · intro hnd
    cases hl : w.Inference.Template.ObjectMeta.Labels with
    | none => simp [GoMap.WF, GoMap.set, GoMap.make, GoMap.setEntries]
    | some m =>
      rw [hl] at hnd
      simp only [GoMap.WF, GoMap.set, GoMap.range, keys_setEntries] at hnd ⊢
      split_ifs with hmem
      · exact hnd
      · exact List.Nodup.append hnd (List.nodup_singleton _) (by simpa using hmem)
  · intro k v hkv
    simp only [List.mem_singleton, Prod.mk.injEq] at hkv
    obtain ⟨rfl, rfl⟩ := hkv
    exact lookup_setEntries_self _ _ _

/-- C20 witness: the user template of the relabelled workspace gpu sets the
identity label to other and the label team to ml; the deployment's template
labels carry the identity label with value gpu and keep team -> ml. -/
theorem C20_template_labels_witness :
    ∃ d, GenerateDeploymentManifestWithPodTemplate demoApi relabelledWorkspace none = some d ∧
      d.Spec.Selector = some { MatchLabels := some ⟨[("kaito.sh/workspace", "gpu")]⟩ } ∧
      d.Spec.Template.ObjectMeta.Labels
        = some ⟨[("kaito.sh/workspace", "gpu"), ("team", "ml")]⟩ := by
  obtain ⟨d, labels, hd, hsel, hlab, -⟩ :=
    C20_template_labels demoApi relabelledWorkspace none 1 rfl
  refine ⟨d, hd, hsel, ?_⟩
  have hd2 : GenerateDeploymentManifestWithPodTemplate demoApi relabelledWorkspace none
      = some d := hd
  simp only [GenerateDeploymentManifestWithPodTemplate, relabelledWorkspace, gpuWorkspace,
    Option.some.injEq] at hd2
  rw [← hd2]
  decide

/-! ### The workspace is left unchanged -/

theorem set_concat_length {α : Type} (l : List α) (a b : α) :
    (l ++ [a]).set l.length b = l ++ [b] := by
  induction l with
  | nil => rfl
  | cons x xs ih => simp [List.set, ih]

theorem getD_concat_length {α : Type} (l : List α) (a d : α) :
    ((l ++ [a])[l.length]?).getD d = a := by
  simp

theorem deepCopyAt_eq (mem : Memory) (p : Nat) :
    PodTemplateSpec.DeepCopyAt mem p =
      ({ templates := mem.templates ++
            [{ mem.template p with
               Labels := (mem.template p).Labels.map (fun _ => mem.maps.length)
               Tolerations := (mem.template p).Tolerations.map (fun s =>
                 { array := mem.arrays.length
                   len := ((mem.array s.array).take s.len).length
                   cap := ((mem.array s.array).take s.len).length }) }]
         maps := mem.maps ++ (match (mem.template p).Labels with
            | none => []
            | some a => [mem.map a])
         arrays := mem.arrays ++ (match (mem.template p).Tolerations with
            | none => []
            | some s => [(mem.array s.array).take s.len]) },
       mem.templates.length) := by
  unfold PodTemplateSpec.DeepCopyAt
  cases hL : (mem.template p).Labels <;> cases hT : (mem.template p).Tolerations <;>
    simp [Memory.newMap, Memory.newArray, Memory.newTemplate, Memory.array, hL, hT]


theorem append_templates (mem : Memory) (s : SliceHeader) (elems : List Toleration) :
    (mem.append s elems).1.templates = mem.templates := by
  unfold Memory.append; split_ifs <;> rfl

theorem append_maps (mem : Memory) (s : SliceHeader) (elems : List Toleration) :
    (mem.append s elems).1.maps = mem.maps := by
  unfold Memory.append; split_ifs <;> rfl

theorem append_arrays (mem : Memory) (s : SliceHeader) (elems : List Toleration) :
    (mem.append s elems).1.arrays
      = if s.len + elems.length ≤ s.cap then
          mem.arrays.set s.array ((mem.array s.array).take s.len ++ elems ++
            (mem.array s.array).drop (s.len + elems.length))
        else mem.arrays ++ [(mem.array s.array).take s.len ++ elems] := by
  unfold Memory.append; split_ifs <;> rfl

theorem genAt_frame (api : kaitov1beta1) (mem : Memory) (w : WorkspaceRef)
    (tolerations : Option SliceHeader) :
    (∀ p, p < mem.templates.length →
      (GenerateDeploymentManifestWithPodTemplateAt api mem w tolerations).1.templates[p]?
        = mem.templates[p]?) ∧
    (∀ a, a < mem.maps.length →
      (GenerateDeploymentManifestWithPodTemplateAt api mem w tolerations).1.maps[a]?
        = mem.maps[a]?) ∧
    (∀ a, a < mem.arrays.length →
      (GenerateDeploymentManifestWithPodTemplateAt api mem w tolerations).1.arrays[a]?
        = mem.arrays[a]?) := by
  unfold GenerateDeploymentManifestWithPodTemplateAt
  rw [deepCopyAt_eq]
  cases hL : (mem.template w.Template).Labels <;>
    cases hT : (mem.template w.Template).Tolerations <;>
    cases hC : w.Resource.Count <;>
    simp only [Memory.template, Memory.newMap, Memory.setTemplate, Memory.mapAssign, Memory.map,
      append_templates, append_maps, append_arrays, set_concat_length, hL, hT,
      List.getElem?_concat_length, Option.getD_some, Option.map_none', Option.map_some',
      List.append_nil, List.length_append, List.length_singleton] <;>
    refine ⟨fun p hp => ?_, fun a ha => ?_, fun a ha => ?_⟩ <;>
    first
      | trivial
      | rfl
      | exact List.getElem?_append_left hp
      | exact List.getElem?_append_left ha
      | (split_ifs
         · exact List.getElem?_append_left ha
         · rw [List.append_assoc]; exact List.getElem?_append_left ha)


theorem readSlice_append_left (mem : Memory) (extra : List (List Toleration))
    (s : Option SliceHeader) (hs : ∀ h, s = some h → h.array < mem.arrays.length)
    (ts : List TemplateCell) (ms : List GoMap) :
    Memory.readSlice { templates := ts, maps := ms, arrays := mem.arrays ++ extra } s
      = mem.readSlice s := by
  cases s with
  | none => rfl
  | some h =>
    simp only [Memory.readSlice, Memory.array]
    rw [List.getElem?_append_left (hs h rfl)]

theorem template_mk_concat (ts : List TemplateCell) (c : TemplateCell) (ms : List GoMap)
    (as : List (List Toleration)) :
    Memory.template { templates := ts ++ [c], maps := ms, arrays := as } ts.length = c := by
  simp [Memory.template]

theorem map_mk_concat (ts : List TemplateCell) (m : GoMap) (ms : List GoMap)
    (as : List (List Toleration)) :
    Memory.map { templates := ts, maps := ms ++ [m], arrays := as } ms.length = m := by
  simp [Memory.map]

theorem array_mk_concat (ts : List TemplateCell) (ms : List GoMap)
    (as : List (List Toleration)) (x : List Toleration) :
    Memory.array { templates := ts, maps := ms, arrays := as ++ [x] } as.length = x := by
  simp [Memory.array]

theorem readSlice_same_arrays (mem : Memory) (ts : List TemplateCell) (ms : List GoMap)
    (s : Option SliceHeader) :
    Memory.readSlice { templates := ts, maps := ms, arrays := mem.arrays } s = mem.readSlice s := by
  cases s <;> rfl

theorem readSlice_append_full (ts : List TemplateCell) (ms : List GoMap)
    (as : List (List Toleration)) (x elems : List Toleration) :
    Memory.readSlice
        ((Memory.mk ts ms (as ++ [x])).append
          { array := as.length, len := x.length, cap := x.length } elems).1
        (some ((Memory.mk ts ms (as ++ [x])).append
            { array := as.length, len := x.length, cap := x.length } elems).2)
      = some (x ++ elems) := by
  unfold Memory.append
  split_ifs with h
  · have he : elems = [] := by
      have : elems.length = 0 := by dsimp only at h; omega
      exact List.length_eq_zero.1 this
    subst he
    simp [Memory.readSlice, array_mk_concat, set_concat_length, Memory.array]
  · simp only [Memory.readSlice, array_mk_concat, List.take_length]

theorem readSlice_none (mem : Memory) : mem.readSlice none = none := rfl

theorem readSlice_some (mem : Memory) (s : SliceHeader) :
    mem.readSlice (some s) = some ((mem.array s.array).take s.len) := rfl

theorem genAt_refines (api : kaitov1beta1) (mem : Memory) (w : WorkspaceRef)
    (tolerations : Option SliceHeader)
    (htol : ∀ h, tolerations = some h → h.array < mem.arrays.length) :
    (GenerateDeploymentManifestWithPodTemplateAt api mem w tolerations).2.map
        (GenerateDeploymentManifestWithPodTemplateAt api mem w tolerations).1.readDeployment
      = GenerateDeploymentManifestWithPodTemplate api (mem.readWorkspace w)
          (mem.readSlice tolerations) := by
  unfold GenerateDeploymentManifestWithPodTemplateAt GenerateDeploymentManifestWithPodTemplate
  rw [deepCopyAt_eq]
  generalize hcell : mem.template w.Template = cell
  have hrs := fun ts ms extra => readSlice_append_left mem extra tolerations htol ts ms
  cases hL : cell.Labels <;>
    cases hT : cell.Tolerations <;>
    cases hC : w.Resource.Count <;>
    simp only [template_mk_concat, map_mk_concat, array_mk_concat,
      Memory.newMap, Memory.setTemplate, Memory.mapAssign,
      append_templates, append_maps, set_concat_length, hL, hT, hC, hcell,
      Option.map_none', Option.map_some',
      List.append_nil, List.length_append, List.length_singleton,
      Memory.readWorkspace, Memory.readTemplate, Memory.readDeployment,
      PodTemplateSpec.DeepCopy, NewControllerRef, Workspace.Name, Workspace.GetUID,
      Workspace.Namespace, readSlice_same_arrays, hrs, readSlice_append_full]
  all_goals simp only [readSlice_none, readSlice_some]


/-- C12: GenerateDeploymentManifestWithPodTemplate leaves the workspace as it
was.  Over a memory in which the workspace's template, its label map and its
toleration array are allocated, the workspace read after the call is the
workspace read before it; in particular its template has the same labels,
affinity and tolerations.  Every struct, map object and array that existed
before the call is unchanged: the function writes only to what DeepCopy and
it allocated.  The returned deployment is the one the function computes on
values, so the identity label, the synthesized affinity and the appended
tolerations are found in the deployment's copy of the template only. -/
theorem C12_workspace_read_only (api : kaitov1beta1) (mem : Memory) (w : WorkspaceRef)
    (tolerations : Option SliceHeader)
    (hw : w.Template < mem.templates.length)
    (hlabels : ∀ a, (mem.template w.Template).Labels = some a → a < mem.maps.length)
    (htols : ∀ s, (mem.template w.Template).Tolerations = some s → s.array < mem.arrays.length)
    (hsupplied : ∀ s, tolerations = some s → s.array < mem.arrays.length) :
    (GenerateDeploymentManifestWithPodTemplateAt api mem w tolerations).1.readWorkspace w
      = mem.readWorkspace w ∧
    ((GenerateDeploymentManifestWithPodTemplateAt api mem w
        tolerations).1.readWorkspace w).Inference.Template.ObjectMeta.Labels
      = (mem.readWorkspace w).Inference.Template.ObjectMeta.Labels ∧
    ((GenerateDeploymentManifestWithPodTemplateAt api mem w
        tolerations).1.readWorkspace w).Inference.Template.Spec.Affinity
      = (mem.readWorkspace w).Inference.Template.Spec.Affinity ∧
    ((GenerateDeploymentManifestWithPodTemplateAt api mem w
        tolerations).1.readWorkspace w).Inference.Template.Spec.Tolerations
      = (mem.readWorkspace w).Inference.Template.Spec.Tolerations ∧
    (∀ p, p < mem.templates.length →
      (GenerateDeploymentManifestWithPodTemplateAt api mem w tolerations).1.templates[p]?
        = mem.templates[p]?) ∧
    (∀ a, a < mem.maps.length →
      (GenerateDeploymentManifestWithPodTemplateAt api mem w tolerations).1.maps[a]?
        = mem.maps[a]?) ∧
    (∀ a, a < mem.arrays.length →
      (GenerateDeploymentManifestWithPodTemplateAt api mem w tolerations).1.arrays[a]?
        = mem.arrays[a]?) ∧
    (GenerateDeploymentManifestWithPodTemplateAt api mem w tolerations).2.map
        (GenerateDeploymentManifestWithPodTemplateAt api mem w tolerations).1.readDeployment
      = GenerateDeploymentManifestWithPodTemplate api (mem.readWorkspace w)
          (mem.readSlice tolerations) := by
  obtain ⟨ht, hm, ha⟩ := genAt_frame api mem w tolerations
  have hcell : (GenerateDeploymentManifestWithPodTemplateAt api mem w tolerations).1.template
      w.Template = mem.template w.Template := by
    simp only [Memory.template, ht _ hw]
  have hread : (GenerateDeploymentManifestWithPodTemplateAt api mem w tolerations).1.readWorkspace w
      = mem.readWorkspace w := by
    simp only [Memory.readWorkspace, hcell, Memory.readTemplate]
    have h1 : (mem.template w.Template).Labels.map
        (GenerateDeploymentManifestWithPodTemplateAt api mem w tolerations).1.map
        = (mem.template w.Template).Labels.map mem.map := by
      cases hl : (mem.template w.Template).Labels with
      | none => rfl
      | some a => simp only [Option.map_some', Memory.map, hm _ (hlabels a hl)]
    have h2 : (GenerateDeploymentManifestWithPodTemplateAt api mem w tolerations).1.readSlice
        (mem.template w.Template).Tolerations
        = mem.readSlice (mem.template w.Template).Tolerations := by
      cases hs : (mem.template w.Template).Tolerations with
      | none => rfl
      | some s => simp only [Memory.readSlice, Memory.array, ha _ (htols s hs)]
    rw [h1, h2]
  refine ⟨hread, ?_, ?_, ?_, ht, hm, ha, genAt_refines api mem w tolerations hsupplied⟩ <;>
    rw [hread]

/-- C12 witness: in the sample memory the template of workspace gpu has its
toleration in an array with spare capacity; after the call the workspace still
reads as gpu, and the deployment's tolerations are a new array of two. -/
theorem C12_workspace_read_only_witness :
    (GenerateDeploymentManifestWithPodTemplateAt demoApi gpuMemory gpuWorkspaceRef
        (some { array := 1, len := 1, cap := 1 })).1.readWorkspace gpuWorkspaceRef
      = gpuWorkspace ∧
    ((GenerateDeploymentManifestWithPodTemplateAt demoApi gpuMemory gpuWorkspaceRef
        (some { array := 1, len := 1, cap := 1 })).2.map
      (fun d => d.Template.Tolerations)) = some (some { array := 3, len := 2, cap := 2 }) :=
  ⟨(C12_workspace_read_only demoApi gpuMemory gpuWorkspaceRef
      (some { array := 1, len := 1, cap := 1 }) (by decide)
      (by intro a h; have h2 : some 0 = some a := h; cases h2; decide)
      (by intro s h
          have h2 : some ({ array := 0, len := 1, cap := 4 } : SliceHeader) = some s := h
          cases h2; decide)
      (by intro s h; cases h; decide)).1.trans (by decide),
   by decide⟩

/-! ### Readiness poller -/

theorem awaitLoop_decides (gateway : Nat → Except GatewayError Object) (r : Option CheckError) :
    ∀ (j n i : Nat), j < n → (∀ k, k < j → pollOnce (gateway (i + k)) = none) →
      pollOnce (gateway (i + j)) = some r → awaitLoop gateway n i = r := by
  intro j
  induction j with
  | zero =>
    intro n i hn _ hr
    obtain ⟨m, rfl⟩ : ∃ m, n = m + 1 := ⟨n - 1, by omega⟩
    simp only [Nat.add_zero] at hr
    simp only [awaitLoop, hr]
  | succ j ih =>
    intro n i hn hwait hr
    obtain ⟨m, rfl⟩ : ∃ m, n = m + 1 := ⟨n - 1, by omega⟩
    have h0 : pollOnce (gateway i) = none := by simpa using hwait 0 (Nat.succ_pos j)
    simp only [awaitLoop, h0]
    apply ih m (i + 1) (by omega)
    · intro k hk
      have := hwait (k + 1) (by omega)
      rwa [show i + (k + 1) = i + 1 + k by omega] at this
    · rwa [show i + (j + 1) = i + 1 + j by omega] at hr

theorem awaitLoop_deadline (gateway : Nat → Except GatewayError Object) :
    ∀ (n i : Nat), (∀ k, k < n → pollOnce (gateway (i + k)) = none) →
      awaitLoop gateway n i = some CheckError.DeadlineExceeded := by
  intro n
  induction n with
  | zero => intro i _; rfl
  | succ n ih =>
    intro i hwait
    have h0 : pollOnce (gateway i) = none := by simpa using hwait 0 (Nat.succ_pos n)
    simp only [awaitLoop, h0]
    apply ih (i + 1)
    intro k hk
    have := hwait (k + 1) (by omega)
    rwa [show i + (k + 1) = i + 1 + k by omega] at this

theorem awaitLoop_ready_or_pending (gateway : Nat → Except GatewayError Object) (polls : Nat)
    (h : ∀ i, i < polls → pollOnce (gateway i) = some none ∨ pollOnce (gateway i) = none) :
    (awaitLoop gateway polls 0 = none ↔ ∃ i, i < polls ∧ pollOnce (gateway i) = some none) ∧
    ((¬ ∃ i, i < polls ∧ pollOnce (gateway i) = some none) →
      awaitLoop gateway polls 0 = some CheckError.DeadlineExceeded) := by
  have hdead : (¬ ∃ i, i < polls ∧ pollOnce (gateway i) = some none) →
      awaitLoop gateway polls 0 = some CheckError.DeadlineExceeded := by
    intro hno
    apply awaitLoop_deadline
    intro k hk
    rw [Nat.zero_add]
    rcases h k hk with hr | hp
    · exact absurd ⟨k, hk, hr⟩ hno
    · exact hp
  refine ⟨⟨?_, ?_⟩, hdead⟩
  · intro hnone
    by_contra hno
    rw [hdead hno] at hnone
    exact Option.noConfusion hnone
  · intro hex
    classical
    have hfind := Nat.find_spec hex
    have hmin := fun k (hk : k < Nat.find hex) => Nat.find_min hex hk
    apply awaitLoop_decides gateway none (Nat.find hex) polls 0 hfind.1
    · intro k hk
      rw [Nat.zero_add]
      rcases h k (lt_trans hk hfind.1) with hr | hp
      · exact absurd ⟨lt_trans hk hfind.1, hr⟩ (hmin k hk)
      · exact hp
    · rw [Nat.zero_add]
      exact hfind.2

theorem checkResourceStatus_supported (obj : Object) (gateway : Nat → Except GatewayError Object)
    (polls : Nat) (hkind : readinessStatus obj ≠ ReadinessStatus.Unsupported) :
    CheckResourceStatus obj gateway polls = awaitLoop gateway polls 0 := by
  unfold CheckResourceStatus
  cases hs : readinessStatus obj with
  | Unsupported => exact absurd hs hkind
  | Workload => rfl
  | BatchJob => rfl

theorem find?_isStuck_eq_none (conditions : List Condition)
    (h : ∀ c ∈ conditions, ¬ (c.type = "Progressing" ∧ c.Status = "False")) :
    conditions.find? Condition.isStuck = none := by
  rw [List.find?_eq_none]
  intro c hc
  have := h c hc
  simpa [Condition.isStuck] using this

theorem pollOnce_workload (o : Object) (desiredReplicas : Option Int) (readyReplicas : Int)
    (h : WorkloadWith o desiredReplicas readyReplicas) :
    pollOnce (Except.ok o)
      = if readyReplicas ≥ desiredReplicas.getD 1 then some none else none := by
  obtain ⟨name, conditions, hs, hc⟩ := h
  simp only [pollOnce, hs, evaluate, find?_isStuck_eq_none conditions hc]

theorem pollOnce_job (o : Object) (active succeeded failed : Int) (ready : Option Int)
    (h : JobWith o active succeeded failed ready) :
    pollOnce (Except.ok o)
      = if failed > 0 then
          some (some (CheckError.Failed
            ("job " ++ (match readinessStatus o with
              | ReadinessStatus.BatchJob name _ _ _ _ => name
              | _ => "") ++ " has failed " ++ toString failed ++ " pods")))
        else if succeeded > 0 ∨ ready.getD 0 > 0 then some none
        else none := by
  obtain ⟨name, hs⟩ := h
  simp only [pollOnce, hs, evaluate]

/-- C13: for a Deployment or StatefulSet that every poll before the deadline
fetches with no Progressing condition of status False, CheckResourceStatus
returns nil exactly when at some poll before the deadline readyReplicas >=
desiredReplicas, desired being 1 when unset; when that holds at no poll it
returns the deadline-exceeded error, not a failure. -/
theorem C13_workload_ready_or_deadline (obj : Object)
    (gateway : Nat → Except GatewayError Object) (polls : Nat)
    (hkind : readinessStatus obj ≠ ReadinessStatus.Unsupported)
    (hpoll : ∀ i, i < polls → ∃ o desired ready,
      gateway i = Except.ok o ∧ WorkloadWith o desired ready) :
    (CheckResourceStatus obj gateway polls = none ↔
      ∃ i, i < polls ∧ ∃ o desired ready,
        gateway i = Except.ok o ∧ WorkloadWith o desired ready ∧ ready ≥ desired.getD 1) ∧
    ((¬ ∃ i, i < polls ∧ ∃ o desired ready,
        gateway i = Except.ok o ∧ WorkloadWith o desired ready ∧ ready ≥ desired.getD 1) →
      CheckResourceStatus obj gateway polls = some CheckError.DeadlineExceeded) := by
  rw [checkResourceStatus_supported obj gateway polls hkind]
  have hcase : ∀ i, i < polls →
      pollOnce (gateway i) = some none ∨ pollOnce (gateway i) = none := by
    intro i hi
    obtain ⟨o, desired, ready, ho, hw⟩ := hpoll i hi
    rw [ho, pollOnce_workload o desired ready hw]
    split_ifs
    · exact Or.inl rfl
    · exact Or.inr rfl
  have hiff : (∃ i, i < polls ∧ pollOnce (gateway i) = some none) ↔
      ∃ i, i < polls ∧ ∃ o desired ready,
        gateway i = Except.ok o ∧ WorkloadWith o desired ready ∧ ready ≥ desired.getD 1 := by
    constructor
    · rintro ⟨i, hi, hr⟩
      obtain ⟨o, desired, ready, ho, hw⟩ := hpoll i hi
      refine ⟨i, hi, o, desired, ready, ho, hw, ?_⟩
      rw [ho, pollOnce_workload o desired ready hw] at hr
      by_contra hlt
      rw [if_neg hlt] at hr
      exact Option.noConfusion hr
    · rintro ⟨i, hi, o, desired, ready, ho, hw, hge⟩
      refine ⟨i, hi, ?_⟩
      rw [ho, pollOnce_workload o desired ready hw, if_pos hge]
  obtain ⟨h1, h2⟩ := awaitLoop_ready_or_pending gateway polls hcase
  exact ⟨h1.trans hiff, fun hno => h2 (fun hex => hno (hiff.1 hex))⟩

/-- C13 witness: a deployment with desired 3 and ready 3 gives nil; a
replicated pod set with desired 1 and ready 0 gives the deadline-exceeded
error when the timeout leaves room for one poll only. -/
theorem C13_workload_ready_or_deadline_witness :
    CheckResourceStatus (Object.Deployment readyDeployment)
        (fun _ => Except.ok (Object.Deployment readyDeployment)) 2 = none ∧
    CheckResourceStatus (Object.StatefulSet waitingStatefulSet)
        (fun _ => Except.ok (Object.StatefulSet waitingStatefulSet)) 1
      = some CheckError.DeadlineExceeded := by
  constructor
  · refine (C13_workload_ready_or_deadline (Object.Deployment readyDeployment)
      (fun _ => Except.ok (Object.Deployment readyDeployment)) 2 (by decide)
      (fun i _ => ⟨_, some 3, 3, rfl, "", [], rfl, by simp⟩)).1.2 ?_
    exact ⟨0, by decide, _, some 3, 3, rfl, ⟨"", [], rfl, by simp⟩, by decide⟩
  · refine (C13_workload_ready_or_deadline (Object.StatefulSet waitingStatefulSet)
      (fun _ => Except.ok (Object.StatefulSet waitingStatefulSet)) 1 (by decide)
      (fun i _ => ⟨_, some 1, 0, rfl, "", [], rfl, by simp⟩)).2 ?_
    rintro ⟨i, -, o, desired, ready, ho, ⟨name, conditions, hs, -⟩, hge⟩
    have ho2 : Object.StatefulSet waitingStatefulSet = o := by
      simpa using ho
    subst ho2
    have hs2 : ReadinessStatus.Workload "" (some 1) 0 []
        = ReadinessStatus.Workload name desired ready conditions := hs
    simp only [ReadinessStatus.Workload.injEq] at hs2
    obtain ⟨-, rfl, rfl, -⟩ := hs2
    exact absurd hge (by decide)

/-- C14: when a poll before the deadline, the wait not having ended earlier,
fetches a Deployment or StatefulSet whose conditions hold a Progressing
condition of status False, `c` being the first one scanned,
CheckResourceStatus returns a failure whose message contains the message of
`c`, whatever the desired and ready replica counts; it returns neither nil nor
the deadline-exceeded error. -/
theorem C14_stuck_rollout_fails (obj : Object) (gateway : Nat → Except GatewayError Object)
    (polls i : Nat) (o : Object) (name : String) (desired : Option Int) (ready : Int)
    (conditions : List Condition) (c : Condition)
    (hkind : readinessStatus obj ≠ ReadinessStatus.Unsupported)
    (hi : i < polls)
    (hwait : ∀ k, k < i → pollOnce (gateway k) = none)
    (hfetch : gateway i = Except.ok o)
    (hstatus : readinessStatus o = ReadinessStatus.Workload name desired ready conditions)
    (hstuck : conditions.find? Condition.isStuck = some c) :
    c ∈ conditions ∧ c.type = "Progressing" ∧ c.Status = "False" ∧
    (∃ message, CheckResourceStatus obj gateway polls = some (CheckError.Failed message) ∧
      Mentions message c.Message ∧
      Mentions (CheckError.Failed message).Error c.Message) ∧
    CheckResourceStatus obj gateway polls ≠ none ∧
    CheckResourceStatus obj gateway polls ≠ some CheckError.DeadlineExceeded := by
  have hres : CheckResourceStatus obj gateway polls
      = some (CheckError.Failed (name ++ " is not progressing: " ++ c.Message)) := by
    rw [checkResourceStatus_supported obj gateway polls hkind]
    apply awaitLoop_decides gateway _ i polls 0 hi
    · intro k hk
      rw [Nat.zero_add]
      exact hwait k hk
    · rw [Nat.zero_add, hfetch]
      simp only [pollOnce, hstatus, evaluate, hstuck]
  have hc := List.find?_some hstuck
  simp only [Condition.isStuck, Bool.and_eq_true, beq_iff_eq] at hc
  refine ⟨List.mem_of_find?_eq_some hstuck, hc.1, hc.2,
    ⟨_, hres, ⟨name ++ " is not progressing: ", "", ?_⟩,
      ⟨name ++ " is not progressing: ", "", ?_⟩⟩, ?_, ?_⟩
  · rw [String.append_empty]
  · simp only [CheckError.Error, String.append_empty]
  · rw [hres]
    exact fun h => Option.noConfusion h
  · rw [hres]
    intro h
    cases h

/-- C14 witness: the deployment of the test, ready 3 of 3 with a Progressing
condition of status False, fails with a message that contains its condition's
message. -/
theorem C14_stuck_rollout_fails_witness :
    ∃ message,
      CheckResourceStatus (Object.Deployment stuckDeployment)
          (fun _ => Except.ok (Object.Deployment stuckDeployment)) 2
        = some (CheckError.Failed message) ∧
      Mentions message "Deployment exceeded its progress deadline" :=
  (C14_stuck_rollout_fails (Object.Deployment stuckDeployment)
      (fun _ => Except.ok (Object.Deployment stuckDeployment)) 2 0
      (Object.Deployment stuckDeployment) "" (some 3) 3
      [{ type := "Progressing", Status := "False", Reason := "ProcessDeadlineExceeded"
         Message := "Deployment exceeded its progress deadline" }]
      { type := "Progressing", Status := "False", Reason := "ProcessDeadlineExceeded"
        Message := "Deployment exceeded its progress deadline" }
      (by decide) (by decide) (fun k hk => absurd hk (Nat.not_lt_zero k)) rfl rfl
      rfl).2.2.2.1.imp fun _ h => ⟨h.1, h.2.1⟩

/-- C15: when a poll before the deadline, the wait not having ended earlier,
fetches a batch job with failed = n > 0, CheckResourceStatus returns a failure
whose message names the job and contains has failed n pods, n in decimal,
whatever the active, succeeded and ready counters; it does not return nil. -/
theorem C15_failed_job_fails (obj : Object) (gateway : Nat → Except GatewayError Object)
    (polls i : Nat) (o : Object) (name : String) (active succeeded failed : Int)
    (ready : Option Int)
    (hkind : readinessStatus obj ≠ ReadinessStatus.Unsupported)
    (hi : i < polls)
    (hwait : ∀ k, k < i → pollOnce (gateway k) = none)
    (hfetch : gateway i = Except.ok o)
    (hstatus : readinessStatus o = ReadinessStatus.BatchJob name active succeeded failed ready)
    (hfailed : failed > 0) :
    CheckResourceStatus obj gateway polls
      = some (CheckError.Failed
          ("job " ++ name ++ " has failed " ++ Nat.repr failed.toNat ++ " pods")) ∧
    (∃ message, CheckResourceStatus obj gateway polls = some (CheckError.Failed message) ∧
      Mentions (CheckError.Failed message).Error
        ("has failed " ++ Nat.repr failed.toNat ++ " pods") ∧
      Mentions (CheckError.Failed message).Error name) ∧
    CheckResourceStatus obj gateway polls ≠ none := by
  have hrepr : (toString failed : String) = Nat.repr failed.toNat := by
    cases failed with
    | ofNat m => rfl
    | negSucc m => exact absurd hfailed (by simp [Int.negSucc_lt_zero])
  have hres : CheckResourceStatus obj gateway polls
      = some (CheckError.Failed
          ("job " ++ name ++ " has failed " ++ Nat.repr failed.toNat ++ " pods")) := by
    rw [checkResourceStatus_supported obj gateway polls hkind]
    apply awaitLoop_decides gateway _ i polls 0 hi
    · intro k hk
      rw [Nat.zero_add]
      exact hwait k hk
    · rw [Nat.zero_add, hfetch]
      simp only [pollOnce, hstatus, evaluate, if_pos hfailed, hrepr]
  refine ⟨hres, ⟨_, hres, ⟨"job " ++ name ++ " ", "", ?_⟩, ⟨"job ",
    " has failed " ++ Nat.repr failed.toNat ++ " pods", ?_⟩⟩, ?_⟩
  · have hsp : (" has failed " : String) = " " ++ "has failed " := by decide
    simp only [CheckError.Error, String.append_empty]
    rw [hsp]
    simp only [String.append_assoc]
  · simp only [CheckError.Error, String.append_assoc]
  · rw [hres]
    exact fun h => Option.noConfusion h

/-- C15 witness: the job tune with one failed and one active pod fails with a
message that contains has failed 1 pods. -/
theorem C15_failed_job_fails_witness :
    CheckResourceStatus (Object.Job failedJob) (fun _ => Except.ok (Object.Job failedJob)) 2
      = some (CheckError.Failed "job tune has failed 1 pods") :=
  (C15_failed_job_fails (Object.Job failedJob) (fun _ => Except.ok (Object.Job failedJob)) 2 0
    (Object.Job failedJob) "tune" 1 0 1 none (by decide) (by decide)
    (fun k hk => absurd hk (Nat.not_lt_zero k)) rfl rfl (by decide)).1

/-- C16: for a batch job that every poll before the deadline fetches with
failed = 0, CheckResourceStatus returns nil exactly when at some poll before
the deadline succeeded > 0 or ready > 0, an unset ready counting as 0; when
that holds at no poll, as for a job that stays at active > 0 only, it returns
exactly the deadline-exceeded error. -/
theorem C16_job_success_or_deadline (obj : Object)
    (gateway : Nat → Except GatewayError Object) (polls : Nat)
    (hkind : readinessStatus obj ≠ ReadinessStatus.Unsupported)
    (hpoll : ∀ i, i < polls → ∃ o active succeeded ready,
      gateway i = Except.ok o ∧ JobWith o active succeeded 0 ready) :
    (CheckResourceStatus obj gateway polls = none ↔
      ∃ i, i < polls ∧ ∃ o active succeeded ready,
        gateway i = Except.ok o ∧ JobWith o active succeeded 0 ready ∧
        (succeeded > 0 ∨ ready.getD 0 > 0)) ∧
    ((¬ ∃ i, i < polls ∧ ∃ o active succeeded ready,
        gateway i = Except.ok o ∧ JobWith o active succeeded 0 ready ∧
        (succeeded > 0 ∨ ready.getD 0 > 0)) →
      CheckResourceStatus obj gateway polls = some CheckError.DeadlineExceeded) ∧
    ((∀ i, i < polls → ∃ o active,
        gateway i = Except.ok o ∧ active > 0 ∧
        (JobWith o active 0 0 none ∨ JobWith o active 0 0 (some 0))) →
      CheckResourceStatus obj gateway polls = some CheckError.DeadlineExceeded) := by
  rw [checkResourceStatus_supported obj gateway polls hkind]
  have hpo : ∀ o active succeeded ready, JobWith o active succeeded 0 ready →
      pollOnce (Except.ok o)
        = if succeeded > 0 ∨ ready.getD 0 > 0 then some none else none := by
    intro o active succeeded ready hj
    rw [pollOnce_job o active succeeded 0 ready hj]
    simp
  have hcase : ∀ i, i < polls →
      pollOnce (gateway i) = some none ∨ pollOnce (gateway i) = none := by
    intro i hi
    obtain ⟨o, active, succeeded, ready, ho, hj⟩ := hpoll i hi
    rw [ho, hpo o active succeeded ready hj]
    split_ifs
    · exact Or.inl rfl
    · exact Or.inr rfl
  have hiff : (∃ i, i < polls ∧ pollOnce (gateway i) = some none) ↔
      ∃ i, i < polls ∧ ∃ o active succeeded ready,
        gateway i = Except.ok o ∧ JobWith o active succeeded 0 ready ∧
        (succeeded > 0 ∨ ready.getD 0 > 0) := by
    constructor
    · rintro ⟨i, hi, hr⟩
      obtain ⟨o, active, succeeded, ready, ho, hj⟩ := hpoll i hi
      refine ⟨i, hi, o, active, succeeded, ready, ho, hj, ?_⟩
      rw [ho, hpo o active succeeded ready hj] at hr
      by_contra hno
      rw [if_neg hno] at hr
      exact Option.noConfusion hr
    · rintro ⟨i, hi, o, active, succeeded, ready, ho, hj, hs⟩
      refine ⟨i, hi, ?_⟩
      rw [ho, hpo o active succeeded ready hj, if_pos hs]
  obtain ⟨h1, h2⟩ := awaitLoop_ready_or_pending gateway polls hcase
  refine ⟨h1.trans hiff, fun hno => h2 (fun hex => hno (hiff.1 hex)), ?_⟩
  intro hactive
  apply h2
  rintro ⟨i, hi, hr⟩
  obtain ⟨o, active, ho, -, hj⟩ := hactive i hi
  rcases hj with hj | hj
  · rw [ho, hpo o active 0 none hj] at hr
    simp at hr
  · rw [ho, hpo o active 0 (some 0) hj] at hr
    simp at hr

/-- C16 witness: a job with one succeeded pod gives nil; a job with one active
pod only gives exactly the deadline-exceeded error. -/
theorem C16_job_success_or_deadline_witness :
    CheckResourceStatus (Object.Job succeededJob)
        (fun _ => Except.ok (Object.Job succeededJob)) 2 = none ∧
    CheckResourceStatus (Object.Job activeJob)
        (fun _ => Except.ok (Object.Job activeJob)) 2 = some CheckError.DeadlineExceeded := by
  constructor
  · refine (C16_job_success_or_deadline (Object.Job succeededJob)
      (fun _ => Except.ok (Object.Job succeededJob)) 2 (by decide)
      (fun i _ => ⟨_, 0, 1, none, rfl, "", rfl⟩)).1.2 ?_
    exact ⟨0, by decide, _, 0, 1, none, rfl, ⟨"", rfl⟩, Or.inl (by decide)⟩
  · exact (C16_job_success_or_deadline (Object.Job activeJob)
      (fun _ => Except.ok (Object.Job activeJob)) 2 (by decide)
      (fun i _ => ⟨_, 1, 0, none, rfl, "", rfl⟩)).2.2
      (fun i _ => ⟨_, 1, rfl, by decide, Or.inl ⟨"", rfl⟩⟩)

/-- C17: for a resource of a kind other than Deployment, StatefulSet and Job,
whatever the gateway answers and whatever the timeout, CheckResourceStatus
returns the error whose message is exactly unsupported resource type; it
returns neither nil nor the deadline-exceeded error. -/
theorem C17_unsupported_kind (kind : String) (gateway : Nat → Except GatewayError Object)
    (polls : Nat) :
    CheckResourceStatus (Object.Other kind) gateway polls = some CheckError.UnsupportedKind ∧
    (∃ err, CheckResourceStatus (Object.Other kind) gateway polls = some err ∧
      err.Error = "unsupported resource type") ∧
    CheckResourceStatus (Object.Other kind) gateway polls ≠ none ∧
    CheckResourceStatus (Object.Other kind) gateway polls
      ≠ some CheckError.DeadlineExceeded := by
  have hres : CheckResourceStatus (Object.Other kind) gateway polls
      = some CheckError.UnsupportedKind := rfl
  refine ⟨hres, ⟨_, hres, rfl⟩, ?_, ?_⟩
  · rw [hres]
    exact fun h => Option.noConfusion h
  · rw [hres]
    intro h
    cases h

/-! ### Configuration resolver -/

/-- C18: for a caller key with a non-empty name EnsureConfigOrCopyFromDefault
makes exactly one gateway call, the lookup of that name in the caller's
namespace, and leaves the state behind the gateway as it was.  When the
gateway reports the object found the call succeeds with it, nothing being
created; when the gateway reports NotFound the call fails with the message
user specified ConfigMap name not found in namespace ns; in neither case is
the system default looked up. -/
theorem C18_user_specified_config {σ : Type} (gw : ResourceGateway σ)
    (releaseNamespace : Except String String) (s : σ) (userProvided systemDefault : ObjectKey)
    (hname : userProvided.Name ≠ "") :
    (EnsureConfigOrCopyFromDefault gw releaseNamespace s userProvided systemDefault).calls
      = [GatewayCall.Get userProvided] ∧
    (EnsureConfigOrCopyFromDefault gw releaseNamespace s userProvided systemDefault).state = s ∧
    (∀ cm, gw.Get s userProvided = Except.ok cm →
      (EnsureConfigOrCopyFromDefault gw releaseNamespace s userProvided systemDefault).result
        = Except.ok cm) ∧
    (∀ name, gw.Get s userProvided = Except.error (GatewayError.NotFound name) →
      ∃ err,
        (EnsureConfigOrCopyFromDefault gw releaseNamespace s userProvided systemDefault).result
          = Except.error err ∧
        err.Error = "user specified ConfigMap " ++ userProvided.Name ++
          " not found in namespace " ++ userProvided.Namespace) := by
  unfold EnsureConfigOrCopyFromDefault
  rw [if_pos hname]
  refine ⟨?_, ?_, ?_, ?_⟩
  · cases hg : gw.Get s userProvided with
    | ok cm => rfl
    | error err => cases err <;> rfl
  · cases hg : gw.Get s userProvided with
    | ok cm => rfl
    | error err => cases err <;> rfl
  · intro cm hg
    rw [hg]
  · intro name hg
    rw [hg]
    exact ⟨_, rfl, rfl⟩

/-- C18 witness: in the sample store the user configuration
inference-config-template of namespace workspace-namespace is found and
returned, the store unchanged; the name missing-config is not found, although
the system default exists, and the call fails naming it and the namespace. -/
theorem C18_user_specified_config_witness :
    (EnsureConfigOrCopyFromDefault clusterGateway (Except.ok "release-namespace") demoStore
        { Namespace := "workspace-namespace", Name := "inference-config-template" }
        { Name := "inference-params-template" }).state = demoStore ∧
    ∃ err,
      (EnsureConfigOrCopyFromDefault clusterGateway (Except.ok "release-namespace") demoStore
          { Namespace := "workspace-namespace", Name := "missing-config" }
          { Name := "inference-params-template" }).result = Except.error err ∧
      err.Error
        = "user specified ConfigMap missing-config not found in namespace workspace-namespace" :=
  ⟨(C18_user_specified_config clusterGateway (Except.ok "release-namespace") demoStore
      { Namespace := "workspace-namespace", Name := "inference-config-template" }
      { Name := "inference-params-template" } (by decide)).2.1,
   (C18_user_specified_config clusterGateway (Except.ok "release-namespace") demoStore
      { Namespace := "workspace-namespace", Name := "missing-config" }
      { Name := "inference-params-template" } (by decide)).2.2.2 "missing-config" rfl⟩

theorem clusterGateway_get_ok (store : List ConfigMap) (key : ObjectKey) (cm : ConfigMap) :
    clusterGateway.Get store key = Except.ok cm ↔
      store.find? (fun c => c.hasKey key) = some cm := by
  simp only [clusterGateway]
  cases hf : store.find? (fun c => c.hasKey key) with
  | none => simp
  | some c => simp

theorem countKey_pos_iff_any (store : List ConfigMap) (key : ObjectKey) :
    0 < countKey store key ↔ store.any (fun cm => cm.hasKey key) = true := by
  simp only [countKey, List.length_pos, List.any_eq_true, ne_eq, List.filter_eq_nil_iff,
    not_forall, Classical.not_not, exists_prop]

/-- C19: for a caller key with an empty name and a system default that the
gateway finds in the release namespace, EnsureConfigOrCopyFromDefault looks the
default up there and then creates, through the gateway, an object named
systemDefault.name in the caller's namespace with the default's contents; it
succeeds both when the create succeeds and when the create reports
AlreadyExists.  Over a store of configuration objects with at most one object
of that identity, resolving the key and then resolving it again succeeds both
times, the second call changes nothing, and the store holds exactly one object
of that identity. -/
theorem C19_default_cloned_idempotent {σ : Type} (gw : ResourceGateway σ) (s : σ)
    (userProvided systemDefault : ObjectKey) (ns : String) (template : ConfigMap)
    (hname : userProvided.Name = "")
    (hget : gw.Get s { Namespace := ns, Name := systemDefault.Name } = Except.ok template) :
    (EnsureConfigOrCopyFromDefault gw (Except.ok ns) s userProvided systemDefault).calls
      = [GatewayCall.Get { Namespace := ns, Name := systemDefault.Name },
         GatewayCall.Create
          (cloneDefault template systemDefault.Name userProvided.Namespace)] ∧
    (EnsureConfigOrCopyFromDefault gw (Except.ok ns) s userProvided systemDefault).state
      = (gw.Create s
          (cloneDefault template systemDefault.Name userProvided.Namespace)).1 ∧
    ((gw.Create s
          (cloneDefault template systemDefault.Name userProvided.Namespace)).2 = none →
      (EnsureConfigOrCopyFromDefault gw (Except.ok ns) s userProvided systemDefault).result
        = Except.ok
          (cloneDefault template systemDefault.Name userProvided.Namespace)) ∧
    (∀ name, (gw.Create s
          (cloneDefault template systemDefault.Name userProvided.Namespace)).2 = some (GatewayError.AlreadyExists name) →
      (EnsureConfigOrCopyFromDefault gw (Except.ok ns) s userProvided systemDefault).result
        = Except.ok
          (cloneDefault template systemDefault.Name userProvided.Namespace)) ∧
    (∀ (store : List ConfigMap) (found : ConfigMap),
      clusterGateway.Get store { Namespace := ns, Name := systemDefault.Name }
        = Except.ok found →
      countKey store { Namespace := userProvided.Namespace, Name := systemDefault.Name } ≤ 1 →
      (EnsureConfigOrCopyFromDefault clusterGateway (Except.ok ns) store userProvided
          systemDefault).result
        = Except.ok
          (cloneDefault found systemDefault.Name userProvided.Namespace) ∧
      (EnsureConfigOrCopyFromDefault clusterGateway (Except.ok ns)
          (EnsureConfigOrCopyFromDefault clusterGateway (Except.ok ns) store userProvided
            systemDefault).state userProvided systemDefault).result
        = Except.ok
          (cloneDefault found systemDefault.Name userProvided.Namespace) ∧
      (EnsureConfigOrCopyFromDefault clusterGateway (Except.ok ns)
          (EnsureConfigOrCopyFromDefault clusterGateway (Except.ok ns) store userProvided
            systemDefault).state userProvided systemDefault).state
        = (EnsureConfigOrCopyFromDefault clusterGateway (Except.ok ns) store userProvided
            systemDefault).state ∧
      countKey
          (EnsureConfigOrCopyFromDefault clusterGateway (Except.ok ns)
            (EnsureConfigOrCopyFromDefault clusterGateway (Except.ok ns) store userProvided
              systemDefault).state userProvided systemDefault).state
          { Namespace := userProvided.Namespace, Name := systemDefault.Name } = 1) := by
  have hne : ¬ userProvided.Name ≠ "" := fun h => h hname
  have hgen : ∀ {τ : Type} (g : ResourceGateway τ) (t : τ) (found : ConfigMap),
      g.Get t { Namespace := ns, Name := systemDefault.Name } = Except.ok found →
      (EnsureConfigOrCopyFromDefault g (Except.ok ns) t userProvided systemDefault).calls
        = [GatewayCall.Get { Namespace := ns, Name := systemDefault.Name },
           GatewayCall.Create
            (cloneDefault found systemDefault.Name userProvided.Namespace)] ∧
      (EnsureConfigOrCopyFromDefault g (Except.ok ns) t userProvided systemDefault).state
        = (g.Create t
            (cloneDefault found systemDefault.Name userProvided.Namespace)).1 ∧
      ((g.Create t
            (cloneDefault found systemDefault.Name userProvided.Namespace)).2 = none →
        (EnsureConfigOrCopyFromDefault g (Except.ok ns) t userProvided systemDefault).result
          = Except.ok
            (cloneDefault found systemDefault.Name userProvided.Namespace)) ∧
      (∀ name, (g.Create t
            (cloneDefault found systemDefault.Name userProvided.Namespace)).2 = some (GatewayError.AlreadyExists name) →
        (EnsureConfigOrCopyFromDefault g (Except.ok ns) t userProvided systemDefault).result
          = Except.ok
            (cloneDefault found systemDefault.Name userProvided.Namespace)) := by
    intro τ g t found hg
    unfold EnsureConfigOrCopyFromDefault
    simp only [if_neg hne, hg]
    refine ⟨?_, ?_, ?_, ?_⟩
    · cases hc : (g.Create t
          (cloneDefault found systemDefault.Name userProvided.Namespace)).2 with
      | none => rfl
      | some err => cases err <;> rfl
    · cases hc : (g.Create t
          (cloneDefault found systemDefault.Name userProvided.Namespace)).2 with
      | none => rfl
      | some err => cases err <;> rfl
    · intro hc
      rw [hc]
    · intro name hc
      rw [hc]
  obtain ⟨h1, h2, h3, h4⟩ := hgen gw s template hget
  refine ⟨h1, h2, h3, h4, ?_⟩
  intro store found hfound hcount
  have hclone : ConfigMap.hasKey
      (cloneDefault found systemDefault.Name userProvided.Namespace)
      { Namespace := userProvided.Namespace, Name := systemDefault.Name } = true := by
    simp [ConfigMap.hasKey, cloneDefault]
  obtain ⟨-, hs1, hr1, hr1x⟩ := hgen clusterGateway store found hfound
  by_cases hany : store.any
      (fun cm => cm.hasKey { Namespace := userProvided.Namespace, Name := systemDefault.Name })
      = true
  · -- an object of that identity exists: the create reports AlreadyExists
    have hcreate : clusterGateway.Create store
        (cloneDefault found systemDefault.Name userProvided.Namespace)
        = (store, some (GatewayError.AlreadyExists systemDefault.Name)) := by
      exact if_pos hany
    rw [hcreate] at hs1 hr1x
    have hstate : (EnsureConfigOrCopyFromDefault clusterGateway (Except.ok ns) store
        userProvided systemDefault).state = store := hs1
    simp only [hstate]
    refine ⟨hr1x _ rfl, hr1x _ rfl, trivial, ?_⟩
    have hpos := (countKey_pos_iff_any store _).2 hany
    omega
  · -- no object of that identity: the create adds the clone
    have hcreate : clusterGateway.Create store
        (cloneDefault found systemDefault.Name userProvided.Namespace)
        = (store ++ [cloneDefault found systemDefault.Name userProvided.Namespace], none) := by
      exact if_neg hany
    rw [hcreate] at hs1 hr1
    have hstate : (EnsureConfigOrCopyFromDefault clusterGateway (Except.ok ns) store
        userProvided systemDefault).state
        = store ++ [cloneDefault found systemDefault.Name userProvided.Namespace] := hs1
    rw [hstate]
    have hfound2 : clusterGateway.Get
        (store ++ [cloneDefault found systemDefault.Name userProvided.Namespace])
        { Namespace := ns, Name := systemDefault.Name } = Except.ok found := by
      rw [clusterGateway_get_ok] at hfound ⊢
      rw [List.find?_append, hfound]
      rfl
    have hany2 : (store ++ [cloneDefault found systemDefault.Name userProvided.Namespace]).any
        (fun cm => cm.hasKey { Namespace := userProvided.Namespace, Name := systemDefault.Name })
        = true := by
      rw [List.any_append]
      simp [hclone]
    obtain ⟨-, hs2, -, hr2x⟩ := hgen clusterGateway _ found hfound2
    have hcreate2 : clusterGateway.Create
        (store ++ [cloneDefault found systemDefault.Name userProvided.Namespace])
        (cloneDefault found systemDefault.Name userProvided.Namespace)
        = (store ++ [cloneDefault found systemDefault.Name userProvided.Namespace], some (GatewayError.AlreadyExists systemDefault.Name)) := by
      exact if_pos hany2
    rw [hcreate2] at hs2 hr2x
    refine ⟨hr1 rfl, hr2x _ rfl, hs2, ?_⟩
    rw [hs2]
    have hzero : countKey store
        { Namespace := userProvided.Namespace, Name := systemDefault.Name } = 0 := by
      by_contra hnz
      exact hany ((countKey_pos_iff_any store _).1 (Nat.pos_of_ne_zero hnz))
    simp only [countKey, List.filter_append, List.length_append] at hzero ⊢
    rw [hzero]
    simp [hclone]

/-- C19 witness: in the sample store the system default
inference-params-template is found in release-namespace; resolving the empty
name for workspace-namespace twice leaves one object of that name there, the
one with the default's contents. -/
theorem C19_default_cloned_idempotent_witness :
    countKey
        (EnsureConfigOrCopyFromDefault clusterGateway (Except.ok "release-namespace")
          (EnsureConfigOrCopyFromDefault clusterGateway (Except.ok "release-namespace") demoStore
            { Namespace := "workspace-namespace" } { Name := "inference-params-template" }).state
          { Namespace := "workspace-namespace" } { Name := "inference-params-template" }).state
        { Namespace := "workspace-namespace", Name := "inference-params-template" } = 1 ∧
    (EnsureConfigOrCopyFromDefault clusterGateway (Except.ok "release-namespace") demoStore
        { Namespace := "workspace-namespace" } { Name := "inference-params-template" }).state
      = demoStore ++
        [{ ObjectMeta :=
            { Name := "inference-params-template", Namespace := "workspace-namespace" }
           Data := some ⟨[("inference_config.yaml", "max-model-len: 1024")]⟩ }] := by
  have h := C19_default_cloned_idempotent clusterGateway demoStore
    { Namespace := "workspace-namespace" } { Name := "inference-params-template" }
    "release-namespace"
    { ObjectMeta := { Name := "inference-params-template", Namespace := "release-namespace" }
      Data := some ⟨[("inference_config.yaml", "max-model-len: 1024")]⟩ } rfl rfl
  exact ⟨(h.2.2.2.2 demoStore _ rfl (by decide)).2.2.2, h.2.1⟩

/-! ### Draft mutators -/

/-- C21: SetStatefulSetPodSpec and SetDeploymentPodSpec, given a pod spec, and
AddStatefulSetVolumeClaimTemplates return the draft with a nil error, for any
draft.  The draft's metadata (name, namespace, annotations, owner references),
selector, pod-template labels and replica count are unchanged.  The two
pod-spec mutators set the pod template's spec to the supplied pod spec and
change nothing else: putting the old pod spec back gives the draft as it was.
AddStatefulSetVolumeClaimTemplates appends the claim after the existing
claims, which keep their order, and changes nothing else.  So a draft made by
GenerateStatefulSetManifest keeps its single owner reference and its matching
selector and template labels through these mutators. -/
theorem C21_mutators_preserve_draft (api : kaitov1beta1) (revisionNum : String) (replicas : Int)
    (podSpec : PodSpec) (claim : PersistentVolumeClaim) (ctx : WorkspaceGeneratorContext)
    (ss : StatefulSet) (d : Deployment) :
    (∃ ss2, SetStatefulSetPodSpec (some podSpec) ctx ss = some (ss2, none) ∧
      ss2.ObjectMeta = ss.ObjectMeta ∧
      ss2.Spec.Selector = ss.Spec.Selector ∧
      ss2.Spec.Template.ObjectMeta = ss.Spec.Template.ObjectMeta ∧
      ss2.Spec.Replicas = ss.Spec.Replicas ∧
      ss2.Spec.VolumeClaimTemplates = ss.Spec.VolumeClaimTemplates ∧
      ss2.Spec.Template.Spec = podSpec ∧
      { ss2 with Spec := { ss2.Spec with
          Template := { ss2.Spec.Template with Spec := ss.Spec.Template.Spec } } } = ss) ∧
    (∃ d2, SetDeploymentPodSpec (some podSpec) ctx d = some (d2, none) ∧
      d2.ObjectMeta = d.ObjectMeta ∧
      d2.Spec.Selector = d.Spec.Selector ∧
      d2.Spec.Template.ObjectMeta = d.Spec.Template.ObjectMeta ∧
      d2.Spec.Replicas = d.Spec.Replicas ∧
      d2.Spec.Strategy = d.Spec.Strategy ∧
      d2.Spec.Template.Spec = podSpec ∧
      { d2 with Spec := { d2.Spec with
          Template := { d2.Spec.Template with Spec := d.Spec.Template.Spec } } } = d) ∧
    (∃ ss3, AddStatefulSetVolumeClaimTemplates claim ctx ss = (ss3, none) ∧
      ss3.ObjectMeta = ss.ObjectMeta ∧
      ss3.Spec.Selector = ss.Spec.Selector ∧
      ss3.Spec.Template = ss.Spec.Template ∧
      ss3.Spec.Replicas = ss.Spec.Replicas ∧
      ss3.Spec.VolumeClaimTemplates = ss.Spec.VolumeClaimTemplates ++ [claim] ∧
      { ss3 with Spec := { ss3.Spec with
          VolumeClaimTemplates := ss.Spec.VolumeClaimTemplates } } = ss) ∧
    (∃ ss4,
      SetStatefulSetPodSpec (some podSpec) ctx
          (AddStatefulSetVolumeClaimTemplates claim ctx
            (GenerateStatefulSetManifest api revisionNum replicas ctx ss).1).1
        = some (ss4, none) ∧
      OwnedByWorkspace api ctx.Workspace ss4.ObjectMeta.OwnerReferences ∧
      ss4.ObjectMeta = (GenerateStatefulSetManifest api revisionNum replicas ctx ss).1.ObjectMeta ∧
      ss4.Spec.Selector
        = some { MatchLabels := some ⟨[(api.LabelWorkspaceName, ctx.Workspace.Name)]⟩ } ∧
      ss4.Spec.Template.ObjectMeta.Labels
        = some ⟨[(api.LabelWorkspaceName, ctx.Workspace.Name)]⟩ ∧
      ss4.Spec.Replicas = some (toInt32 replicas)) :=
  ⟨⟨_, rfl, rfl, rfl, rfl, rfl, rfl, rfl, rfl⟩,
   ⟨_, rfl, rfl, rfl, rfl, rfl, rfl, rfl, rfl⟩,
   ⟨_, rfl, rfl, rfl, rfl, rfl, rfl, rfl⟩,
   ⟨_, rfl, ownedByWorkspace_controllerRef api ctx.Workspace, rfl, rfl, rfl, rfl⟩⟩

/-- C22: the StatefulSet of GenerateStatefulSetManifest names as its governing
service the service of GenerateHeadlessServiceManifest for the same workspace:
`Spec.ServiceName` is that service's name, the workspace name followed by
-headless; both objects are in the workspace's namespace; and the headless
service's selector is the StatefulSet's pod-template label map. -/
theorem C22_statefulset_headless_service (api : kaitov1beta1) (w : Workspace)
    (revisionNum : String) (replicas : Int) (ss : StatefulSet) :
    (GenerateStatefulSetManifest api revisionNum replicas ⟨w⟩ ss).1.Spec.ServiceName
      = (GenerateHeadlessServiceManifest api w).ObjectMeta.Name ∧
    (GenerateHeadlessServiceManifest api w).ObjectMeta.Name = w.Name ++ "-headless" ∧
    (GenerateStatefulSetManifest api revisionNum replicas ⟨w⟩ ss).1.ObjectMeta.Namespace
      = w.Namespace ∧
    (GenerateHeadlessServiceManifest api w).ObjectMeta.Namespace = w.Namespace ∧
    (GenerateHeadlessServiceManifest api w).Spec.Selector
      = (GenerateStatefulSetManifest api revisionNum replicas ⟨w⟩
          ss).1.Spec.Template.ObjectMeta.Labels ∧
    (GenerateHeadlessServiceManifest api w).Spec.Selector
      = some ⟨[(api.LabelWorkspaceName, w.Name)]⟩ :=
  ⟨rfl, rfl, rfl, rfl, rfl, rfl⟩

/-- C23: GenerateStatefulSetManifest and GenerateDeploymentManifest assign the
draft's metadata and spec whole: for any two prior drafts the resulting metadata
and spec are the same, and applying the mutator to its own result changes
nothing.  A pod spec set, or a volume claim added, before the generate step is
gone from the result, whose pod spec is the empty one and whose claim list is
empty.  The steps do not commute: setting the pod spec after or before
generating gives the same draft only for the empty pod spec, and adding a
claim after or before generating never does. -/
theorem C23_generate_overwrites (api : kaitov1beta1) (revisionNum : String) (replicas : Int)
    (ctx : WorkspaceGeneratorContext) (ss ss2 : StatefulSet) (d d2 : Deployment)
    (podSpec : PodSpec) (claim : PersistentVolumeClaim) :
    ((GenerateStatefulSetManifest api revisionNum replicas ctx ss).1.ObjectMeta
        = (GenerateStatefulSetManifest api revisionNum replicas ctx ss2).1.ObjectMeta ∧
      (GenerateStatefulSetManifest api revisionNum replicas ctx ss).1.Spec
        = (GenerateStatefulSetManifest api revisionNum replicas ctx ss2).1.Spec ∧
      GenerateStatefulSetManifest api revisionNum replicas ctx
          (GenerateStatefulSetManifest api revisionNum replicas ctx ss).1
        = GenerateStatefulSetManifest api revisionNum replicas ctx ss) ∧
    ((GenerateDeploymentManifest api revisionNum replicas ctx d).1.ObjectMeta
        = (GenerateDeploymentManifest api revisionNum replicas ctx d2).1.ObjectMeta ∧
      (GenerateDeploymentManifest api revisionNum replicas ctx d).1.Spec
        = (GenerateDeploymentManifest api revisionNum replicas ctx d2).1.Spec ∧
      GenerateDeploymentManifest api revisionNum replicas ctx
          (GenerateDeploymentManifest api revisionNum replicas ctx d).1
        = GenerateDeploymentManifest api revisionNum replicas ctx d) ∧
    ((SetStatefulSetPodSpec (some podSpec) ctx ss).map (fun r =>
        (GenerateStatefulSetManifest api revisionNum replicas ctx r.1).1.Spec.Template.Spec)
        = some {} ∧
      (SetDeploymentPodSpec (some podSpec) ctx d).map (fun r =>
        (GenerateDeploymentManifest api revisionNum replicas ctx r.1).1.Spec.Template.Spec)
        = some {} ∧
      (GenerateStatefulSetManifest api revisionNum replicas ctx
          (AddStatefulSetVolumeClaimTemplates claim ctx ss).1).1.Spec.VolumeClaimTemplates
        = []) ∧
    (((SetStatefulSetPodSpec (some podSpec) ctx
          (GenerateStatefulSetManifest api revisionNum replicas ctx ss).1).map (fun r => r.1)
        = (SetStatefulSetPodSpec (some podSpec) ctx ss).map (fun r =>
            (GenerateStatefulSetManifest api revisionNum replicas ctx r.1).1)) ↔ podSpec = {}) ∧
    (((SetDeploymentPodSpec (some podSpec) ctx
          (GenerateDeploymentManifest api revisionNum replicas ctx d).1).map (fun r => r.1)
        = (SetDeploymentPodSpec (some podSpec) ctx d).map (fun r =>
            (GenerateDeploymentManifest api revisionNum replicas ctx r.1).1)) ↔ podSpec = {}) ∧
    (AddStatefulSetVolumeClaimTemplates claim ctx
        (GenerateStatefulSetManifest api revisionNum replicas ctx ss).1).1
      ≠ (GenerateStatefulSetManifest api revisionNum replicas ctx
        (AddStatefulSetVolumeClaimTemplates claim ctx ss).1).1 := by
  refine ⟨⟨rfl, rfl, rfl⟩, ⟨rfl, rfl, rfl⟩, ⟨rfl, rfl, rfl⟩, ?_, ?_, ?_⟩
  · constructor
    · intro h
      have h2 := congrArg (Option.map fun r : StatefulSet => r.Spec.Template.Spec) h
      simp only [SetStatefulSetPodSpec, Option.map_some', Option.some.injEq] at h2
      exact h2
    · rintro rfl
      rfl
  · constructor
    · intro h
      have h2 := congrArg (Option.map fun r : Deployment => r.Spec.Template.Spec) h
      simp only [SetDeploymentPodSpec, Option.map_some', Option.some.injEq] at h2
      exact h2
    · rintro rfl
      rfl
  · intro h
    have h2 := congrArg (fun r : StatefulSet => r.Spec.VolumeClaimTemplates.length) h
    simp [AddStatefulSetVolumeClaimTemplates, GenerateStatefulSetManifest] at h2

/-! ### Volume mounts of the puller containers -/

theorem pullerStep_mounts_fresh (deps : PullerDeps) (volumeMounts : List VolumeMount)
    (capVolumeMounts : Nat) (hcap : ¬ volumeMounts.length < capVolumeMounts)
    (st : PullerState) (a : AdapterSpec) :
    (pullerStep deps volumeMounts capVolumeMounts st a).initContainers.map Container.VolumeMounts
      = st.initContainers.map Container.VolumeMounts ++
        [volumeMounts ++ [(deps.ConfigImagePullSecretVolume
          (a.Source.Name ++ "-inference-adapter") a.Source.ImagePullSecrets).2]] := by
  unfold pullerStep
  simp only [if_neg hcap, List.map_append, List.map_cons, List.map_nil]

theorem pullerStep_mounts_shared (deps : PullerDeps) (volumeMounts : List VolumeMount)
    (capVolumeMounts : Nat) (hcap : volumeMounts.length < capVolumeMounts)
    (st : PullerState) (a : AdapterSpec) :
    (pullerStep deps volumeMounts capVolumeMounts st a).initContainers.map Container.VolumeMounts
      = List.replicate (st.initContainers.length + 1)
        (volumeMounts ++ [(deps.ConfigImagePullSecretVolume
          (a.Source.Name ++ "-inference-adapter") a.Source.ImagePullSecrets).2]) := by
  unfold pullerStep
  simp only [if_pos hcap, List.map_append, List.map_map, List.map_cons, List.map_nil]
  rw [List.replicate_succ', ← List.map_const']
  rfl

/-- Without spare capacity in the supplied slice every `append` allocates, and
the i-th container has the supplied mounts followed by the image-pull-secret
mount of the i-th adapter. -/
theorem puller_mounts_without_spare_capacity (deps : PullerDeps) (wObj : Workspace)
    (volumeMounts : List VolumeMount) (capVolumeMounts : Nat)
    (hcap : capVolumeMounts ≤ volumeMounts.length) :
    (GeneratePullerContainers deps wObj volumeMounts capVolumeMounts).1.map Container.VolumeMounts
      = wObj.Inference.Adapters.map (fun a =>
          volumeMounts ++ [(deps.ConfigImagePullSecretVolume
            (a.Source.Name ++ "-inference-adapter") a.Source.ImagePullSecrets).2]) := by
  have hnot : ¬ volumeMounts.length < capVolumeMounts := Nat.not_lt.2 hcap
  have hfold : ∀ (adapters : List AdapterSpec) (st : PullerState),
      (adapters.foldl (pullerStep deps volumeMounts capVolumeMounts) st).initContainers.map
          Container.VolumeMounts
        = st.initContainers.map Container.VolumeMounts ++ adapters.map (fun a =>
            volumeMounts ++ [(deps.ConfigImagePullSecretVolume
              (a.Source.Name ++ "-inference-adapter") a.Source.ImagePullSecrets).2]) := by
    intro adapters
    induction adapters with
    | nil => intro st; simp
    | cons a rest ih =>
      intro st
      rw [List.foldl_cons, ih, pullerStep_mounts_fresh deps volumeMounts capVolumeMounts hnot]
      simp
  show (wObj.Inference.Adapters.foldl (pullerStep deps volumeMounts capVolumeMounts)
    {}).initContainers.map Container.VolumeMounts = _
  rw [hfold]
  rfl

/-- With spare capacity in the supplied slice every `append` stores into the
same backing array, and every container ends with the supplied mounts followed
by the image-pull-secret mount of the last adapter. -/
theorem puller_mounts_with_spare_capacity (deps : PullerDeps) (wObj : Workspace)
    (volumeMounts : List VolumeMount) (capVolumeMounts : Nat)
    (hcap : volumeMounts.length < capVolumeMounts)
    (earlier : List AdapterSpec) (last : AdapterSpec)
    (hadapters : wObj.Inference.Adapters = earlier ++ [last]) :
    (GeneratePullerContainers deps wObj volumeMounts capVolumeMounts).1.map Container.VolumeMounts
      = List.replicate wObj.Inference.Adapters.length
          (volumeMounts ++ [(deps.ConfigImagePullSecretVolume
            (last.Source.Name ++ "-inference-adapter") last.Source.ImagePullSecrets).2]) := by
  have hlen : (earlier.foldl (pullerStep deps volumeMounts capVolumeMounts)
      {}).initContainers.length = earlier.length := by
    have h := congrArg List.length
      (pullerFold deps volumeMounts capVolumeMounts earlier {}).1
    simpa using h
  show (wObj.Inference.Adapters.foldl (pullerStep deps volumeMounts capVolumeMounts)
    {}).initContainers.map Container.VolumeMounts = _
  rw [hadapters, List.foldl_append, List.foldl_cons, List.foldl_nil,
    pullerStep_mounts_shared deps volumeMounts capVolumeMounts hcap, hlen]
  simp

/-- C24 (the code at the failing input): the supplied slice holds the one
mount data and has capacity 2, and the workspace has the adapters a1 and a2.
Both returned containers carry data followed by the mount of a2: the first
container has lost the mount a1-inference-adapter of its own adapter and
carries the mount of another adapter, where the claim gives it data followed
by a1-inference-adapter. -/
theorem C24_shared_backing_array :
    (GeneratePullerContainers demoDeps adapterWorkspace [dataMount] 2).1.map
        Container.VolumeMounts
      = [[dataMount, { Name := "a2-inference-adapter"
                       MountPath := "/root/.docker/config.d/a2-inference-adapter" }],
         [dataMount, { Name := "a2-inference-adapter"
                       MountPath := "/root/.docker/config.d/a2-inference-adapter" }]] ∧
    (GeneratePullerContainers demoDeps adapterWorkspace [dataMount] 2).1.map
        Container.VolumeMounts
      ≠ adapterWorkspace.Inference.Adapters.map (fun a =>
          [dataMount] ++ [(demoDeps.ConfigImagePullSecretVolume
            (a.Source.Name ++ "-inference-adapter") a.Source.ImagePullSecrets).2]) ∧
    (GeneratePullerContainers demoDeps adapterWorkspace [dataMount] 1).1.map
        Container.VolumeMounts
      = [[dataMount, { Name := "a1-inference-adapter"
                       MountPath := "/root/.docker/config.d/a1-inference-adapter" }],
         [dataMount, { Name := "a2-inference-adapter"
                       MountPath := "/root/.docker/config.d/a2-inference-adapter" }]] := by
  refine ⟨by decide, by decide, by decide⟩

/-! ### Volume mounts of the tuning job over memory -/

theorem set_getD_self {α : Type} (l : List α) (a : Nat) (d : α) :
    l.set a ((l[a]?).getD d) = l := by
  apply List.ext_getElem?
  intro n
  rw [List.getElem?_set]
  by_cases h : a = n
  · subst h
    by_cases hl : a < l.length
    · simp [hl, List.getElem?_eq_getElem hl]
    · simp [hl, List.getElem?_eq_none (Nat.le_of_not_lt hl)]
  · simp [h]

theorem getElem?_nested_set {α : Type} (L : List (List α)) (a j a2 j2 : Nat) (x : α) :
    (((L.set a (((L[a]?).getD []).set j x))[a2]?).getD [])[j2]?
      = if a2 = a ∧ j2 = j then (((L[a2]?).getD [])[j2]?).map (fun _ => x)
        else ((L[a2]?).getD [])[j2]? := by
  by_cases ha : a = a2
  · subst ha
    cases harr : L[a]? with
    | none =>
      have hl : L.length ≤ a := List.getElem?_eq_none_iff.1 harr
      rw [List.set_eq_of_length_le hl, harr]
      simp
    | some arr =>
      have hl : a < L.length := (List.getElem?_eq_some_iff.1 harr).1
      rw [List.getElem?_set, if_pos rfl, if_pos hl]
      simp only [Option.getD_some, List.getElem?_set, true_and]
      by_cases hj : j = j2
      · subst hj
        by_cases hjl : j < arr.length
        · simp [hjl, List.getElem?_eq_getElem hjl]
        · simp [hjl, List.getElem?_eq_none (Nat.le_of_not_lt hjl)]
      · have hj2 : ¬ j2 = j := fun h => hj h.symm
        simp [hj, hj2]
  · have ha2 : ¬ a2 = a := fun h => ha h.symm
    rw [List.getElem?_set_ne ha]
    simp [ha2]

theorem readMounts_stable (mem mem2 : JobMemory) (ext : List (List VolumeMount))
    (hext : mem2.mounts = mem.mounts ++ ext) (s : SliceValue)
    (hs : s.len = 0 ∨ s.array < mem.mounts.length) :
    mem2.readMounts s = mem.readMounts s := by
  rcases hs with h0 | hlt
  · simp [JobMemory.readMounts, h0]
  · simp only [JobMemory.readMounts, JobMemory.mountArray, hext,
      List.getElem?_append_left hlt]

theorem append_full (mem : JobMemory) (s : SliceValue) (elems : List VolumeMount)
    (hs : s.cap ≤ s.len) :
    (∃ ext, (mem.append s elems).1.mounts = mem.mounts ++ ext) ∧
    (mem.append s elems).1.containers = mem.containers ∧
    (mem.append s elems).1.readMounts (mem.append s elems).2 = mem.readMounts s ++ elems := by
  by_cases hcap : s.len + elems.length ≤ s.cap
  · have hlen : elems.length = 0 := by omega
    have hnil : elems = [] := List.length_eq_zero.1 hlen
    subst hnil
    have hmem : (mem.append s []).1 = mem := by
      unfold JobMemory.append
      rw [if_pos hcap]
      simp only [List.append_nil, List.length_nil, Nat.add_zero, List.take_append_drop]
      show ({ mem with mounts := mem.mounts.set s.array ((mem.mounts[s.array]?).getD []) }
        : JobMemory) = mem
      rw [set_getD_self]
    have hhdr : (mem.append s []).2 = s := by
      unfold JobMemory.append
      rw [if_pos hcap]
      rfl
    rw [hmem, hhdr]
    exact ⟨⟨[], by simp⟩, rfl, by simp⟩
  · have hmem : (mem.append s elems).1
        = { mem with mounts := mem.mounts ++ [mem.readMounts s ++ elems] } := by
      simp only [JobMemory.append, if_neg hcap, JobMemory.newMounts]
    have hhdr : (mem.append s elems).2
        = { array := mem.mounts.length, start := 0, len := (mem.readMounts s ++ elems).length
            cap := (mem.readMounts s ++ elems).length } := by
      simp only [JobMemory.append, if_neg hcap, JobMemory.newMounts]
    rw [hmem, hhdr]
    refine ⟨⟨_, rfl⟩, rfl, ?_⟩
    simp [JobMemory.readMounts, JobMemory.mountArray]

theorem cellAt_setVolumeMountsAt (mem : JobMemory) (s : SliceValue) (i : Nat)
    (mounts : SliceValue) (a j : Nat) :
    (mem.setVolumeMountsAt s i mounts).cellAt a j
      = if a = s.array ∧ j = s.start + i then
          (mem.cellAt a j).map fun c => { c with VolumeMounts := mounts }
        else mem.cellAt a j := by
  simp only [JobMemory.setVolumeMountsAt, JobMemory.cellAt, JobMemory.containerArray,
    getElem?_nested_set]
  split_ifs with h
  · obtain ⟨rfl, rfl⟩ := h
    simp only [JobMemory.containerAt, JobMemory.cellAt, JobMemory.containerArray]
    cases (mem.containers[s.array]?.getD [])[s.start + i]? <;> rfl
  · rfl

theorem cellAt_congr (mem mem2 : JobMemory) (h : mem2.containers = mem.containers) (a j : Nat) :
    mem2.cellAt a j = mem.cellAt a j := by
  simp only [JobMemory.cellAt, JobMemory.containerArray, h]

theorem mergeStep (cs vm : SliceValue) (mem : JobMemory) (i : Nat) (c : ContainerCell)
    (hc : mem.cellAt cs.array (cs.start + i) = some c)
    (hfull : c.VolumeMounts.cap ≤ c.VolumeMounts.len) :
    (∃ ext, (mergeVolumeMountsAt cs vm mem i).mounts = mem.mounts ++ ext) ∧
    (∀ a j, ¬ (a = cs.array ∧ j = cs.start + i) →
      (mergeVolumeMountsAt cs vm mem i).cellAt a j = mem.cellAt a j) ∧
    ∃ c2, (mergeVolumeMountsAt cs vm mem i).cellAt cs.array (cs.start + i) = some c2 ∧
      c2.rest = c.rest ∧
      c2.VolumeMounts.array < (mergeVolumeMountsAt cs vm mem i).mounts.length ∧
      (mergeVolumeMountsAt cs vm mem i).readMounts c2.VolumeMounts
        = DedupVolumeMounts (mem.readMounts c.VolumeMounts ++ mem.readMounts vm) := by
  have hAt : mem.containerAt cs i = c := by simp [JobMemory.containerAt, hc]
  obtain ⟨⟨ext, hext⟩, hcont, hread⟩ :=
    append_full mem c.VolumeMounts (mem.readMounts vm) hfull
  generalize hap : mem.append c.VolumeMounts (mem.readMounts vm) = ap at hext hcont hread
  have hdef : mergeVolumeMountsAt cs vm mem i
      = (ap.1.newMounts (DedupVolumeMounts (ap.1.readMounts ap.2))).1.setVolumeMountsAt cs i
          (ap.1.newMounts (DedupVolumeMounts (ap.1.readMounts ap.2))).2 := by
    simp only [mergeVolumeMountsAt, DedupVolumeMountsAt, hAt, hap]
  have hcell : ∀ a j, (ap.1.newMounts (DedupVolumeMounts (ap.1.readMounts ap.2))).1.cellAt a j
      = mem.cellAt a j := fun a j => cellAt_congr mem _ hcont a j
  rw [hdef]
  refine ⟨⟨ext ++ [DedupVolumeMounts (ap.1.readMounts ap.2)], ?_⟩, ?_, ?_⟩
  · show ap.1.mounts ++ [_] = _
    rw [hext, List.append_assoc]
  · intro a j hne
    rw [cellAt_setVolumeMountsAt, if_neg hne, hcell]
  · refine ⟨{ c with VolumeMounts :=
        (ap.1.newMounts (DedupVolumeMounts (ap.1.readMounts ap.2))).2 }, ?_, rfl, ?_, ?_⟩
    · rw [cellAt_setVolumeMountsAt, if_pos ⟨rfl, rfl⟩, hcell, hc]
      rfl
    · show ap.1.mounts.length < (ap.1.mounts ++ [_]).length
      simp
    · show List.take (DedupVolumeMounts (ap.1.readMounts ap.2)).length (List.drop 0
        (((ap.1.mounts ++ [DedupVolumeMounts (ap.1.readMounts ap.2)])[ap.1.mounts.length]?).getD
          [])) = _
      rw [List.getElem?_concat_length, hread]
      simp

theorem mergeLoop (cs vm : SliceValue) (mem : JobMemory)
    (hvm : vm.len = 0 ∨ vm.array < mem.mounts.length)
    (hcells : ∀ i < cs.len, ∃ c, mem.cellAt cs.array (cs.start + i) = some c ∧
      c.VolumeMounts.cap ≤ c.VolumeMounts.len ∧
      (c.VolumeMounts.len = 0 ∨ c.VolumeMounts.array < mem.mounts.length))
    (n : Nat) (hn : n ≤ cs.len) :
    (∃ ext, ((List.range n).foldl (mergeVolumeMountsAt cs vm) mem).mounts = mem.mounts ++ ext) ∧
    (∀ a j, ¬ (a = cs.array ∧ cs.start ≤ j ∧ j < cs.start + n) →
      ((List.range n).foldl (mergeVolumeMountsAt cs vm) mem).cellAt a j = mem.cellAt a j) ∧
    (∀ i < n, ∃ c c2, mem.cellAt cs.array (cs.start + i) = some c ∧
      ((List.range n).foldl (mergeVolumeMountsAt cs vm) mem).cellAt cs.array (cs.start + i)
        = some c2 ∧
      c2.rest = c.rest ∧
      c2.VolumeMounts.array
        < ((List.range n).foldl (mergeVolumeMountsAt cs vm) mem).mounts.length ∧
      ((List.range n).foldl (mergeVolumeMountsAt cs vm) mem).readMounts c2.VolumeMounts
        = DedupVolumeMounts (mem.readMounts c.VolumeMounts ++ mem.readMounts vm)) := by
  induction n with
  | zero =>
    refine ⟨⟨[], by simp⟩, fun _ _ _ => rfl, fun i hi => absurd hi (Nat.not_lt_zero i)⟩
  | succ n ih =>
    obtain ⟨⟨ext, hext⟩, ihOther, ihDone⟩ := ih (by omega)
    simp only [List.range_succ, List.foldl_append, List.foldl_cons, List.foldl_nil]
    generalize (List.range n).foldl (mergeVolumeMountsAt cs vm) mem = m at hext ihOther ihDone
    obtain ⟨c, hc, hfull, hvalid⟩ := hcells n (by omega)
    have hcm : m.cellAt cs.array (cs.start + n) = some c := by
      rw [ihOther _ _ (fun h => by omega)]
      exact hc
    obtain ⟨⟨ext2, hext2⟩, hother, c2, hc2, hrest, harr, hread⟩ :=
      mergeStep cs vm m n c hcm hfull
    refine ⟨⟨ext ++ ext2, by rw [hext2, hext, List.append_assoc]⟩, ?_, ?_⟩
    · intro a j hne
      rw [hother a j (fun h => hne ⟨h.1, by omega, by omega⟩),
        ihOther a j (fun h => hne ⟨h.1, h.2.1, by omega⟩)]
    · intro i hi
      by_cases hin : i = n
      · subst hin
        refine ⟨c, c2, hc, hc2, hrest, harr, ?_⟩
        rw [hread, readMounts_stable mem m ext hext _ hvalid,
          readMounts_stable mem m ext hext _ hvm]
      · obtain ⟨c1, c3, h1, h2, h3, h4, h5⟩ := ihDone i (by omega)
        refine ⟨c1, c3, h1, ?_, h3, ?_, ?_⟩
        · rw [hother _ _ (fun h => hin (by omega))]
          exact h2
        · rw [hext2, List.length_append]
          omega
        · rw [readMounts_stable m _ ext2 hext2 _ (Or.inr h4)]
          exact h5

theorem readContainers_getElem? (mem : JobMemory) (s : SliceValue) (i : Nat) :
    (mem.readContainers s)[i]?
      = if i < s.len then (mem.cellAt s.array (s.start + i)).map mem.readContainer
        else none := by
  simp only [JobMemory.readContainers, JobMemory.containerCells, JobMemory.cellAt,
    List.getElem?_map, List.getElem?_take, List.getElem?_drop]
  split_ifs <;> rfl

theorem fullMounts_cells (mem : JobMemory) (cs : SliceValue) (h : FullMounts mem cs) :
    ∀ i < cs.len, ∃ c, mem.cellAt cs.array (cs.start + i) = some c ∧
      c.VolumeMounts.cap ≤ c.VolumeMounts.len ∧
      (c.VolumeMounts.len = 0 ∨ c.VolumeMounts.array < mem.mounts.length) := by
  intro i hi
  have hlt : i < (mem.containerCells cs).length := by rw [h.1]; exact hi
  have hget : (mem.containerCells cs)[i]? = some ((mem.containerCells cs)[i]) :=
    List.getElem?_eq_getElem hlt
  have hcell : mem.cellAt cs.array (cs.start + i) = (mem.containerCells cs)[i]? := by
    simp only [JobMemory.containerCells, JobMemory.cellAt, List.getElem?_take,
      List.getElem?_drop, if_pos hi]
  exact ⟨_, hcell.trans hget, h.2 _ (List.getElem_mem hlt)⟩

theorem cellAt_newContainers (mem : JobMemory) (cells : List ContainerCell) (a j : Nat)
    (c : ContainerCell) (h : mem.cellAt a j = some c) :
    (mem.newContainers cells).1.cellAt a j = some c := by
  simp only [JobMemory.cellAt, JobMemory.containerArray] at h
  cases harr : mem.containers[a]? with
  | none => simp [harr] at h
  | some arr =>
    have hl : a < mem.containers.length := (List.getElem?_eq_some_iff.1 harr).1
    simp only [JobMemory.cellAt, JobMemory.containerArray, JobMemory.newContainers,
      List.getElem?_append_left hl]
    exact h

theorem containerCells_newContainers (mem : JobMemory) (cells : List ContainerCell) :
    (mem.newContainers cells).1.containerCells (mem.newContainers cells).2 = cells := by
  simp [JobMemory.containerCells, JobMemory.containerArray, JobMemory.newContainers]

theorem mergeLoops (init side vm : SliceValue) (mem : JobMemory)
    (hinit : FullMounts mem init) (hside : FullMounts mem side) (hapart : Apart init side)
    (hvm : vm.len = 0 ∨ vm.array < mem.mounts.length) :
    (∃ ext, ((List.range side.len).foldl (mergeVolumeMountsAt side vm)
      ((List.range init.len).foldl (mergeVolumeMountsAt init vm) mem)).mounts
        = mem.mounts ++ ext) ∧
    (∀ i < init.len, ∃ c c2, mem.cellAt init.array (init.start + i) = some c ∧
      ((List.range side.len).foldl (mergeVolumeMountsAt side vm)
        ((List.range init.len).foldl (mergeVolumeMountsAt init vm) mem)).cellAt init.array
          (init.start + i) = some c2 ∧
      ((List.range side.len).foldl (mergeVolumeMountsAt side vm)
        ((List.range init.len).foldl (mergeVolumeMountsAt init vm) mem)).readContainer c2
        = (fun k : Container =>
            { k with VolumeMounts := DedupVolumeMounts (k.VolumeMounts ++ mem.readMounts vm) })
          (mem.readContainer c)) ∧
    (∀ i < side.len, ∃ c c2, mem.cellAt side.array (side.start + i) = some c ∧
      ((List.range side.len).foldl (mergeVolumeMountsAt side vm)
        ((List.range init.len).foldl (mergeVolumeMountsAt init vm) mem)).cellAt side.array
          (side.start + i) = some c2 ∧
      ((List.range side.len).foldl (mergeVolumeMountsAt side vm)
        ((List.range init.len).foldl (mergeVolumeMountsAt init vm) mem)).readContainer c2
        = (fun k : Container =>
            { k with VolumeMounts := DedupVolumeMounts (k.VolumeMounts ++ mem.readMounts vm) })
          (mem.readContainer c)) := by
  obtain ⟨⟨ext1, hext1⟩, other1, done1⟩ :=
    mergeLoop init vm mem hvm (fullMounts_cells mem init hinit) init.len (Nat.le_refl _)
  generalize (List.range init.len).foldl (mergeVolumeMountsAt init vm) mem = mem1
    at hext1 other1 done1
  have hvm1 : vm.len = 0 ∨ vm.array < mem1.mounts.length := by
    rcases hvm with h | h
    · exact Or.inl h
    · right
      rw [hext1, List.length_append]
      omega
  have hsideOrig : ∀ i < side.len,
      mem1.cellAt side.array (side.start + i) = mem.cellAt side.array (side.start + i) := by
    intro i hi
    apply other1
    rintro ⟨h1, h2, h3⟩
    rcases hapart with h | h | h
    · exact h h1.symm
    · omega
    · omega
  have hcells1 : ∀ i < side.len, ∃ c, mem1.cellAt side.array (side.start + i) = some c ∧
      c.VolumeMounts.cap ≤ c.VolumeMounts.len ∧
      (c.VolumeMounts.len = 0 ∨ c.VolumeMounts.array < mem1.mounts.length) := by
    intro i hi
    obtain ⟨c, hc, hfull, hvalid⟩ := fullMounts_cells mem side hside i hi
    refine ⟨c, (hsideOrig i hi).trans hc, hfull, ?_⟩
    rcases hvalid with h | h
    · exact Or.inl h
    · right
      rw [hext1, List.length_append]
      omega
  obtain ⟨⟨ext2, hext2⟩, other2, done2⟩ :=
    mergeLoop side vm mem1 hvm1 hcells1 side.len (Nat.le_refl _)
  generalize (List.range side.len).foldl (mergeVolumeMountsAt side vm) mem1 = mem2
    at hext2 other2 done2
  refine ⟨⟨ext1 ++ ext2, by rw [hext2, hext1, List.append_assoc]⟩, ?_, ?_⟩
  · intro i hi
    obtain ⟨c, c2, hc, hc2, hrest, harr, hread⟩ := done1 i hi
    refine ⟨c, c2, hc, ?_, ?_⟩
    · rw [other2]
      · exact hc2
      · rintro ⟨h1, h2, h3⟩
        rcases hapart with h | h | h
        · exact h h1
        · omega
        · omega
    · show ({ c2.rest with VolumeMounts := mem2.readMounts c2.VolumeMounts } : Container) = _
      rw [readMounts_stable mem1 mem2 ext2 hext2 _ (Or.inr harr), hread, hrest]
      rfl
  · intro i hi
    obtain ⟨c, c2, hc, hc2, hrest, harr, hread⟩ := done2 i hi
    obtain ⟨c0, hc0, hfull, hvalid⟩ := fullMounts_cells mem side hside i hi
    have hcc : c = c0 := by
      have := (hsideOrig i hi).symm.trans hc
      rw [hc0] at this
      exact (Option.some.inj this).symm
    subst hcc
    refine ⟨c, c2, hc0, hc2, ?_⟩
    show ({ c2.rest with VolumeMounts := mem2.readMounts c2.VolumeMounts } : Container) = _
    rw [hread, hrest, readMounts_stable mem mem1 ext1 hext1 _ hvalid,
      readMounts_stable mem mem1 ext1 hext1 _ hvm]
    rfl

theorem readContainers_of_cells (mem mem2 : JobMemory) (s : SliceValue)
    (f : Container → Container)
    (h : ∀ i < s.len, ∃ c c2, mem.cellAt s.array (s.start + i) = some c ∧
      mem2.cellAt s.array (s.start + i) = some c2 ∧
      mem2.readContainer c2 = f (mem.readContainer c)) :
    mem2.readContainers s = (mem.readContainers s).map f := by
  apply List.ext_getElem?
  intro i
  rw [List.getElem?_map, readContainers_getElem?, readContainers_getElem?]
  by_cases hi : i < s.len
  · obtain ⟨c, c2, hc, hc2, hr⟩ := h i hi
    simp only [if_pos hi, hc, hc2, Option.map_some', hr]
  · simp only [if_neg hi, Option.map_none']

/-- When the mount slice of no init or sidecar container has spare capacity,
the two slices of containers have no element in common and the supplied mounts
are in memory, no `append` of the two loops stores into an array that is
already there, and the job that `GenerateTuningJobManifestAt` returns is the
job of `GenerateTuningJobManifest` on the arguments read as values. -/
theorem tuningJobAt_refines (api : kaitov1beta1) (mem : JobMemory) (wObj : Workspace)
    (revisionNum imageName : String) (imagePullSecretRefs : List LocalObjectReference)
    (replicas : Int) (commands : List String) (containerPorts : List ContainerPort)
    (livenessProbe readinessProbe : Option Probe) (resourceRequirements : ResourceRequirements)
    (tolerations : Option (List Toleration)) (initContainers sidecarContainers : SliceValue)
    (volumes : List Volume) (volumeMounts : SliceValue) (envVars : List EnvVar)
    (hinit : FullMounts mem initContainers) (hside : FullMounts mem sidecarContainers)
    (hapart : Apart initContainers sidecarContainers)
    (hvm : volumeMounts.len = 0 ∨ volumeMounts.array < mem.mounts.length) :
    (GenerateTuningJobManifestAt api mem wObj revisionNum imageName imagePullSecretRefs
        replicas commands containerPorts livenessProbe readinessProbe resourceRequirements
        tolerations initContainers sidecarContainers volumes volumeMounts envVars).1.readJob
      (GenerateTuningJobManifestAt api mem wObj revisionNum imageName imagePullSecretRefs
        replicas commands containerPorts livenessProbe readinessProbe resourceRequirements
        tolerations initContainers sidecarContainers volumes volumeMounts envVars).2
      = GenerateTuningJobManifest api wObj revisionNum imageName imagePullSecretRefs replicas
          commands containerPorts livenessProbe readinessProbe resourceRequirements tolerations
          (mem.readContainers initContainers) (mem.readContainers sidecarContainers) volumes
          (mem.readMounts volumeMounts) envVars := by
  obtain ⟨⟨ext, hext⟩, hI, hS⟩ :=
    mergeLoops initContainers sidecarContainers volumeMounts mem hinit hside hapart hvm
  simp only [GenerateTuningJobManifestAt, GenerateTuningJobManifest, JobMemory.readJob]
  generalize (List.range sidecarContainers.len).foldl
    (mergeVolumeMountsAt sidecarContainers volumeMounts)
    ((List.range initContainers.len).foldl (mergeVolumeMountsAt initContainers volumeMounts)
      mem) = mem2 at hext hI hS
  generalize hmain : ({ VolumeMounts := volumeMounts
                        rest :=
                          { Name := wObj.Name
                            Image := imageName
                            Command := commands
                            Resources := resourceRequirements
                            LivenessProbe := livenessProbe
                            ReadinessProbe := readinessProbe
                            Ports := containerPorts
                            Env := envVars } } : ContainerCell) = main
  have hsideR : mem2.readContainers sidecarContainers
      = (mem.readContainers sidecarContainers).map fun k =>
          { k with VolumeMounts :=
              DedupVolumeMounts (k.VolumeMounts ++ mem.readMounts volumeMounts) } :=
    readContainers_of_cells mem mem2 sidecarContainers _ hS
  have hinitR : (mem2.newContainers (main :: mem2.containerCells sidecarContainers)).1.readContainers
      initContainers
      = (mem.readContainers initContainers).map fun k =>
          { k with VolumeMounts :=
              DedupVolumeMounts (k.VolumeMounts ++ mem.readMounts volumeMounts) } := by
    apply readContainers_of_cells mem _ initContainers
    intro i hi
    obtain ⟨c, c2, hc, hc2, hr⟩ := hI i hi
    exact ⟨c, c2, hc, cellAt_newContainers _ _ _ _ _ hc2, hr⟩
  have hcontR : (mem2.newContainers (main :: mem2.containerCells sidecarContainers)).1.readContainers
      (mem2.newContainers (main :: mem2.containerCells sidecarContainers)).2
      = { main.rest with VolumeMounts := mem.readMounts volumeMounts } ::
          (mem.readContainers sidecarContainers).map fun k =>
            { k with VolumeMounts :=
                DedupVolumeMounts (k.VolumeMounts ++ mem.readMounts volumeMounts) } := by
    rw [← hsideR, JobMemory.readContainers, containerCells_newContainers, List.map_cons,
      ← readMounts_stable mem mem2 ext hext _ hvm, ← hmain]
    rfl
  have hlen : (mem.readContainers sidecarContainers).length = sidecarContainers.len := by
    rw [JobMemory.readContainers, List.length_map, hside.1]
  rw [hinitR, hcontR, ← hmain]
  simp only [List.length_map, hlen]
  rfl

/-- For every memory in which the slice of sidecar containers lies within its
array, the job that `GenerateTuningJobManifestAt` returns agrees with the job
of `GenerateTuningJobManifest` on the arguments read as values in everything
but the two lists of containers: the stores of the loops reach no other
field. -/
theorem tuningJobAt_frame (api : kaitov1beta1) (mem : JobMemory) (wObj : Workspace)
    (revisionNum imageName : String) (imagePullSecretRefs : List LocalObjectReference)
    (replicas : Int) (commands : List String) (containerPorts : List ContainerPort)
    (livenessProbe readinessProbe : Option Probe) (resourceRequirements : ResourceRequirements)
    (tolerations : Option (List Toleration)) (initContainers sidecarContainers : SliceValue)
    (volumes : List Volume) (volumeMounts : SliceValue) (envVars : List EnvVar)
    (hside : (mem.containerCells sidecarContainers).length = sidecarContainers.len) :
    withoutContainers
      ((GenerateTuningJobManifestAt api mem wObj revisionNum imageName imagePullSecretRefs
          replicas commands containerPorts livenessProbe readinessProbe resourceRequirements
          tolerations initContainers sidecarContainers volumes volumeMounts envVars).1.readJob
        (GenerateTuningJobManifestAt api mem wObj revisionNum imageName imagePullSecretRefs
          replicas commands containerPorts livenessProbe readinessProbe resourceRequirements
          tolerations initContainers sidecarContainers volumes volumeMounts envVars).2)
      = withoutContainers
        (GenerateTuningJobManifest api wObj revisionNum imageName imagePullSecretRefs replicas
          commands containerPorts livenessProbe readinessProbe resourceRequirements tolerations
          (mem.readContainers initContainers) (mem.readContainers sidecarContainers) volumes
          (mem.readMounts volumeMounts) envVars) := by
  have hlen : (mem.readContainers sidecarContainers).length = sidecarContainers.len := by
    rw [JobMemory.readContainers, List.length_map, hside]
  simp only [withoutContainers, GenerateTuningJobManifestAt, GenerateTuningJobManifest,
    JobMemory.readJob, List.length_map, hlen]

/-- When the mount slice of no init or sidecar container has spare capacity,
the two slices of containers have no element in common and the supplied mounts
are in memory, every init container and every sidecar container of the job
that `GenerateTuningJobManifestAt` returns is the supplied container with its
own mounts followed by the supplied mounts, de-duplicated by mount path with
the first occurrence kept. -/
theorem tuningJobAt_mounts_merged (api : kaitov1beta1) (mem : JobMemory) (wObj : Workspace)
    (revisionNum imageName : String) (imagePullSecretRefs : List LocalObjectReference)
    (replicas : Int) (commands : List String) (containerPorts : List ContainerPort)
    (livenessProbe readinessProbe : Option Probe) (resourceRequirements : ResourceRequirements)
    (tolerations : Option (List Toleration)) (initContainers sidecarContainers : SliceValue)
    (volumes : List Volume) (volumeMounts : SliceValue) (envVars : List EnvVar)
    (hinit : FullMounts mem initContainers) (hside : FullMounts mem sidecarContainers)
    (hapart : Apart initContainers sidecarContainers)
    (hvm : volumeMounts.len = 0 ∨ volumeMounts.array < mem.mounts.length) :
    List.Forall₂ (MountsMerged (mem.readMounts volumeMounts))
      (mem.readContainers initContainers)
      ((GenerateTuningJobManifestAt api mem wObj revisionNum imageName imagePullSecretRefs
          replicas commands containerPorts livenessProbe readinessProbe resourceRequirements
          tolerations initContainers sidecarContainers volumes volumeMounts envVars).1.readJob
        (GenerateTuningJobManifestAt api mem wObj revisionNum imageName imagePullSecretRefs
          replicas commands containerPorts livenessProbe readinessProbe resourceRequirements
          tolerations initContainers sidecarContainers volumes volumeMounts
          envVars).2).Spec.Template.Spec.InitContainers ∧
    List.Forall₂ (MountsMerged (mem.readMounts volumeMounts))
      (mem.readContainers sidecarContainers)
      ((GenerateTuningJobManifestAt api mem wObj revisionNum imageName imagePullSecretRefs
          replicas commands containerPorts livenessProbe readinessProbe resourceRequirements
          tolerations initContainers sidecarContainers volumes volumeMounts envVars).1.readJob
        (GenerateTuningJobManifestAt api mem wObj revisionNum imageName imagePullSecretRefs
          replicas commands containerPorts livenessProbe readinessProbe resourceRequirements
          tolerations initContainers sidecarContainers volumes volumeMounts
          envVars).2).Spec.Template.Spec.Containers.tail := by
  rw [tuningJobAt_refines api mem wObj revisionNum imageName imagePullSecretRefs replicas
    commands containerPorts livenessProbe readinessProbe resourceRequirements tolerations
    initContainers sidecarContainers volumes volumeMounts envVars hinit hside hapart hvm]
  exact tuningJob_mounts_merged _ _ _ _ _ _ _ _ _ _ _ _ _ _ _ _ _

/-- The memory with an array of mounts for each of the two init containers
meets the conditions, and there the code gives init-0 the mounts a, v and
init-1 the mounts a, b, v. -/
theorem tuningJobAt_mounts_merged_sample :
    FullMounts separateMounts bothInits ∧
    List.Forall₂ (MountsMerged [mountV])
      [{ Name := "init-0", VolumeMounts := [mountA] },
       { Name := "init-1", VolumeMounts := [mountA, mountB] }]
      ((tuningJobOn separateMounts).1.readJob
        (tuningJobOn separateMounts).2).Spec.Template.Spec.InitContainers :=
  ⟨by unfold FullMounts; decide,
   (tuningJobAt_mounts_merged demoApi separateMounts demoWorkspace "1" "tuning:1" [] 1 ["run"]
      [] none none {} none bothInits {} [] suppliedMounts []
      (by unfold FullMounts; decide) (by unfold FullMounts; decide) (by unfold Apart; decide)
      (by decide)).1⟩

/-- C7 (the code at the failing input): the init containers init-0 and init-1
have as mounts the slices `base[:1]` and `base` of one array that holds a and
b, and the supplied mount is v.  As values init-0 has the mount a and init-1
the mounts a and b, so the claim gives init-1 the mounts a, b, v.  The append
for init-0 has capacity left and stores v into the shared array, over b; the
code then leaves both containers with a, v: the own mount b of init-1 is lost
and its path /b is no longer present, so init-1 is not the container with its
own and the supplied mounts merged.  With an array of its own for each of the
two containers the code gives a, v and a, b, v. -/
theorem C7_shared_mount_array :
    (sharedMounts.readContainers bothInits).map Container.VolumeMounts
      = [[mountA], [mountA, mountB]] ∧
    sharedMounts.readMounts suppliedMounts = [mountV] ∧
    (sharedMounts.append (sharedMounts.containerAt bothInits 0).VolumeMounts
        (sharedMounts.readMounts suppliedMounts)).1.mountArray 0 = [mountA, mountV] ∧
    ((tuningJobOn sharedMounts).1.readJob
        (tuningJobOn sharedMounts).2).Spec.Template.Spec.InitContainers.map
        Container.VolumeMounts
      = [[mountA, mountV], [mountA, mountV]] ∧
    ¬ List.Forall₂ (MountsMerged (sharedMounts.readMounts suppliedMounts))
        (sharedMounts.readContainers bothInits)
        ((tuningJobOn sharedMounts).1.readJob
          (tuningJobOn sharedMounts).2).Spec.Template.Spec.InitContainers ∧
    ((tuningJobOn separateMounts).1.readJob
        (tuningJobOn separateMounts).2).Spec.Template.Spec.InitContainers.map
        Container.VolumeMounts
      = [[mountA, mountV], [mountA, mountB, mountV]] := by
  refine ⟨by decide, by decide, by decide, by decide, ?_, by decide⟩
  have hin : sharedMounts.readContainers bothInits
      = [{ Name := "init-0", VolumeMounts := [mountA] },
         { Name := "init-1", VolumeMounts := [mountA, mountB] }] := by decide
  have hout : ((tuningJobOn sharedMounts).1.readJob
      (tuningJobOn sharedMounts).2).Spec.Template.Spec.InitContainers
      = [{ Name := "init-0", VolumeMounts := [mountA, mountV] },
         { Name := "init-1", VolumeMounts := [mountA, mountV] }] := by decide
  rw [hin, hout]
  intro h
  cases h with
  | cons _ h1 =>
    cases h1 with
    | cons h1 _ =>
      have hpath := h1.2.2.2.1 mountB (by decide)
      revert hpath
      decide

end Kaito
